import Mathlib

/-!
# Region alignment of `do_drop1` (jpegtran.c)

A shallow embedding of the per-region loop of `do_drop1` in `src/jpegtran.c`
(lines 787-1211) and of the two inline alignment blocks it runs for every
region (lines 817-1002 and 1016-1201).

* `JDIMENSION` is `unsigned int`; values are natural numbers and every
  `JDIMENSION` addition and subtraction is taken modulo `2^32`
  (`jd_add`, `jd_sub`).
* The process-wide `transformoption` record is passed explicitly.
* A `return` inside an alignment block leaves `do_drop1` altogether; the
  blocks therefore return `Option`, `none` standing for the early return.
* Each block is embedded step by step, one definition per run of lines, and
  the two blocks are embedded separately.
* Region fields are natural numbers: the batch holds non-negative integers.
* `jtransform_perfect_transform` and `do_drop` live outside `jpegtran.c`.
  The former is a parameter of the model; of the latter only the argument
  list of each call is recorded.
-/

namespace JpegTran

/-! ## Data model -/

/-- Transform kinds of `transupp.h`. -/
inductive JXFORM_CODE where
  | JXFORM_NONE
  | JXFORM_FLIP_H
  | JXFORM_FLIP_V
  | JXFORM_TRANSPOSE
  | JXFORM_TRANSVERSE
  | JXFORM_ROT_90
  | JXFORM_ROT_180
  | JXFORM_ROT_270
  | JXFORM_WIPE
  | JXFORM_DROP
  deriving DecidableEq, Repr

/-- How a crop parameter was given (`transupp.h`). -/
inductive JCROP_CODE where
  | JCROP_UNSET
  | JCROP_POS
  | JCROP_NEG
  | JCROP_FORCE
  deriving DecidableEq, Repr

open JXFORM_CODE JCROP_CODE

/-- The two sampling factors of a component that the alignment reads. -/
structure jpeg_component_info where
  h_samp_factor : Nat
  v_samp_factor : Nat
  deriving DecidableEq, Repr

/-- The fields of a decompression object that `do_drop1` reads.
`comp_info` is the component array, indexed by component number. -/
structure jpeg_decompress_struct where
  output_width : Nat
  output_height : Nat
  num_components : Nat
  max_h_samp_factor : Nat
  max_v_samp_factor : Nat
  min_DCT_h_scaled_size : Nat
  min_DCT_v_scaled_size : Nat
  comp_info : Nat → jpeg_component_info

/-- The fields of `jpeg_transform_info` (the global `transformoption`) that
the alignment blocks read or write.  `drop_ptr` is passed separately. -/
structure jpeg_transform_info where
  transform : JXFORM_CODE
  perfect : Bool
  crop : Bool
  crop_width : Nat
  crop_width_set : JCROP_CODE
  crop_height : Nat
  crop_height_set : JCROP_CODE
  crop_xoffset : Nat
  crop_xoffset_set : JCROP_CODE
  crop_yoffset : Nat
  crop_yoffset_set : JCROP_CODE
  num_components : Nat
  output_width : Nat
  output_height : Nat
  x_crop_offset : Nat
  y_crop_offset : Nat
  drop_width : Nat
  drop_height : Nat
  iMCU_sample_width : Nat
  iMCU_sample_height : Nat
  deriving DecidableEq, Repr

/-- The arguments of one `do_drop` call that come out of the alignment
(lines 1204-1206): destination offset, drop size, and the source offset
`crop1`, `crop2` saved after the first alignment. -/
structure do_drop_args where
  x_crop_offset : Nat
  y_crop_offset : Nat
  drop_width : Nat
  drop_height : Nat
  crop1 : Nat
  crop2 : Nat
  deriving DecidableEq, Repr

/-! ## `JDIMENSION` arithmetic -/

/-- Number of values of `unsigned int`. -/
def UINT_RANGE : Nat := 4294967296

/-- Unsigned 32-bit addition. -/
def jd_add (a b : Nat) : Nat := (a + b) % UINT_RANGE

/-- Unsigned 32-bit subtraction. -/
def jd_sub (a b : Nat) : Nat := (a + (UINT_RANGE - b % UINT_RANGE)) % UINT_RANGE

/-! ## Helpers outside `jpegtran.c` -/

/-- Signature of `jtransform_perfect_transform (image_width, image_height,
MCU_width, MCU_height, transform)`; the function is a parameter of the
model. -/
abbrev perfect_transform_fn := Nat → Nat → Nat → Nat → JXFORM_CODE → Bool

/-- Modelled from the spec: `jtransform_parse_crop_spec` is defined outside
`jpegtran.c`.  `do_drop1` only calls it on texts printed with `"+%d+%d"`;
for non-negative `x`, `y` the crop request is recorded with both offsets
given as positive offsets and with width and height unset. -/
def jtransform_parse_crop_spec (info : jpeg_transform_info) (x y : Nat) :
    jpeg_transform_info :=
  { info with
    crop := true
    crop_width_set := JCROP_UNSET
    crop_height_set := JCROP_UNSET
    crop_xoffset_set := JCROP_POS
    crop_xoffset := x
    crop_yoffset_set := JCROP_POS
    crop_yoffset := y }

/-! ## First alignment block (lines 817-1002)

The block is cut into its consecutive steps.  Where every branch of an `if`
assigns the same field, the `if` is written inside the field's new value. -/

/-- Lines 823-839: the block returns because the transformation is not
perfect. -/
def perfect_rejects1 (perfect_transform : perfect_transform_fn)
    (srcinfo : jpeg_decompress_struct) (t0 : jpeg_transform_info) : Prop :=
  t0.perfect = true ∧
    (if t0.num_components = 1 then
      perfect_transform t0.output_width srcinfo.output_height
        srcinfo.min_DCT_h_scaled_size srcinfo.min_DCT_v_scaled_size t0.transform = false
    else
      perfect_transform srcinfo.output_width srcinfo.output_height
        (srcinfo.max_h_samp_factor * srcinfo.min_DCT_h_scaled_size)
        (srcinfo.max_v_samp_factor * srcinfo.min_DCT_v_scaled_size) t0.transform = false)

instance (perfect_transform : perfect_transform_fn) (srcinfo : jpeg_decompress_struct)
    (t0 : jpeg_transform_info) : Decidable (perfect_rejects1 perfect_transform srcinfo t0) := by
  unfold perfect_rejects1
  infer_instance

/-- Lines 846-876: output size and iMCU sample size. -/
def set_units1 (srcinfo : jpeg_decompress_struct) (t0 : jpeg_transform_info) :
    jpeg_transform_info :=
  match t0.transform with
  | JXFORM_TRANSPOSE | JXFORM_TRANSVERSE | JXFORM_ROT_90 | JXFORM_ROT_270 =>
    { t0 with
      output_width := srcinfo.output_height
      output_height := srcinfo.output_width
      iMCU_sample_width :=
        if t0.num_components = 1 then srcinfo.min_DCT_v_scaled_size
        else srcinfo.max_v_samp_factor * srcinfo.min_DCT_v_scaled_size
      iMCU_sample_height :=
        if t0.num_components = 1 then srcinfo.min_DCT_h_scaled_size
        else srcinfo.max_h_samp_factor * srcinfo.min_DCT_h_scaled_size }
  | _ =>
    { t0 with
      output_width := srcinfo.output_width
      output_height := srcinfo.output_height
      iMCU_sample_width :=
        if t0.num_components = 1 then srcinfo.min_DCT_h_scaled_size
        else srcinfo.max_h_samp_factor * srcinfo.min_DCT_h_scaled_size
      iMCU_sample_height :=
        if t0.num_components = 1 then srcinfo.min_DCT_v_scaled_size
        else srcinfo.max_v_samp_factor * srcinfo.min_DCT_v_scaled_size }

/-- Lines 883-886: default values for unset crop offsets. -/
def default_offsets1 (t1 : jpeg_transform_info) : jpeg_transform_info :=
  { t1 with
    crop_xoffset := if t1.crop_xoffset_set = JCROP_UNSET then 0 else t1.crop_xoffset
    crop_yoffset := if t1.crop_yoffset_set = JCROP_UNSET then 0 else t1.crop_yoffset }

/-- Lines 887-905: the conditions under which the width check returns. -/
def width_rejected1 (t3 : jpeg_transform_info) : Prop :=
  if t3.crop_width_set = JCROP_UNSET then
    t3.crop_xoffset ≥ t3.output_width
  else if t3.crop_width > t3.output_width then
    t3.transform ≠ JXFORM_NONE ∨ t3.crop_xoffset ≥ t3.crop_width ∨
      t3.crop_xoffset > jd_sub t3.crop_width t3.output_width
  else
    t3.crop_xoffset ≥ t3.output_width ∨ t3.crop_width ≤ 0 ∨
      t3.crop_xoffset > jd_sub t3.output_width t3.crop_width

instance (t3 : jpeg_transform_info) : Decidable (width_rejected1 t3) := by
  unfold width_rejected1
  infer_instance

/-- Line 890: the default value for an unset crop width. -/
def default_width1 (t3 : jpeg_transform_info) : jpeg_transform_info :=
  { t3 with
    crop_width :=
      if t3.crop_width_set = JCROP_UNSET then jd_sub t3.output_width t3.crop_xoffset
      else t3.crop_width }

/-- Lines 906-924: the conditions under which the height check returns. -/
def height_rejected1 (t4 : jpeg_transform_info) : Prop :=
  if t4.crop_height_set = JCROP_UNSET then
    t4.crop_yoffset ≥ t4.output_height
  else if t4.crop_height > t4.output_height then
    t4.transform ≠ JXFORM_NONE ∨ t4.crop_yoffset ≥ t4.crop_height ∨
      t4.crop_yoffset > jd_sub t4.crop_height t4.output_height
  else
    t4.crop_yoffset ≥ t4.output_height ∨ t4.crop_height ≤ 0 ∨
      t4.crop_yoffset > jd_sub t4.output_height t4.crop_height

instance (t4 : jpeg_transform_info) : Decidable (height_rejected1 t4) := by
  unfold height_rejected1
  infer_instance

/-- Line 909: the default value for an unset crop height. -/
def default_height1 (t4 : jpeg_transform_info) : jpeg_transform_info :=
  { t4 with
    crop_height :=
      if t4.crop_height_set = JCROP_UNSET then jd_sub t4.output_height t4.crop_yoffset
      else t4.crop_height }

/-- Lines 926-931: the local `xoffset`, a regular offset from the left edge. -/
def regular_xoffset1 (t5 : jpeg_transform_info) : Nat :=
  if t5.crop_xoffset_set ≠ JCROP_NEG then t5.crop_xoffset
  else if t5.crop_width > t5.output_width then
    jd_sub (jd_sub t5.crop_width t5.output_width) t5.crop_xoffset
  else jd_sub (jd_sub t5.output_width t5.crop_width) t5.crop_xoffset

/-- Lines 932-937: the local `yoffset`, a regular offset from the top edge. -/
def regular_yoffset1 (t5 : jpeg_transform_info) : Nat :=
  if t5.crop_yoffset_set ≠ JCROP_NEG then t5.crop_yoffset
  else if t5.crop_height > t5.output_height then
    jd_sub (jd_sub t5.crop_height t5.output_height) t5.crop_yoffset
  else jd_sub (jd_sub t5.output_height t5.crop_height) t5.crop_yoffset

/-- Sampling-factor loop of the first block (lines 964-976): `n` iterations
are left, starting at component `ci`; `false` is the early `return`. -/
def samp_loop1 (srcinfo dropinfo : jpeg_decompress_struct) : Nat → Nat → Bool
  | 0, _ => true
  | n + 1, ci =>
    if (dropinfo.comp_info ci).h_samp_factor * srcinfo.max_h_samp_factor ≠
        (srcinfo.comp_info ci).h_samp_factor * dropinfo.max_h_samp_factor then false
    else if (dropinfo.comp_info ci).v_samp_factor * srcinfo.max_v_samp_factor ≠
        (srcinfo.comp_info ci).v_samp_factor * dropinfo.max_v_samp_factor then false
    else samp_loop1 srcinfo dropinfo n (ci + 1)

/-- Lines 940-977 and 995-996: the case `JXFORM_DROP` of the switch, followed
by the store of the offsets in iMCUs. -/
def snap_drop1 (srcinfo dropinfo : jpeg_decompress_struct) (t5 : jpeg_transform_info)
    (xoffset yoffset : Nat) : Option jpeg_transform_info :=
  -- lines 942-951
  let itemp : Nat := t5.iMCU_sample_width
  let dtemp : Nat := jd_sub (jd_sub itemp 1) (jd_sub (jd_add xoffset itemp) 1 % itemp)
  let xoffset : Nat := jd_add xoffset dtemp
  let t6 : jpeg_transform_info :=
    { t5 with
      drop_width :=
        if t5.crop_width ≤ dtemp then 0
        else if jd_sub (jd_add xoffset t5.crop_width) dtemp = t5.output_width then
          jd_sub (jd_add (jd_sub t5.crop_width dtemp) itemp) 1 / itemp
        else jd_sub t5.crop_width dtemp / itemp }
  -- lines 952-961
  let itemp : Nat := t6.iMCU_sample_height
  let dtemp : Nat := jd_sub (jd_sub itemp 1) (jd_sub (jd_add yoffset itemp) 1 % itemp)
  let yoffset : Nat := jd_add yoffset dtemp
  let t7 : jpeg_transform_info :=
    { t6 with
      drop_height :=
        if t6.crop_height ≤ dtemp then 0
        else if jd_sub (jd_add yoffset t6.crop_height) dtemp = t6.output_height then
          jd_sub (jd_add (jd_sub t6.crop_height dtemp) itemp) 1 / itemp
        else jd_sub t6.crop_height dtemp / itemp }
  -- lines 963-976
  if t7.drop_width ≠ 0 ∧ t7.drop_height ≠ 0 ∧
      samp_loop1 srcinfo dropinfo (min t7.num_components dropinfo.num_components) 0 = false
  then none
  else
    -- lines 995-996
    some { t7 with
      x_crop_offset := xoffset / t7.iMCU_sample_width
      y_crop_offset := yoffset / t7.iMCU_sample_height }

/-- Lines 978-992 and 995-996: the `default` case of the switch, followed by
the store of the offsets in iMCUs. -/
def snap_cover1 (t5 : jpeg_transform_info) (xoffset yoffset : Nat) : jpeg_transform_info :=
  -- lines 980-991
  let t6 : jpeg_transform_info :=
    { t5 with
      output_width :=
        if t5.crop_width_set = JCROP_FORCE ∨ t5.crop_width > t5.output_width then
          t5.crop_width
        else jd_add t5.crop_width (xoffset % t5.iMCU_sample_width) }
  let t7 : jpeg_transform_info :=
    { t6 with
      output_height :=
        if t6.crop_height_set = JCROP_FORCE ∨ t6.crop_height > t6.output_height then
          t6.crop_height
        else jd_add t6.crop_height (yoffset % t6.iMCU_sample_height) }
  -- lines 995-996
  { t7 with
    x_crop_offset := xoffset / t7.iMCU_sample_width
    y_crop_offset := yoffset / t7.iMCU_sample_height }

/-- The first inline alignment block of the per-region loop. -/
def align_block1 (perfect_transform : perfect_transform_fn)
    (srcinfo dropinfo : jpeg_decompress_struct) (t0 : jpeg_transform_info) :
    Option jpeg_transform_info :=
  -- lines 823-839
  if perfect_rejects1 perfect_transform srcinfo t0 then none else
  -- lines 846-876
  let t1 := set_units1 srcinfo t0
  -- lines 881, 997-1000
  if t1.crop = false then some { t1 with x_crop_offset := 0, y_crop_offset := 0 } else
  -- lines 883-886
  let t3 := default_offsets1 t1
  -- lines 887-905
  if width_rejected1 t3 then none else
  let t4 := default_width1 t3
  -- lines 906-924
  if height_rejected1 t4 then none else
  let t5 := default_height1 t4
  -- lines 926-937
  let xoffset := regular_xoffset1 t5
  let yoffset := regular_yoffset1 t5
  -- lines 939-996
  match t5.transform with
  | JXFORM_DROP => snap_drop1 srcinfo dropinfo t5 xoffset yoffset
  | _ => some (snap_cover1 t5 xoffset yoffset)

/-! ## Second alignment block (lines 1016-1201)

The block is cut into its consecutive steps.  Where every branch of an `if`
assigns the same field, the `if` is written inside the field's new value. -/

/-- Lines 1022-1038: the block returns because the transformation is not
perfect. -/
def perfect_rejects2 (perfect_transform : perfect_transform_fn)
    (srcinfo : jpeg_decompress_struct) (t0 : jpeg_transform_info) : Prop :=
  t0.perfect = true ∧
    (if t0.num_components = 1 then
      perfect_transform t0.output_width srcinfo.output_height
        srcinfo.min_DCT_h_scaled_size srcinfo.min_DCT_v_scaled_size t0.transform = false
    else
      perfect_transform srcinfo.output_width srcinfo.output_height
        (srcinfo.max_h_samp_factor * srcinfo.min_DCT_h_scaled_size)
        (srcinfo.max_v_samp_factor * srcinfo.min_DCT_v_scaled_size) t0.transform = false)

instance (perfect_transform : perfect_transform_fn) (srcinfo : jpeg_decompress_struct)
    (t0 : jpeg_transform_info) : Decidable (perfect_rejects2 perfect_transform srcinfo t0) := by
  unfold perfect_rejects2
  infer_instance

/-- Lines 1045-1075: output size and iMCU sample size. -/
def set_units2 (srcinfo : jpeg_decompress_struct) (t0 : jpeg_transform_info) :
    jpeg_transform_info :=
  match t0.transform with
  | JXFORM_TRANSPOSE | JXFORM_TRANSVERSE | JXFORM_ROT_90 | JXFORM_ROT_270 =>
    { t0 with
      output_width := srcinfo.output_height
      output_height := srcinfo.output_width
      iMCU_sample_width :=
        if t0.num_components = 1 then srcinfo.min_DCT_v_scaled_size
        else srcinfo.max_v_samp_factor * srcinfo.min_DCT_v_scaled_size
      iMCU_sample_height :=
        if t0.num_components = 1 then srcinfo.min_DCT_h_scaled_size
        else srcinfo.max_h_samp_factor * srcinfo.min_DCT_h_scaled_size }
  | _ =>
    { t0 with
      output_width := srcinfo.output_width
      output_height := srcinfo.output_height
      iMCU_sample_width :=
        if t0.num_components = 1 then srcinfo.min_DCT_h_scaled_size
        else srcinfo.max_h_samp_factor * srcinfo.min_DCT_h_scaled_size
      iMCU_sample_height :=
        if t0.num_components = 1 then srcinfo.min_DCT_v_scaled_size
        else srcinfo.max_v_samp_factor * srcinfo.min_DCT_v_scaled_size }

/-- Lines 1082-1085: default values for unset crop offsets. -/
def default_offsets2 (t1 : jpeg_transform_info) : jpeg_transform_info :=
  { t1 with
    crop_xoffset := if t1.crop_xoffset_set = JCROP_UNSET then 0 else t1.crop_xoffset
    crop_yoffset := if t1.crop_yoffset_set = JCROP_UNSET then 0 else t1.crop_yoffset }

/-- Lines 1086-1104: the conditions under which the width check returns. -/
def width_rejected2 (t3 : jpeg_transform_info) : Prop :=
  if t3.crop_width_set = JCROP_UNSET then
    t3.crop_xoffset ≥ t3.output_width
  else if t3.crop_width > t3.output_width then
    t3.transform ≠ JXFORM_NONE ∨ t3.crop_xoffset ≥ t3.crop_width ∨
      t3.crop_xoffset > jd_sub t3.crop_width t3.output_width
  else
    t3.crop_xoffset ≥ t3.output_width ∨ t3.crop_width ≤ 0 ∨
      t3.crop_xoffset > jd_sub t3.output_width t3.crop_width

instance (t3 : jpeg_transform_info) : Decidable (width_rejected2 t3) := by
  unfold width_rejected2
  infer_instance

/-- Line 1089: the default value for an unset crop width. -/
def default_width2 (t3 : jpeg_transform_info) : jpeg_transform_info :=
  { t3 with
    crop_width :=
      if t3.crop_width_set = JCROP_UNSET then jd_sub t3.output_width t3.crop_xoffset
      else t3.crop_width }

/-- Lines 1105-1123: the conditions under which the height check returns. -/
def height_rejected2 (t4 : jpeg_transform_info) : Prop :=
  if t4.crop_height_set = JCROP_UNSET then
    t4.crop_yoffset ≥ t4.output_height
  else if t4.crop_height > t4.output_height then
    t4.transform ≠ JXFORM_NONE ∨ t4.crop_yoffset ≥ t4.crop_height ∨
      t4.crop_yoffset > jd_sub t4.crop_height t4.output_height
  else
    t4.crop_yoffset ≥ t4.output_height ∨ t4.crop_height ≤ 0 ∨
      t4.crop_yoffset > jd_sub t4.output_height t4.crop_height

instance (t4 : jpeg_transform_info) : Decidable (height_rejected2 t4) := by
  unfold height_rejected2
  infer_instance

/-- Line 1108: the default value for an unset crop height. -/
def default_height2 (t4 : jpeg_transform_info) : jpeg_transform_info :=
  { t4 with
    crop_height :=
      if t4.crop_height_set = JCROP_UNSET then jd_sub t4.output_height t4.crop_yoffset
      else t4.crop_height }

/-- Lines 1125-1130: the local `xoffset`, a regular offset from the left edge. -/
def regular_xoffset2 (t5 : jpeg_transform_info) : Nat :=
  if t5.crop_xoffset_set ≠ JCROP_NEG then t5.crop_xoffset
  else if t5.crop_width > t5.output_width then
    jd_sub (jd_sub t5.crop_width t5.output_width) t5.crop_xoffset
  else jd_sub (jd_sub t5.output_width t5.crop_width) t5.crop_xoffset

/-- Lines 1131-1136: the local `yoffset`, a regular offset from the top edge. -/
def regular_yoffset2 (t5 : jpeg_transform_info) : Nat :=
  if t5.crop_yoffset_set ≠ JCROP_NEG then t5.crop_yoffset
  else if t5.crop_height > t5.output_height then
    jd_sub (jd_sub t5.crop_height t5.output_height) t5.crop_yoffset
  else jd_sub (jd_sub t5.output_height t5.crop_height) t5.crop_yoffset

/-- Sampling-factor loop of the second block (lines 1163-1175): `n` iterations
are left, starting at component `ci`; `false` is the early `return`. -/
def samp_loop2 (srcinfo dropinfo : jpeg_decompress_struct) : Nat → Nat → Bool
  | 0, _ => true
  | n + 1, ci =>
    if (dropinfo.comp_info ci).h_samp_factor * srcinfo.max_h_samp_factor ≠
        (srcinfo.comp_info ci).h_samp_factor * dropinfo.max_h_samp_factor then false
    else if (dropinfo.comp_info ci).v_samp_factor * srcinfo.max_v_samp_factor ≠
        (srcinfo.comp_info ci).v_samp_factor * dropinfo.max_v_samp_factor then false
    else samp_loop2 srcinfo dropinfo n (ci + 1)

/-- Lines 1139-1176 and 1194-1195: the case `JXFORM_DROP` of the switch, followed
by the store of the offsets in iMCUs. -/
def snap_drop2 (srcinfo dropinfo : jpeg_decompress_struct) (t5 : jpeg_transform_info)
    (xoffset yoffset : Nat) : Option jpeg_transform_info :=
  -- lines 1141-1150
  let itemp : Nat := t5.iMCU_sample_width
  let dtemp : Nat := jd_sub (jd_sub itemp 1) (jd_sub (jd_add xoffset itemp) 1 % itemp)
  let xoffset : Nat := jd_add xoffset dtemp
  let t6 : jpeg_transform_info :=
    { t5 with
      drop_width :=
        if t5.crop_width ≤ dtemp then 0
        else if jd_sub (jd_add xoffset t5.crop_width) dtemp = t5.output_width then
          jd_sub (jd_add (jd_sub t5.crop_width dtemp) itemp) 1 / itemp
        else jd_sub t5.crop_width dtemp / itemp }
  -- lines 1151-1160
  let itemp : Nat := t6.iMCU_sample_height
  let dtemp : Nat := jd_sub (jd_sub itemp 1) (jd_sub (jd_add yoffset itemp) 1 % itemp)
  let yoffset : Nat := jd_add yoffset dtemp
  let t7 : jpeg_transform_info :=
    { t6 with
      drop_height :=
        if t6.crop_height ≤ dtemp then 0
        else if jd_sub (jd_add yoffset t6.crop_height) dtemp = t6.output_height then
          jd_sub (jd_add (jd_sub t6.crop_height dtemp) itemp) 1 / itemp
        else jd_sub t6.crop_height dtemp / itemp }
  -- lines 1162-1175
  if t7.drop_width ≠ 0 ∧ t7.drop_height ≠ 0 ∧
      samp_loop2 srcinfo dropinfo (min t7.num_components dropinfo.num_components) 0 = false
  then none
  else
    -- lines 1194-1195
    some { t7 with
      x_crop_offset := xoffset / t7.iMCU_sample_width
      y_crop_offset := yoffset / t7.iMCU_sample_height }

/-- Lines 1177-1191 and 1194-1195: the `default` case of the switch, followed by
the store of the offsets in iMCUs. -/
def snap_cover2 (t5 : jpeg_transform_info) (xoffset yoffset : Nat) : jpeg_transform_info :=
  -- lines 1179-1190
  let t6 : jpeg_transform_info :=
    { t5 with
      output_width :=
        if t5.crop_width_set = JCROP_FORCE ∨ t5.crop_width > t5.output_width then
          t5.crop_width
        else jd_add t5.crop_width (xoffset % t5.iMCU_sample_width) }
  let t7 : jpeg_transform_info :=
    { t6 with
      output_height :=
        if t6.crop_height_set = JCROP_FORCE ∨ t6.crop_height > t6.output_height then
          t6.crop_height
        else jd_add t6.crop_height (yoffset % t6.iMCU_sample_height) }
  -- lines 1194-1195
  { t7 with
    x_crop_offset := xoffset / t7.iMCU_sample_width
    y_crop_offset := yoffset / t7.iMCU_sample_height }

/-- The second inline alignment block of the per-region loop. -/
def align_block2 (perfect_transform : perfect_transform_fn)
    (srcinfo dropinfo : jpeg_decompress_struct) (t0 : jpeg_transform_info) :
    Option jpeg_transform_info :=
  -- lines 1022-1038
  if perfect_rejects2 perfect_transform srcinfo t0 then none else
  -- lines 1045-1075
  let t1 := set_units2 srcinfo t0
  -- lines 1080, 1196-1199
  if t1.crop = false then some { t1 with x_crop_offset := 0, y_crop_offset := 0 } else
  -- lines 1082-1085
  let t3 := default_offsets2 t1
  -- lines 1086-1104
  if width_rejected2 t3 then none else
  let t4 := default_width2 t3
  -- lines 1105-1123
  if height_rejected2 t4 then none else
  let t5 := default_height2 t4
  -- lines 1125-1136
  let xoffset := regular_xoffset2 t5
  let yoffset := regular_yoffset2 t5
  -- lines 1138-1195
  match t5.transform with
  | JXFORM_DROP => snap_drop2 srcinfo dropinfo t5 xoffset yoffset
  | _ => some (snap_cover2 t5 xoffset yoffset)

/-! ## The per-region loop (lines 787-1211) -/

/-- Defaults that `parse_switches` (lines 218-227) stores in
`transformoption` when it is called without arguments. -/
def parse_switches_defaults (t : jpeg_transform_info) : jpeg_transform_info :=
  { t with transform := JXFORM_NONE, perfect := false, crop := false }

/-- Lines 762-765: the state of `transformoption` when the per-region loop
is entered; `x`, `y` are the two numbers of `crop_spec`. -/
def do_drop1_setup (t : jpeg_transform_info) (x y : Nat) : jpeg_transform_info :=
  { jtransform_parse_crop_spec (parse_switches_defaults t) x y with
    transform := JXFORM_DROP
    perfect := true }

/-- The five statements with which the loop builds a crop request (lines
811-815 and 1010-1014): the offsets are parsed from `"+x+y"`, then the width
and height are stored as explicitly given. -/
def crop_request (transformoption : jpeg_transform_info) (x y width height : Nat) :
    jpeg_transform_info :=
  { jtransform_parse_crop_spec transformoption x y with
    crop_width := width
    crop_width_set := JCROP_POS
    crop_height := height
    crop_height_set := JCROP_POS }

/-- Lines 806-815: the crop request of the first alignment.  The offsets
are the variables `srcX`, `srcY` of lines 797-798; the size is the constant
32 by 32. -/
def src_request (transformoption : jpeg_transform_info) (decoder : List Nat)
    (number : Nat) : jpeg_transform_info :=
  let srcX := decoder.getD (number + 2) 0
  let srcY := decoder.getD (number + 3) 0
  crop_request transformoption srcX srcY 32 32

/-- Lines 1004-1014: the crop request of the second alignment.  The offsets
are the variables `destX`, `destY` of lines 800-801, the size is
`crop_width`, `crop_height` of lines 795-796. -/
def dest_request (transformoption : jpeg_transform_info) (decoder : List Nat)
    (number : Nat) : jpeg_transform_info :=
  let crop_width := decoder.getD (number + 4) 0
  let crop_height := decoder.getD (number + 5) 0
  let destX := decoder.getD number 0
  let destY := decoder.getD (number + 1) 0
  crop_request transformoption destX destY crop_width crop_height

/-- One iteration of the per-region loop (lines 792-1208) for the tuple
starting at index `number` of `decoder`.  `none` is a `return` out of one of
the alignment blocks; otherwise the new `transformoption` and the arguments
of the `do_drop` call are produced.  An index past the end of `decoder`
(a batch whose length is not a multiple of six) reads as 0. -/
def do_drop1_region (perfect_transform : perfect_transform_fn)
    (srcinfo dropinfo : jpeg_decompress_struct) (decoder : List Nat) (number : Nat)
    (transformoption : jpeg_transform_info) :
    Option (jpeg_transform_info × do_drop_args) :=
  -- lines 806-1002
  (align_block1 perfect_transform srcinfo dropinfo
      (src_request transformoption decoder number)).bind fun tb =>
  -- lines 1007-1008
  let crop2 := tb.y_crop_offset
  let crop1 := tb.x_crop_offset
  -- lines 1004-1201
  (align_block2 perfect_transform srcinfo dropinfo
      (dest_request tb decoder number)).bind fun td =>
  -- lines 1204-1206
  some (td,
    { x_crop_offset := td.x_crop_offset
      y_crop_offset := td.y_crop_offset
      drop_width := td.drop_width
      drop_height := td.drop_height
      crop1 := crop1
      crop2 := crop2 })

/-- How the per-region loop ends: it runs off the end of the batch
(`finished`), one of the alignment blocks returns from `do_drop1`
(`returned`), or the model runs out of fuel.  The first two carry the
`do_drop` calls made so far, oldest first. -/
inductive loop_result where
  | finished (calls : List do_drop_args)
  | returned (calls : List do_drop_args)
  | out_of_fuel
  deriving DecidableEq, Repr

/-- The loop `while (number < a.size)` of lines 791-1209, `a.size` being the
length of `decoder`. -/
def do_drop1_loop (perfect_transform : perfect_transform_fn)
    (srcinfo dropinfo : jpeg_decompress_struct) (decoder : List Nat) :
    Nat → Nat → jpeg_transform_info → List do_drop_args → loop_result
  | 0, _, _, _ => loop_result.out_of_fuel
  | fuel + 1, number, transformoption, calls =>
    if number < decoder.length then
      match do_drop1_region perfect_transform srcinfo dropinfo decoder number
          transformoption with
      | none => loop_result.returned calls
      | some (t, call) =>
        do_drop1_loop perfect_transform srcinfo dropinfo decoder fuel (number + 6) t
          (calls ++ [call])
    else loop_result.finished calls

/-! ## The batch parser (lines 37-113)

A C string is the list of its characters before the terminating NUL.  The
position that `strtok` keeps between calls is passed explicitly. -/

/-- The least value of a C `int` (32 bits, two's complement). -/
def INT_MIN : Int := -2147483648

/-- The greatest value of a C `int`. -/
def INT_MAX : Int := 2147483647

/-- The least value of a C `long` (64 bits). -/
def LONG_MIN : Int := -9223372036854775808

/-- The greatest value of a C `long`. -/
def LONG_MAX : Int := 9223372036854775807

/-- Conversion of an integer to `int`: the value is reduced modulo `2 ^ 32`
into the range `INT_MIN .. INT_MAX`. -/
def to_int (z : Int) : Int := (z + 2147483648) % 4294967296 - 2147483648

/-- Line 37: `value_type` is `int`.  A value of this type is an integer in
the range `INT_MIN .. INT_MAX`: it is reduced with `to_int` where it is
produced (`atoi`) and where it is stored (`arraylist_add`). -/
abbrev value_type := Int

/-- Lines 39-42: `struct arraylist`.  `data` lists the elements of the
allocated block. -/
structure arraylist where
  size : Nat
  data : List value_type
  deriving DecidableEq, Repr

/-- Lines 52-55: the list `arraylist_initial` leaves behind. -/
def arraylist_initial : arraylist := { size := 0, data := [] }

/-- Lines 57-59. -/
def arraylist_get_size (list : arraylist) : Nat := list.size

/-- Lines 69-82: `realloc_ok n` tells whether `realloc` to `n` elements
succeeds.  On success the first `size` elements are kept, element `size` is
written and `size` is incremented; on failure nothing changes.  The
parameter `value` is an `int`. -/
def arraylist_add (realloc_ok : Nat → Bool) (list : arraylist) (value : value_type) :
    arraylist :=
  let size := arraylist_get_size list
  if realloc_ok (size + 1) then
    { size := list.size + 1, data := list.data.take size ++ [to_int value] }
  else list

/-- C library `isspace` in the "C" locale: space, `\t`, `\n`, `\v`, `\f`,
`\r`. -/
def isspace (c : Char) : Bool :=
  c.toNat = 32 || (9 ≤ c.toNat && c.toNat ≤ 13)

/-- C library `isdigit`. -/
def isdigit (c : Char) : Bool :=
  48 ≤ c.toNat && c.toNat ≤ 57

/-- The digit loop of `strtol`: the value read so far is `acc`; reading stops
at the first character that is not a digit. -/
def atoi_digits : Int → List Char → Int
  | acc, [] => acc
  | acc, c :: cs =>
    if isdigit c then atoi_digits (acc * 10 + ((c.toNat : Int) - 48)) cs else acc

/-- The number that a text denotes for `strtol` in base 10: leading white
space is skipped, an optional sign is read, then decimal digits up to the
first other character; without digits the number is 0. -/
def numeral_value (s : List Char) : Int :=
  match s.dropWhile isspace with
  | '-' :: cs => - atoi_digits 0 cs
  | '+' :: cs => atoi_digits 0 cs
  | cs => atoi_digits 0 cs

/-- C library `strtol` in base 10 with a 64-bit `long`: the number that the
text denotes, or `LONG_MIN` or `LONG_MAX` when the number is outside the
range of `long`. -/
def strtol (s : List Char) : Int :=
  if numeral_value s < LONG_MIN then LONG_MIN
  else if LONG_MAX < numeral_value s then LONG_MAX
  else numeral_value s

/-- C library `atoi`.  The C standard leaves the result undefined when the
number is outside the range of `int`; the model is that of the GNU C
library, `(int) strtol (nptr, NULL, 10)`, where the conversion to `int`
reduces modulo `2 ^ 32`. -/
def atoi (s : List Char) : value_type := to_int (strtol s)

/-- C library `strtok` with the delimiter `" "`, applied to the text that
remains: leading spaces are skipped; at the end of the text the result is
`NULL` (`none`); otherwise the token runs up to the next space or the end,
and the text after that space remains. -/
def strtok (s : List Char) : Option (List Char) × List Char :=
  match s.dropWhile (fun c => c == ' ') with
  | [] => (none, [])
  | c :: cs =>
    (some ((c :: cs).takeWhile (fun c => c != ' ')),
      ((c :: cs).dropWhile (fun c => c != ' ')).drop 1)

/-- How `values` ends: it returns the list, it passes the `NULL` returned by
`strtok` to `atoi` (lines 93-107 do not test it; the behaviour of `atoi` on
a null pointer is undefined), or the model runs out of fuel. -/
inductive values_result where
  | returned (u : arraylist)
  | null_token
  | out_of_fuel
  deriving DecidableEq, Repr

/-- One of the five pairs `token = strtok(NULL, " "); arraylist_add(&u,
atoi(token));` of lines 93-107; `none` when the token is `NULL`. -/
def next_value (realloc_ok : Nat → Bool) (st : arraylist × List Char) :
    Option (arraylist × List Char) :=
  match strtok st.2 with
  | (none, _) => none
  | (some token, rest) => some (arraylist_add realloc_ok st.1 (atoi token), rest)

/-- The loop `while (token)` of lines 90-111. -/
def values_loop (realloc_ok : Nat → Bool) :
    Nat → Option (List Char) → List Char → arraylist → values_result
  | 0, _, _, _ => values_result.out_of_fuel
  | _ + 1, none, _, u => values_result.returned u
  | fuel + 1, some token, rest, u =>
    -- line 92
    let u1 := arraylist_add realloc_ok u (atoi token)
    -- lines 93-107
    let s2 := next_value realloc_ok (u1, rest)
    let s3 := s2.bind (next_value realloc_ok)
    let s4 := s3.bind (next_value realloc_ok)
    let s5 := s4.bind (next_value realloc_ok)
    let s6 := s5.bind (next_value realloc_ok)
    match s6 with
    | none => values_result.null_token
    | some (u6, rest6) =>
      -- line 110
      values_loop realloc_ok fuel (strtok rest6).1 (strtok rest6).2 u6

/-- Lines 85-113: `values`.  The local list `u` is not initialised in the
source; its initial value is a parameter.  Every iteration of the loop
consumes at least one character, so the length of the line plus one is
enough fuel. -/
def values (realloc_ok : Nat → Bool) (u : arraylist) (line : List Char) : values_result :=
  -- line 89
  values_loop realloc_ok (line.length + 1) (strtok line).1 (strtok line).2 u

/-- A `realloc` that always succeeds. -/
def realloc_succeeds : Nat → Bool := fun _ => true

/-- The decimal numeral of a natural number, most significant digit first. -/
def decimal (n : Nat) : List Char :=
  if n = 0 then ['0'] else (Nat.digits 10 n).reverse.map (fun d => Char.ofNat (48 + d))

/-- The decimal numeral of an integer, with a leading `-` when negative. -/
def decimal_int (z : Int) : List Char :=
  if z < 0 then '-' :: decimal z.natAbs else decimal z.natAbs

/-- Tokens separated by single spaces. -/
def join_tokens : List (List Char) → List Char
  | [] => []
  | [a] => a
  | a :: b :: r => a ++ ' ' :: join_tokens (b :: r)

/-- The list of tokens with the text `s` appended to the last token. -/
def append_to_last : List (List Char) → List Char → List (List Char)
  | [], s => [s]
  | [a], s => [a ++ s]
  | a :: b :: r, s => a :: append_to_last (b :: r) s

/-- A token that `strtok` returns whole: it is not empty and holds no
space. -/
def good_token (tk : List Char) : Prop := tk ≠ [] ∧ ∀ c, c ∈ tk → c ≠ ' '

instance (tk : List Char) : Decidable (good_token tk) := by
  unfold good_token
  infer_instance

/-! ## `do_drop1` as a whole and the entry point (lines 485-550, 656-765) -/

/-- Signature of the part of `do_drop1` between the header reads and the
loop that changes `transformoption` through library calls
(`jtransform_request_workspace`, line 726, and
`jtransform_adjust_parameters`, line 743): `none` when
`jtransform_request_workspace` returns `FALSE`, otherwise the record the
calls leave behind.  The functions are a parameter of the model. -/
abbrev request_workspace_fn := jpeg_transform_info → Option jpeg_transform_info

/-- How a call of `do_drop1` ends: the process exits with `EXIT_FAILURE`
(lines 726-729), or the per-region loop is reached and ends as recorded. -/
inductive do_drop1_result where
  | exit_failure
  | ran (loop : loop_result)
  deriving DecidableEq, Repr

/-- Lines 689-693 and 718-721: the drop request with which `do_drop1` asks
for workspace, 64 by 64 at the two numbers `x`, `y` of `crop_spec`. -/
def header_request (transformoption : jpeg_transform_info) (x y : Nat) :
    jpeg_transform_info :=
  { do_drop1_setup transformoption x y with
    crop_width := 64
    crop_width_set := JCROP_POS
    crop_height := 64
    crop_height_set := JCROP_POS }

/-- `do_drop1` as `main` calls it (`writefile` is `NULL`): lines 689-721
build the header request, lines 726-729 exit when the workspace request
fails, lines 762-765 set the options again, and lines 787-1211 run the
per-region loop over the global list.  The loop adds six to `number` in
every iteration, so the length of the list plus one is enough fuel. -/
def do_drop1 (perfect_transform : perfect_transform_fn)
    (request_workspace : request_workspace_fn)
    (srcinfo dropinfo : jpeg_decompress_struct) (decoder : List Nat)
    (transformoption : jpeg_transform_info) (x y : Nat) : do_drop1_result :=
  -- lines 726-745
  match request_workspace (header_request transformoption x y) with
  | none => do_drop1_result.exit_failure
  | some t2 =>
    -- lines 762-765
    let t3 := do_drop1_setup t2 x y
    -- lines 787-1211
    do_drop1_result.ran
      (do_drop1_loop perfect_transform srcinfo dropinfo decoder (decoder.length + 1) 0 t3 [])

/-- What `main` does after the batch is parsed and the image is read, as
seen from outside. -/
inductive main_event where
  | do_drop1_called (x y : Nat) (result : do_drop1_result)
  | output_opened
  | output_written
  | output_closed
  deriving DecidableEq, Repr

/-- The events of a run of `main` and its exit status. -/
structure main_result where
  events : List main_event
  exit_status : Nat
  deriving DecidableEq, Repr

/-- Lines 522-539: the loop `while (number < max)` of `main`, entered with
`number`.  Its body calls `do_drop1` with the crop spec
`"+decoder[number]+decoder[number+1]"` and the same buffer as source and
drop image, and ends with an unconditional `break` (line 538), so the body
runs at most once and the loop needs no recursion.  The result is the list
of calls made, or `none` when `do_drop1` has ended the process. -/
def main_loop (perfect_transform : perfect_transform_fn)
    (request_workspace : request_workspace_fn) (image : jpeg_decompress_struct)
    (decoder : List Nat) (max : Nat) (transformoption : jpeg_transform_info)
    (number : Nat) : Option (List main_event) :=
  if number < max then
    let x := decoder.getD number 0
    let y := decoder.getD (number + 1) 0
    let result := do_drop1 perfect_transform request_workspace image image decoder
      transformoption x y
    match result with
    | do_drop1_result.exit_failure => none
    | do_drop1_result.ran _ => some [main_event.do_drop1_called x y result]
  else some []

/-- Lines 505-549 of `main` for the parsed batch `a`: `decoder = a.data`,
`max = a.size`, the loop, then the output file is opened, written and
closed and `main` returns 0.  `do_drop1` returns nothing, and nothing that
it does is tested before the output is written.  When `do_drop1` exits the
process, the status is `EXIT_FAILURE` (1) and the output is not opened.
Region fields are read as natural numbers. -/
def main (perfect_transform : perfect_transform_fn)
    (request_workspace : request_workspace_fn) (image : jpeg_decompress_struct)
    (a : arraylist) (transformoption : jpeg_transform_info) : main_result :=
  let decoder := a.data.map Int.toNat
  let max := a.size
  match main_loop perfect_transform request_workspace image decoder max transformoption 0 with
  | none => { events := [], exit_status := 1 }
  | some calls =>
    { events := calls ++
        [main_event.output_opened, main_event.output_written, main_event.output_closed]
      exit_status := 0 }

/-- The state of `transformoption` on entry to the iteration for region
`k` (tuple index `6 * k`), when the loop is entered with `t`: region `k + 1`
starts from what region `k` left.  A region that returns leaves no state;
the one before it is repeated. -/
def state_after (perfect_transform : perfect_transform_fn)
    (srcinfo dropinfo : jpeg_decompress_struct) (decoder : List Nat)
    (t : jpeg_transform_info) : Nat → jpeg_transform_info
  | 0 => t
  | k + 1 =>
    match do_drop1_region perfect_transform srcinfo dropinfo decoder (6 * k)
        (state_after perfect_transform srcinfo dropinfo decoder t k) with
    | some (t1, _) => t1
    | none => state_after perfect_transform srcinfo dropinfo decoder t k

/-- The coefficient arrays of an image: the block at a component index, a
block row and a block column. -/
abbrev coef_arrays (β : Type) := Nat → Nat → Nat → β

/-- Modelled from the spec: `do_drop` is defined outside `jpegtran.c`; only
its call (lines 1204-1206) is in this file.  Section 4.3, step 3: the block
rectangle described by the aligned source offset is copied out of the drop
image into the block rectangle described by the aligned destination
placement within the working image, producing a new image.  Offsets and
sizes are in iMCUs; for component `ci` an iMCU is `h_samp_factor` blocks wide
and `v_samp_factor` blocks high. -/
def do_drop {β : Type} (srcinfo : jpeg_decompress_struct) (src_coef_arrays : coef_arrays β)
    (drop_coef_arrays : coef_arrays β) (args : do_drop_args) : coef_arrays β :=
  fun ci row col =>
    let h := (srcinfo.comp_info ci).h_samp_factor
    let v := (srcinfo.comp_info ci).v_samp_factor
    if args.x_crop_offset * h ≤ col ∧ col < (args.x_crop_offset + args.drop_width) * h ∧
        args.y_crop_offset * v ≤ row ∧ row < (args.y_crop_offset + args.drop_height) * v then
      drop_coef_arrays ci (row - args.y_crop_offset * v + args.crop2 * v)
        (col - args.x_crop_offset * h + args.crop1 * h)
    else src_coef_arrays ci row col

/-- The block at `(ci, row, col)` lies in the aligned destination rectangle
of a `do_drop` call. -/
def in_drop_rectangle (srcinfo : jpeg_decompress_struct) (args : do_drop_args)
    (ci row col : Nat) : Prop :=
  args.x_crop_offset * (srcinfo.comp_info ci).h_samp_factor ≤ col ∧
  col < (args.x_crop_offset + args.drop_width) * (srcinfo.comp_info ci).h_samp_factor ∧
  args.y_crop_offset * (srcinfo.comp_info ci).v_samp_factor ≤ row ∧
  row < (args.y_crop_offset + args.drop_height) * (srcinfo.comp_info ci).v_samp_factor

instance (srcinfo : jpeg_decompress_struct) (args : do_drop_args) (ci row col : Nat) :
    Decidable (in_drop_rectangle srcinfo args ci row col) := by
  unfold in_drop_rectangle
  infer_instance

/-- A coefficient image for examples: every block holds a number that tells
its component, row and column. -/
def numbered_blocks : coef_arrays Nat := fun ci row col => 10000 * ci + 100 * row + col

/-- A workspace request that succeeds and records `n` components. -/
def workspace_ok (n : Nat) : request_workspace_fn :=
  fun t => some { t with num_components := n }

/-! ## Named pieces of the alignment, used to state its properties -/

/-- The iMCU sample width that the `default` case of lines 863-875 and
1062-1074 stores (the case of `JXFORM_NONE` and `JXFORM_DROP`). -/
def iMCU_width (srcinfo : jpeg_decompress_struct) (num_components : Nat) : Nat :=
  if num_components = 1 then srcinfo.min_DCT_h_scaled_size
  else srcinfo.max_h_samp_factor * srcinfo.min_DCT_h_scaled_size

/-- The iMCU sample height that the `default` case of lines 863-875 and
1062-1074 stores. -/
def iMCU_height (srcinfo : jpeg_decompress_struct) (num_components : Nat) : Nat :=
  if num_components = 1 then srcinfo.min_DCT_v_scaled_size
  else srcinfo.max_v_samp_factor * srcinfo.min_DCT_v_scaled_size

/-- The value of `dtemp` in lines 943, 953, 1142 and 1152, in `JDIMENSION`
arithmetic. -/
def drop_dtemp (itemp xoffset : Nat) : Nat :=
  jd_sub (jd_sub itemp 1) (jd_sub (jd_add xoffset itemp) 1 % itemp)

/-- The value stored in `drop_width` (`drop_height`) by lines 944-951,
954-961, 1143-1150 and 1153-1160, in `JDIMENSION` arithmetic; `xoffset` is
the offset before it is advanced. -/
def drop_size (itemp xoffset crop_width output_width : Nat) : Nat :=
  if crop_width ≤ drop_dtemp itemp xoffset then 0
  else if jd_sub (jd_add (jd_add xoffset (drop_dtemp itemp xoffset)) crop_width)
      (drop_dtemp itemp xoffset) = output_width then
    jd_sub (jd_add (jd_sub crop_width (drop_dtemp itemp xoffset)) itemp) 1 / itemp
  else jd_sub crop_width (drop_dtemp itemp xoffset) / itemp

/-- The rounding delta in the words of the specification,
`unit - 1 - ((offset + unit - 1) mod unit)`, over the natural numbers. -/
def snap_delta (u x : Nat) : Nat := u - 1 - (x + u - 1) % u

/-- The shape of every crop request that `do_drop1` hands to an alignment
block: a drop with both offsets given as positive offsets and with an
explicit width and height. -/
def drop_request (t : jpeg_transform_info) : Prop :=
  t.transform = JXFORM_DROP ∧ t.crop = true ∧
  t.crop_xoffset_set = JCROP_POS ∧ t.crop_yoffset_set = JCROP_POS ∧
  t.crop_width_set = JCROP_POS ∧ t.crop_height_set = JCROP_POS

instance (t : jpeg_transform_info) : Decidable (drop_request t) := by
  unfold drop_request
  infer_instance

/-- Component `ci` passes the test of lines 966-975 and 1165-1174. -/
def samp_factors_match (srcinfo dropinfo : jpeg_decompress_struct) (ci : Nat) : Prop :=
  (dropinfo.comp_info ci).h_samp_factor * srcinfo.max_h_samp_factor =
      (srcinfo.comp_info ci).h_samp_factor * dropinfo.max_h_samp_factor ∧
  (dropinfo.comp_info ci).v_samp_factor * srcinfo.max_v_samp_factor =
      (srcinfo.comp_info ci).v_samp_factor * dropinfo.max_v_samp_factor

instance (srcinfo dropinfo : jpeg_decompress_struct) (ci : Nat) :
    Decidable (samp_factors_match srcinfo dropinfo ci) := by
  unfold samp_factors_match
  infer_instance

/-- The state a drop request is left in by an alignment block that does not
return early, written with the named pieces above. -/
def drop_aligned (srcinfo : jpeg_decompress_struct) (t : jpeg_transform_info) :
    jpeg_transform_info :=
  { t with
    output_width := srcinfo.output_width
    output_height := srcinfo.output_height
    iMCU_sample_width := iMCU_width srcinfo t.num_components
    iMCU_sample_height := iMCU_height srcinfo t.num_components
    drop_width :=
      drop_size (iMCU_width srcinfo t.num_components) t.crop_xoffset t.crop_width
        srcinfo.output_width
    drop_height :=
      drop_size (iMCU_height srcinfo t.num_components) t.crop_yoffset t.crop_height
        srcinfo.output_height
    x_crop_offset :=
      jd_add t.crop_xoffset (drop_dtemp (iMCU_width srcinfo t.num_components) t.crop_xoffset) /
        iMCU_width srcinfo t.num_components
    y_crop_offset :=
      jd_add t.crop_yoffset (drop_dtemp (iMCU_height srcinfo t.num_components) t.crop_yoffset) /
        iMCU_height srcinfo t.num_components }

/-- The request as it reaches the switch of line 1138: units stored, unset
offsets and sizes replaced by their defaults. -/
def validated2 (srcinfo : jpeg_decompress_struct) (t : jpeg_transform_info) :
    jpeg_transform_info :=
  default_height2 (default_width2 (default_offsets2 (set_units2 srcinfo t)))

/-! ## Concrete inputs -/

/-- A `jtransform_perfect_transform` that accepts every request. -/
def always_perfect : perfect_transform_fn := fun _ _ _ _ _ => true

/-- A three-component 4:2:0 image (components sampled 2x2, 1x1, 1x1) of the
given size with 8x8 DCT blocks; its iMCU is 16x16. -/
def image_420 (width height : Nat) : jpeg_decompress_struct :=
  { output_width := width
    output_height := height
    num_components := 3
    max_h_samp_factor := 2
    max_v_samp_factor := 2
    min_DCT_h_scaled_size := 8
    min_DCT_v_scaled_size := 8
    comp_info := fun ci => if ci = 0 then ⟨2, 2⟩ else ⟨1, 1⟩ }

/-- A three-component 4:4:4 image (every component sampled 1x1) of the given
size with 8x8 DCT blocks; its iMCU is 8x8. -/
def image_444 (width height : Nat) : jpeg_decompress_struct :=
  { output_width := width
    output_height := height
    num_components := 3
    max_h_samp_factor := 1
    max_v_samp_factor := 1
    min_DCT_h_scaled_size := 8
    min_DCT_v_scaled_size := 8
    comp_info := fun _ => ⟨1, 1⟩ }

/-- A `transformoption` whose workspace has `n` components and in which
nothing else is set yet. -/
def blank_options (n : Nat) : jpeg_transform_info :=
  { transform := JXFORM_NONE
    perfect := false
    crop := false
    crop_width := 0
    crop_width_set := JCROP_UNSET
    crop_height := 0
    crop_height_set := JCROP_UNSET
    crop_xoffset := 0
    crop_xoffset_set := JCROP_UNSET
    crop_yoffset := 0
    crop_yoffset_set := JCROP_UNSET
    num_components := n
    output_width := 0
    output_height := 0
    x_crop_offset := 0
    y_crop_offset := 0
    drop_width := 0
    drop_height := 0
    iMCU_sample_width := 0
    iMCU_sample_height := 0 }

/-- The `transformoption` with which the per-region loop is entered for a
three-component image when `crop_spec` is `"+0+0"`. -/
def loop_entry : jpeg_transform_info := do_drop1_setup (blank_options 3) 0 0

/-! ## Auxiliary lemmas -/

theorem jd_sub_of_le {a b : Nat} (h : b ≤ a) (ha : a < UINT_RANGE) : jd_sub a b = a - b := by
  unfold jd_sub UINT_RANGE at *
  omega

theorem jd_add_of_lt {a b : Nat} (h : a + b < UINT_RANGE) : jd_add a b = a + b := by
  unfold jd_add UINT_RANGE at *
  omega

theorem snap_delta_lt {u : Nat} (x : Nat) (hu : 1 ≤ u) : snap_delta u x < u := by
  unfold snap_delta
  omega

theorem snap_delta_dvd {u : Nat} (x : Nat) (hu : 1 ≤ u) : u ∣ x + snap_delta u x := by
  unfold snap_delta
  have hm : (x + u - 1) % u < u := Nat.mod_lt _ (by omega)
  have hd := Nat.div_add_mod (x + u - 1) u
  refine ⟨(x + u - 1) / u, ?_⟩
  omega

theorem snap_delta_least {u : Nat} (x m : Nat) (hu : 1 ≤ u) (hdvd : u ∣ m) (hm : x ≤ m) :
    x + snap_delta u x ≤ m := by
  obtain ⟨k, rfl⟩ := hdvd
  obtain ⟨q, hq⟩ := snap_delta_dvd x hu
  have hlt := snap_delta_lt x hu
  rw [hq]
  by_contra hcon
  have hkq : k < q := by
    by_contra h
    exact hcon (Nat.mul_le_mul_left u (by omega))
  have : u * (k + 1) ≤ u * q := Nat.mul_le_mul_left u hkq
  rw [Nat.mul_add, Nat.mul_one] at this
  omega

theorem drop_dtemp_eq {u x : Nat} (hu : 1 ≤ u) (hx : x + u ≤ UINT_RANGE) :
    drop_dtemp u x = snap_delta u x := by
  have hm : (x + u - 1) % u < u := Nat.mod_lt _ (by omega)
  have e1 : jd_sub (jd_add x u) 1 = x + u - 1 := by
    unfold jd_sub jd_add UINT_RANGE at *
    omega
  have e2 : jd_sub u 1 = u - 1 := by
    unfold jd_sub UINT_RANGE at *
    omega
  unfold drop_dtemp snap_delta
  rw [e1, e2]
  unfold jd_sub UINT_RANGE at *
  omega

/-- Without wrap-around the advanced offset divided by the unit, times the
unit, is the advanced offset. -/
theorem snapped_offset_exact {u x : Nat} (hu : 1 ≤ u) (hx : x + u ≤ UINT_RANGE) :
    jd_add x (drop_dtemp u x) / u * u = x + snap_delta u x := by
  have hlt := snap_delta_lt x hu
  rw [drop_dtemp_eq hu hx, jd_add_of_lt (by omega)]
  exact Nat.div_mul_cancel (snap_delta_dvd x hu)

/-- The drop size over the natural numbers, when nothing wraps around. -/
theorem drop_size_eq {u x w W : Nat} (hu : 1 ≤ u) (hxw : x + w ≤ W)
    (hW : W + u ≤ UINT_RANGE) :
    drop_size u x w W =
      if w ≤ snap_delta u x then 0
      else if x + w = W then (w - snap_delta u x + u - 1) / u
      else (w - snap_delta u x) / u := by
  have hlt := snap_delta_lt x hu
  have hd : drop_dtemp u x = snap_delta u x := drop_dtemp_eq hu (by omega)
  unfold drop_size
  rw [hd]
  by_cases h1 : w ≤ snap_delta u x
  · rw [if_pos h1, if_pos h1]
  · rw [if_neg h1, if_neg h1]
    have e1 : jd_sub (jd_add (jd_add x (snap_delta u x)) w) (snap_delta u x) = x + w := by
      unfold jd_sub jd_add UINT_RANGE at *
      omega
    have e2 : jd_sub w (snap_delta u x) = w - snap_delta u x := by
      unfold jd_sub UINT_RANGE at *
      omega
    have e3 : jd_sub (jd_add (w - snap_delta u x) u) 1 = w - snap_delta u x + u - 1 := by
      unfold jd_sub jd_add UINT_RANGE at *
      omega
    rw [e1, e2, e3]

theorem samp_loop1_eq_samp_loop2 (src drop : jpeg_decompress_struct) (n ci : Nat) :
    samp_loop1 src drop n ci = samp_loop2 src drop n ci := by
  induction n generalizing ci with
  | zero => rfl
  | succ n ih => simp only [samp_loop1, samp_loop2, ih]

theorem align_block1_eq_align_block2 (pt : perfect_transform_fn)
    (src drop : jpeg_decompress_struct) (t : jpeg_transform_info) :
    align_block1 pt src drop t = align_block2 pt src drop t := by
  have hs : ∀ t5 x y, snap_drop1 src drop t5 x y = snap_drop2 src drop t5 x y := by
    intro t5 x y
    simp only [snap_drop1, snap_drop2, samp_loop1_eq_samp_loop2]
  simp only [align_block1, align_block2, hs]
  rfl

theorem samp_loop2_iff (src drop : jpeg_decompress_struct) (n ci : Nat) :
    samp_loop2 src drop n ci = true ↔ ∀ j, j < n → samp_factors_match src drop (ci + j) := by
  induction n generalizing ci with
  | zero => simp [samp_loop2]
  | succ n ih =>
    simp only [samp_loop2]
    constructor
    · intro h j hj
      split_ifs at h with h1 h2
      rcases Nat.eq_zero_or_pos j with rfl | hpos
      · exact ⟨not_not.mp h1, not_not.mp h2⟩
      · have := (ih (ci + 1)).mp h (j - 1) (by omega)
        have e : ci + 1 + (j - 1) = ci + j := by omega
        rwa [e] at this
    · intro h
      have h0 : samp_factors_match src drop ci := h 0 (by omega)
      obtain ⟨a, b⟩ := h0
      rw [if_neg (not_not.mpr a), if_neg (not_not.mpr b)]
      apply (ih (ci + 1)).mpr
      intro j hj
      have := h (j + 1) (by omega)
      have e : ci + (j + 1) = ci + 1 + j := by omega
      rwa [e] at this

theorem samp_loop2_false_iff (src drop : jpeg_decompress_struct) (n : Nat) :
    samp_loop2 src drop n 0 = false ↔ ¬ ∀ ci, ci < n → samp_factors_match src drop ci := by
  have h := samp_loop2_iff src drop n 0
  simp only [Nat.zero_add] at h
  rw [← h]
  simp

/-- What the second alignment block does with a drop request, case by case. -/
theorem align_block2_drop_char (pt : perfect_transform_fn) (src drop : jpeg_decompress_struct)
    (t : jpeg_transform_info) (hreq : drop_request t)
    (hW : src.output_width < UINT_RANGE) (hH : src.output_height < UINT_RANGE) :
    align_block2 pt src drop t =
      if perfect_rejects2 pt src t then none
      else if ¬ (0 < t.crop_width ∧ t.crop_xoffset + t.crop_width ≤ src.output_width ∧
          0 < t.crop_height ∧ t.crop_yoffset + t.crop_height ≤ src.output_height) then none
      else if (drop_aligned src t).drop_width ≠ 0 ∧ (drop_aligned src t).drop_height ≠ 0 ∧
          samp_loop2 src drop (min t.num_components drop.num_components) 0 = false then none
      else some (drop_aligned src t) := by
  obtain ⟨hT, hcrop, hxs, hys, hws, hhs⟩ := hreq
  by_cases hpr : perfect_rejects2 pt src t
  · simp only [align_block2, if_pos hpr]
  · rw [if_neg hpr]
    simp only [align_block2, if_neg hpr]
    by_cases hb : (0 < t.crop_width ∧ t.crop_xoffset + t.crop_width ≤ src.output_width ∧
          0 < t.crop_height ∧ t.crop_yoffset + t.crop_height ≤ src.output_height)
    · obtain ⟨hw, hxw, hh, hyh⟩ := hb
      have e1 : jd_sub src.output_width t.crop_width = src.output_width - t.crop_width :=
        jd_sub_of_le (by omega) hW
      have e2 : jd_sub src.output_height t.crop_height = src.output_height - t.crop_height :=
        jd_sub_of_le (by omega) hH
      have c1 : ¬ (src.output_width < t.crop_width) := by omega
      have c2 : ¬ (src.output_height < t.crop_height) := by omega
      have c3 : ¬ (src.output_width ≤ t.crop_xoffset) := by omega
      have c4 : ¬ (src.output_height ≤ t.crop_yoffset) := by omega
      have c5 : ¬ (src.output_width - t.crop_width < t.crop_xoffset) := by omega
      have c6 : ¬ (src.output_height - t.crop_height < t.crop_yoffset) := by omega
      have c7 : t.crop_width ≠ 0 := by omega
      have c8 : t.crop_height ≠ 0 := by omega
      have c9 : t.crop_xoffset + t.crop_width ≤ src.output_width := hxw
      have c10 : t.crop_yoffset + t.crop_height ≤ src.output_height := hyh
      simp [set_units2, default_offsets2, width_rejected2, default_width2, height_rejected2,
        default_height2, regular_xoffset2, regular_yoffset2, snap_drop2,
        hT, hcrop, hxs, hys, hws, hhs, e1, e2, c1, c2, c3, c4, c5, c6, c7, c8, c9, c10,
        drop_aligned, drop_size, drop_dtemp, iMCU_width, iMCU_height, Nat.pos_iff_ne_zero]
    · rw [if_pos hb]
      by_cases hwW : src.output_width < t.crop_width
      · simp [set_units2, default_offsets2, width_rejected2, hT, hcrop, hxs, hys, hws, hhs, hwW]
      · have e1 : jd_sub src.output_width t.crop_width = src.output_width - t.crop_width :=
          jd_sub_of_le (by omega) hW
        by_cases hx : src.output_width ≤ t.crop_xoffset ∨ t.crop_width = 0 ∨
            src.output_width - t.crop_width < t.crop_xoffset
        · simp [set_units2, default_offsets2, width_rejected2, hT, hcrop, hxs, hys, hws, hhs,
            hwW, e1, hx]
        · by_cases hhH : src.output_height < t.crop_height
          · simp [set_units2, default_offsets2, width_rejected2, default_width2,
              height_rejected2, hT, hcrop, hxs, hys, hws, hhs, hwW, e1, hx, hhH]
          · have e2 : jd_sub src.output_height t.crop_height =
                src.output_height - t.crop_height := jd_sub_of_le (by omega) hH
            have hy : src.output_height ≤ t.crop_yoffset ∨ t.crop_height = 0 ∨
                src.output_height - t.crop_height < t.crop_yoffset := by omega
            simp [set_units2, default_offsets2, width_rejected2, default_width2,
              height_rejected2, hT, hcrop, hxs, hys, hws, hhs, hwW, e1, hx, hhH, e2, hy]

/-- An accepted drop request passed the bounds validation and is left in the
state `drop_aligned`. -/
theorem align_block2_drop_some (pt : perfect_transform_fn) (src drop : jpeg_decompress_struct)
    (t r : jpeg_transform_info) (hreq : drop_request t)
    (hW : src.output_width < UINT_RANGE) (hH : src.output_height < UINT_RANGE)
    (hacc : align_block2 pt src drop t = some r) :
    r = drop_aligned src t ∧ ¬ perfect_rejects2 pt src t ∧
      0 < t.crop_width ∧ t.crop_xoffset + t.crop_width ≤ src.output_width ∧
      0 < t.crop_height ∧ t.crop_yoffset + t.crop_height ≤ src.output_height := by
  rw [align_block2_drop_char pt src drop t hreq hW hH] at hacc
  split_ifs at hacc with h1 h2 h3
  · exact ⟨(Option.some.inj hacc).symm, h1, h2⟩

/-! ## C1: the drop offset is snapped up to the next iMCU boundary -/

/-- C1: for a drop request accepted by the second alignment block, with
iMCU unit `u >= 1` and offset `x` such that `x + u - 1` does not overflow
`unsigned int`, the code's `dtemp` is the rounding delta
`d = u - 1 - ((x + u - 1) mod u)`; it satisfies `d < u`; `x + d` is the
smallest multiple of `u` that is `>= x`; and the stored iMCU offset is exact,
`x_crop_offset * u = x + d`.  The same holds vertically. -/
theorem C1_drop_offset_snapping (pt : perfect_transform_fn)
    (src drop : jpeg_decompress_struct) (t r : jpeg_transform_info)
    (hreq : drop_request t)
    (hW : src.output_width < UINT_RANGE) (hH : src.output_height < UINT_RANGE)
    (hux : 1 ≤ iMCU_width src t.num_components)
    (huy : 1 ≤ iMCU_height src t.num_components)
    (hx : t.crop_xoffset + iMCU_width src t.num_components - 1 < UINT_RANGE)
    (hy : t.crop_yoffset + iMCU_height src t.num_components - 1 < UINT_RANGE)
    (hacc : align_block2 pt src drop t = some r) :
    (r.iMCU_sample_width = iMCU_width src t.num_components ∧
      drop_dtemp r.iMCU_sample_width t.crop_xoffset =
        snap_delta r.iMCU_sample_width t.crop_xoffset ∧
      snap_delta r.iMCU_sample_width t.crop_xoffset < r.iMCU_sample_width ∧
      r.iMCU_sample_width ∣ t.crop_xoffset + snap_delta r.iMCU_sample_width t.crop_xoffset ∧
      (∀ m, r.iMCU_sample_width ∣ m → t.crop_xoffset ≤ m →
        t.crop_xoffset + snap_delta r.iMCU_sample_width t.crop_xoffset ≤ m) ∧
      r.x_crop_offset * r.iMCU_sample_width =
        t.crop_xoffset + snap_delta r.iMCU_sample_width t.crop_xoffset) ∧
    (r.iMCU_sample_height = iMCU_height src t.num_components ∧
      drop_dtemp r.iMCU_sample_height t.crop_yoffset =
        snap_delta r.iMCU_sample_height t.crop_yoffset ∧
      snap_delta r.iMCU_sample_height t.crop_yoffset < r.iMCU_sample_height ∧
      r.iMCU_sample_height ∣ t.crop_yoffset + snap_delta r.iMCU_sample_height t.crop_yoffset ∧
      (∀ m, r.iMCU_sample_height ∣ m → t.crop_yoffset ≤ m →
        t.crop_yoffset + snap_delta r.iMCU_sample_height t.crop_yoffset ≤ m) ∧
      r.y_crop_offset * r.iMCU_sample_height =
        t.crop_yoffset + snap_delta r.iMCU_sample_height t.crop_yoffset) := by
  obtain ⟨hr, -⟩ := align_block2_drop_some pt src drop t r hreq hW hH hacc
  subst hr
  have hx2 : t.crop_xoffset + iMCU_width src t.num_components ≤ UINT_RANGE := by omega
  have hy2 : t.crop_yoffset + iMCU_height src t.num_components ≤ UINT_RANGE := by omega
  refine ⟨⟨rfl, drop_dtemp_eq hux hx2, snap_delta_lt _ hux, snap_delta_dvd _ hux,
    fun m hm hxm => snap_delta_least _ m hux hm hxm, snapped_offset_exact hux hx2⟩,
    ⟨rfl, drop_dtemp_eq huy hy2, snap_delta_lt _ huy, snap_delta_dvd _ huy,
    fun m hm hym => snap_delta_least _ m huy hm hym, snapped_offset_exact huy hy2⟩⟩

/-- C1 at a concrete input: on a 128x128 4:2:0 image the drop request
64x64+10+10 is accepted with delta 6 and iMCU offset (1, 1). -/
theorem C1_drop_offset_snapping_witness :
    drop_request (dest_request loop_entry [10, 10, 0, 0, 64, 64] 0) ∧
    snap_delta 16 10 = 6 ∧
    (drop_aligned (image_420 128 128)
      (dest_request loop_entry [10, 10, 0, 0, 64, 64] 0)).x_crop_offset * 16 = 10 + 6 :=
  ⟨by decide, by decide,
    (C1_drop_offset_snapping always_perfect (image_420 128 128) (image_420 128 128)
      (dest_request loop_entry [10, 10, 0, 0, 64, 64] 0)
      (drop_aligned (image_420 128 128) (dest_request loop_entry [10, 10, 0, 0, 64, 64] 0))
      (by decide) (by decide) (by decide) (by decide) (by decide) (by decide) (by decide)
      (by decide)).1.2.2.2.2.2⟩

/-! ## C2: the edge-matching rule -/

/-- The quotient `(a + u - 1) / u` is the ceiling of `a / u`: it is the
number `k` with `a <= k * u < a + u`. -/
theorem ceil_div_bounds {a u : Nat} (hu : 1 ≤ u) :
    a ≤ (a + u - 1) / u * u ∧ (a + u - 1) / u * u < a + u := by
  have hm : (a + u - 1) % u < u := Nat.mod_lt _ (by omega)
  have hd := Nat.div_add_mod (a + u - 1) u
  rw [Nat.mul_comm] at hd
  omega

/-- C2: for a drop request accepted by the second alignment block, with
offset `x`, requested width `w`, image width `W`, unit `u` and rounding delta
`d`, if `w > d` then the aligned width is the ceiling of `(w - d) / u` when
`x + w = W` and the floor of `(w - d) / u` otherwise; the same holds
vertically.  The image dimension plus the unit is assumed to fit in
`unsigned int`. -/
theorem C2_edge_matching_rule (pt : perfect_transform_fn)
    (src drop : jpeg_decompress_struct) (t r : jpeg_transform_info)
    (hreq : drop_request t)
    (hux : 1 ≤ iMCU_width src t.num_components)
    (huy : 1 ≤ iMCU_height src t.num_components)
    (hW : src.output_width + iMCU_width src t.num_components ≤ UINT_RANGE)
    (hH : src.output_height + iMCU_height src t.num_components ≤ UINT_RANGE)
    (hacc : align_block2 pt src drop t = some r) :
    (snap_delta r.iMCU_sample_width t.crop_xoffset < t.crop_width →
      (t.crop_xoffset + t.crop_width = src.output_width →
        r.drop_width =
          (t.crop_width - snap_delta r.iMCU_sample_width t.crop_xoffset +
            r.iMCU_sample_width - 1) / r.iMCU_sample_width ∧
        t.crop_width - snap_delta r.iMCU_sample_width t.crop_xoffset ≤
          r.drop_width * r.iMCU_sample_width ∧
        r.drop_width * r.iMCU_sample_width <
          t.crop_width - snap_delta r.iMCU_sample_width t.crop_xoffset +
            r.iMCU_sample_width) ∧
      (t.crop_xoffset + t.crop_width ≠ src.output_width →
        r.drop_width =
          (t.crop_width - snap_delta r.iMCU_sample_width t.crop_xoffset) /
            r.iMCU_sample_width)) ∧
    (snap_delta r.iMCU_sample_height t.crop_yoffset < t.crop_height →
      (t.crop_yoffset + t.crop_height = src.output_height →
        r.drop_height =
          (t.crop_height - snap_delta r.iMCU_sample_height t.crop_yoffset +
            r.iMCU_sample_height - 1) / r.iMCU_sample_height ∧
        t.crop_height - snap_delta r.iMCU_sample_height t.crop_yoffset ≤
          r.drop_height * r.iMCU_sample_height ∧
        r.drop_height * r.iMCU_sample_height <
          t.crop_height - snap_delta r.iMCU_sample_height t.crop_yoffset +
            r.iMCU_sample_height) ∧
      (t.crop_yoffset + t.crop_height ≠ src.output_height →
        r.drop_height =
          (t.crop_height - snap_delta r.iMCU_sample_height t.crop_yoffset) /
            r.iMCU_sample_height)) := by
  obtain ⟨hr, -, -, hxw, -, hyh⟩ :=
    align_block2_drop_some pt src drop t r hreq (by omega) (by omega) hacc
  subst hr
  have ew := drop_size_eq (u := iMCU_width src t.num_components) hux hxw hW
  have eh := drop_size_eq (u := iMCU_height src t.num_components) huy hyh hH
  simp only [drop_aligned]
  refine ⟨fun hd => ⟨fun he => ?_, fun hne => ?_⟩, fun hd => ⟨fun he => ?_, fun hne => ?_⟩⟩
  · rw [ew, if_neg (by omega), if_pos he]
    exact ⟨rfl, (ceil_div_bounds hux).1, (ceil_div_bounds hux).2⟩
  · rw [ew, if_neg (by omega), if_neg hne]
  · rw [eh, if_neg (by omega), if_pos he]
    exact ⟨rfl, (ceil_div_bounds huy).1, (ceil_div_bounds huy).2⟩
  · rw [eh, if_neg (by omega), if_neg hne]

/-- C2 at the concrete input of the claim: image width 100, unit 16, offset
0.  Width 100 reaches the far edge and gives 7 iMCUs; width 99 gives 6. -/
theorem C2_edge_matching_rule_witness :
    (drop_aligned (image_420 100 100)
      (dest_request loop_entry [0, 0, 0, 0, 100, 100] 0)).drop_width = (100 - 0 + 16 - 1) / 16 ∧
    (100 - 0 + 16 - 1) / 16 = 7 ∧
    (drop_aligned (image_420 100 100)
      (dest_request loop_entry [0, 0, 0, 0, 99, 99] 0)).drop_width = (99 - 0) / 16 ∧
    (99 - 0) / 16 = 6 :=
  ⟨((C2_edge_matching_rule always_perfect (image_420 100 100) (image_420 100 100)
      (dest_request loop_entry [0, 0, 0, 0, 100, 100] 0)
      (drop_aligned (image_420 100 100) (dest_request loop_entry [0, 0, 0, 0, 100, 100] 0))
      (by decide) (by decide) (by decide) (by decide) (by decide) (by decide)).1
      (by decide)).1 (by decide) |>.1,
    by decide,
    ((C2_edge_matching_rule always_perfect (image_420 100 100) (image_420 100 100)
      (dest_request loop_entry [0, 0, 0, 0, 99, 99] 0)
      (drop_aligned (image_420 100 100) (dest_request loop_entry [0, 0, 0, 0, 99, 99] 0))
      (by decide) (by decide) (by decide) (by decide) (by decide) (by decide)).1
      (by decide)).2 (by decide),
    by decide⟩

/-! ## The per-region step on drop requests -/

theorem perfect_accepts_drop (pt : perfect_transform_fn) (src : jpeg_decompress_struct)
    (t : jpeg_transform_info) (hp : ∀ a b c d, pt a b c d JXFORM_DROP = true)
    (hT : t.transform = JXFORM_DROP) : ¬ perfect_rejects2 pt src t := by
  unfold perfect_rejects2
  rw [hT]
  simp [hp]

theorem src_request_drop (t : jpeg_transform_info) (decoder : List Nat) (number : Nat)
    (hT : t.transform = JXFORM_DROP) : drop_request (src_request t decoder number) :=
  ⟨hT, rfl, rfl, rfl, rfl, rfl⟩

theorem dest_request_drop (t : jpeg_transform_info) (decoder : List Nat) (number : Nat)
    (hT : t.transform = JXFORM_DROP) : drop_request (dest_request t decoder number) :=
  ⟨hT, rfl, rfl, rfl, rfl, rfl⟩

/-- The first alignment of a region, when it does not return, leaves the
source request in the state `drop_aligned`. -/
theorem align_block1_src_some (pt : perfect_transform_fn) (src drop : jpeg_decompress_struct)
    (decoder : List Nat) (number : Nat) (t tb : jpeg_transform_info)
    (hT : t.transform = JXFORM_DROP)
    (hW : src.output_width < UINT_RANGE) (hH : src.output_height < UINT_RANGE)
    (h1 : align_block1 pt src drop (src_request t decoder number) = some tb) :
    tb = drop_aligned src (src_request t decoder number) ∧
      decoder.getD (number + 2) 0 + 32 ≤ src.output_width ∧
      decoder.getD (number + 3) 0 + 32 ≤ src.output_height := by
  rw [align_block1_eq_align_block2] at h1
  obtain ⟨hr, -, -, hxw, -, hyh⟩ := align_block2_drop_some pt src drop _ tb
    (src_request_drop t decoder number hT) hW hH h1
  exact ⟨hr, hxw, hyh⟩

/-- A region whose two alignments do not return reaches the `do_drop` call. -/
theorem do_drop1_region_of_some (pt : perfect_transform_fn)
    (src drop : jpeg_decompress_struct) (decoder : List Nat) (number : Nat)
    (t tb td : jpeg_transform_info)
    (h1 : align_block1 pt src drop (src_request t decoder number) = some tb)
    (h2 : align_block2 pt src drop (dest_request tb decoder number) = some td) :
    do_drop1_region pt src drop decoder number t =
      some (td,
        { x_crop_offset := td.x_crop_offset
          y_crop_offset := td.y_crop_offset
          drop_width := td.drop_width
          drop_height := td.drop_height
          crop1 := tb.x_crop_offset
          crop2 := tb.y_crop_offset }) := by
  simp [do_drop1_region, h1, h2]

/-- A region whose second alignment returns makes no `do_drop` call. -/
theorem do_drop1_region_of_none (pt : perfect_transform_fn)
    (src drop : jpeg_decompress_struct) (decoder : List Nat) (number : Nat)
    (t : jpeg_transform_info)
    (h2 : ∀ tb, align_block1 pt src drop (src_request t decoder number) = some tb →
      align_block2 pt src drop (dest_request tb decoder number) = none) :
    do_drop1_region pt src drop decoder number t = none := by
  unfold do_drop1_region
  cases h1 : align_block1 pt src drop (src_request t decoder number) with
  | none => rfl
  | some tb => simp [h2 tb h1]

/-- A region that reaches the `do_drop` call passed both alignments. -/
theorem do_drop1_region_some (pt : perfect_transform_fn)
    (src drop : jpeg_decompress_struct) (decoder : List Nat) (number : Nat)
    (t td : jpeg_transform_info) (call : do_drop_args)
    (h : do_drop1_region pt src drop decoder number t = some (td, call)) :
    ∃ tb, align_block1 pt src drop (src_request t decoder number) = some tb ∧
      align_block2 pt src drop (dest_request tb decoder number) = some td ∧
      call =
        { x_crop_offset := td.x_crop_offset
          y_crop_offset := td.y_crop_offset
          drop_width := td.drop_width
          drop_height := td.drop_height
          crop1 := tb.x_crop_offset
          crop2 := tb.y_crop_offset } := by
  unfold do_drop1_region at h
  cases h1 : align_block1 pt src drop (src_request t decoder number) with
  | none => simp [h1] at h
  | some tb =>
    cases h2 : align_block2 pt src drop (dest_request tb decoder number) with
    | none => simp [h1, h2] at h
    | some td2 =>
      simp [h1, h2] at h
      obtain ⟨e1, e2⟩ := h
      subst e1
      exact ⟨tb, rfl, h2, e2.symm⟩

/-! ## C3: a zero-size region is a no-op -/

/-- C3: take a region whose first alignment does not return and whose
destination request `(x, y, w, h)` passes the bounds validation.  If
`w <= d` for the horizontal rounding delta `d`, or `h <= d'` for the vertical
one, then the second alignment does not return, whatever the sampling
factors of the drop image are (the sampling check is skipped); the aligned
width (height) is 0; the region reaches the `do_drop` call with that
zero-sized rectangle; and the loop goes on with the next region. -/
theorem C3_zero_size_is_no_op (pt : perfect_transform_fn)
    (src drop : jpeg_decompress_struct) (decoder : List Nat) (number fuel : Nat)
    (t tb : jpeg_transform_info) (calls : List do_drop_args)
    (hp : ∀ a b c d, pt a b c d JXFORM_DROP = true)
    (hT : t.transform = JXFORM_DROP)
    (hW : src.output_width < UINT_RANGE) (hH : src.output_height < UINT_RANGE)
    (hnum : number < decoder.length)
    (h1 : align_block1 pt src drop (src_request t decoder number) = some tb)
    (hw : 0 < decoder.getD (number + 4) 0)
    (hxw : decoder.getD number 0 + decoder.getD (number + 4) 0 ≤ src.output_width)
    (hh : 0 < decoder.getD (number + 5) 0)
    (hyh : decoder.getD (number + 1) 0 + decoder.getD (number + 5) 0 ≤ src.output_height)
    (hux : 1 ≤ iMCU_width src t.num_components)
    (huy : 1 ≤ iMCU_height src t.num_components)
    (hx : decoder.getD number 0 + iMCU_width src t.num_components ≤ UINT_RANGE)
    (hy : decoder.getD (number + 1) 0 + iMCU_height src t.num_components ≤ UINT_RANGE)
    (hz : decoder.getD (number + 4) 0 ≤
          snap_delta (iMCU_width src t.num_components) (decoder.getD number 0) ∨
        decoder.getD (number + 5) 0 ≤
          snap_delta (iMCU_height src t.num_components) (decoder.getD (number + 1) 0)) :
    ∃ td call,
      (∀ drop2, align_block2 pt src drop2 (dest_request tb decoder number) = some td) ∧
      (decoder.getD (number + 4) 0 ≤
          snap_delta (iMCU_width src t.num_components) (decoder.getD number 0) →
        td.drop_width = 0) ∧
      (decoder.getD (number + 5) 0 ≤
          snap_delta (iMCU_height src t.num_components) (decoder.getD (number + 1) 0) →
        td.drop_height = 0) ∧
      do_drop1_region pt src drop decoder number t = some (td, call) ∧
      call.drop_width = td.drop_width ∧ call.drop_height = td.drop_height ∧
      do_drop1_loop pt src drop decoder (fuel + 1) number t calls =
        do_drop1_loop pt src drop decoder fuel (number + 6) td (calls ++ [call]) := by
  obtain ⟨htb, -⟩ := align_block1_src_some pt src drop decoder number t tb hT hW hH h1
  have hTb : tb.transform = JXFORM_DROP := by rw [htb]; exact hT
  have hnb : tb.num_components = t.num_components := by rw [htb]; rfl
  have hreq := dest_request_drop tb decoder number hTb
  have hdx := drop_dtemp_eq hux hx
  have hdy := drop_dtemp_eq huy hy
  have hzw : decoder.getD (number + 4) 0 ≤
      snap_delta (iMCU_width src t.num_components) (decoder.getD number 0) →
      (drop_aligned src (dest_request tb decoder number)).drop_width = 0 := by
    intro h
    show drop_size (iMCU_width src tb.num_components) (decoder.getD number 0)
      (decoder.getD (number + 4) 0) src.output_width = 0
    unfold drop_size
    rw [hnb, hdx, if_pos h]
  have hzh : decoder.getD (number + 5) 0 ≤
      snap_delta (iMCU_height src t.num_components) (decoder.getD (number + 1) 0) →
      (drop_aligned src (dest_request tb decoder number)).drop_height = 0 := by
    intro h
    show drop_size (iMCU_height src tb.num_components) (decoder.getD (number + 1) 0)
      (decoder.getD (number + 5) 0) src.output_height = 0
    unfold drop_size
    rw [hnb, hdy, if_pos h]
  have hall : ∀ drop2, align_block2 pt src drop2 (dest_request tb decoder number) =
      some (drop_aligned src (dest_request tb decoder number)) := by
    intro drop2
    rw [align_block2_drop_char pt src drop2 _ hreq hW hH,
      if_neg (perfect_accepts_drop pt src _ hp hreq.1),
      if_neg (not_not.mpr ⟨hw, hxw, hh, hyh⟩)]
    apply if_neg
    rintro ⟨a, b, -⟩
    rcases hz with h | h
    · exact a (hzw h)
    · exact b (hzh h)
  have hreg := do_drop1_region_of_some pt src drop decoder number t tb _ h1 (hall drop)
  refine ⟨_, _, hall, hzw, hzh, hreg, rfl, rfl, ?_⟩
  simp only [do_drop1_loop, if_pos hnum, hreg]

/-- C3 at a concrete input: on a 128x128 4:2:0 image the region with
destination 4x4+10+10 lies inside the leading partial iMCU (delta 6); it
reaches `do_drop` with a 0x0 rectangle and the loop finishes the batch. -/
theorem C3_zero_size_is_no_op_witness :
    (4 ≤ snap_delta 16 10 ∨ 4 ≤ snap_delta 16 10) ∧
    ∃ td call,
      (∀ drop2, align_block2 always_perfect (image_420 128 128) drop2
        (dest_request (drop_aligned (image_420 128 128)
          (src_request loop_entry [10, 10, 0, 0, 4, 4] 0)) [10, 10, 0, 0, 4, 4] 0) = some td) ∧
      (4 ≤ snap_delta 16 10 → td.drop_width = 0) ∧
      (4 ≤ snap_delta 16 10 → td.drop_height = 0) ∧
      do_drop1_region always_perfect (image_420 128 128) (image_420 128 128)
        [10, 10, 0, 0, 4, 4] 0 loop_entry = some (td, call) ∧
      call.drop_width = td.drop_width ∧ call.drop_height = td.drop_height ∧
      do_drop1_loop always_perfect (image_420 128 128) (image_420 128 128)
          [10, 10, 0, 0, 4, 4] (1 + 1) 0 loop_entry [] =
        do_drop1_loop always_perfect (image_420 128 128) (image_420 128 128)
          [10, 10, 0, 0, 4, 4] 1 (0 + 6) td ([] ++ [call]) :=
  ⟨by decide,
    C3_zero_size_is_no_op always_perfect (image_420 128 128) (image_420 128 128)
      [10, 10, 0, 0, 4, 4] 0 1 loop_entry
      (drop_aligned (image_420 128 128) (src_request loop_entry [10, 10, 0, 0, 4, 4] 0)) []
      (fun _ _ _ _ => rfl) (by decide) (by decide) (by decide) (by decide) (by decide)
      (by decide) (by decide) (by decide) (by decide) (by decide) (by decide) (by decide)
      (by decide) (by decide)⟩

/-! ## The second alignment block on requests other than drops -/

theorem set_units2_fields (src : jpeg_decompress_struct) (t : jpeg_transform_info) :
    (set_units2 src t).transform = t.transform ∧ (set_units2 src t).crop = t.crop ∧
    (set_units2 src t).crop_width = t.crop_width ∧
    (set_units2 src t).crop_width_set = t.crop_width_set ∧
    (set_units2 src t).crop_height = t.crop_height ∧
    (set_units2 src t).crop_height_set = t.crop_height_set ∧
    (set_units2 src t).crop_xoffset = t.crop_xoffset ∧
    (set_units2 src t).crop_xoffset_set = t.crop_xoffset_set ∧
    (set_units2 src t).crop_yoffset = t.crop_yoffset ∧
    (set_units2 src t).crop_yoffset_set = t.crop_yoffset_set ∧
    (set_units2 src t).num_components = t.num_components := by
  unfold set_units2
  split <;> exact ⟨rfl, rfl, rfl, rfl, rfl, rfl, rfl, rfl, rfl, rfl, rfl⟩

theorem validated2_fields (src : jpeg_decompress_struct) (t : jpeg_transform_info) :
    (validated2 src t).transform = t.transform ∧
    (validated2 src t).crop_width_set = t.crop_width_set ∧
    (validated2 src t).crop_height_set = t.crop_height_set ∧
    (validated2 src t).crop_xoffset_set = t.crop_xoffset_set ∧
    (validated2 src t).crop_yoffset_set = t.crop_yoffset_set ∧
    (validated2 src t).num_components = t.num_components ∧
    (validated2 src t).output_width = (set_units2 src t).output_width ∧
    (validated2 src t).output_height = (set_units2 src t).output_height ∧
    (validated2 src t).iMCU_sample_width = (set_units2 src t).iMCU_sample_width ∧
    (validated2 src t).iMCU_sample_height = (set_units2 src t).iMCU_sample_height ∧
    (validated2 src t).crop_xoffset =
      (if t.crop_xoffset_set = JCROP_UNSET then 0 else t.crop_xoffset) ∧
    (validated2 src t).crop_yoffset =
      (if t.crop_yoffset_set = JCROP_UNSET then 0 else t.crop_yoffset) := by
  obtain ⟨h1, -, h3, h4, h5, h6, h7, h8, h9, h10, h11⟩ := set_units2_fields src t
  refine ⟨h1, h4, h6, h8, h10, h11, rfl, rfl, rfl, rfl, ?_, ?_⟩
  · show (if (set_units2 src t).crop_xoffset_set = JCROP_UNSET then 0
      else (set_units2 src t).crop_xoffset) = _
    rw [h7, h8]
  · show (if (set_units2 src t).crop_yoffset_set = JCROP_UNSET then 0
      else (set_units2 src t).crop_yoffset) = _
    rw [h9, h10]

/-- What the second alignment block does with a crop request whose
transform is not a drop. -/
theorem align_block2_cover_char (pt : perfect_transform_fn)
    (src drop : jpeg_decompress_struct) (t : jpeg_transform_info)
    (hT : t.transform ≠ JXFORM_DROP) (hcrop : t.crop = true) :
    align_block2 pt src drop t =
      if perfect_rejects2 pt src t then none
      else if width_rejected2 (default_offsets2 (set_units2 src t)) then none
      else if height_rejected2 (default_width2 (default_offsets2 (set_units2 src t))) then none
      else some (snap_cover2 (validated2 src t) (regular_xoffset2 (validated2 src t))
        (regular_yoffset2 (validated2 src t))) := by
  have hc : (set_units2 src t).crop = true := by
    rw [(set_units2_fields src t).2.1]; exact hcrop
  have ht : (default_height2 (default_width2 (default_offsets2 (set_units2 src t)))).transform =
      t.transform := (validated2_fields src t).1
  unfold align_block2
  by_cases h1 : perfect_rejects2 pt src t
  · rw [if_pos h1, if_pos h1]
  · rw [if_neg h1, if_neg h1]
    simp only [hc, Bool.true_eq_false, if_false]
    by_cases h2 : width_rejected2 (default_offsets2 (set_units2 src t))
    · rw [if_pos h2, if_pos h2]
    · rw [if_neg h2, if_neg h2]
      by_cases h3 : height_rejected2 (default_width2 (default_offsets2 (set_units2 src t)))
      · rw [if_pos h3, if_pos h3]
      · rw [if_neg h3, if_neg h3, ht]
        cases hk : t.transform <;> first
          | exact absurd hk hT
          | rfl

/-- The fields written by the `default` case of the switch. -/
theorem snap_cover2_fields (t5 : jpeg_transform_info) (x y : Nat) :
    (snap_cover2 t5 x y).x_crop_offset = x / t5.iMCU_sample_width ∧
    (snap_cover2 t5 x y).y_crop_offset = y / t5.iMCU_sample_height ∧
    (snap_cover2 t5 x y).output_width =
      (if t5.crop_width_set = JCROP_FORCE ∨ t5.crop_width > t5.output_width then t5.crop_width
        else jd_add t5.crop_width (x % t5.iMCU_sample_width)) ∧
    (snap_cover2 t5 x y).output_height =
      (if t5.crop_height_set = JCROP_FORCE ∨ t5.crop_height > t5.output_height then
        t5.crop_height
        else jd_add t5.crop_height (y % t5.iMCU_sample_height)) :=
  ⟨rfl, rfl, rfl, rfl⟩

/-! ## C4: an already aligned request is not snapped -/

theorem snap_delta_zero {u : Nat} (hu : 1 ≤ u) : snap_delta u 0 = 0 := by
  unfold snap_delta
  have h : (0 + u - 1) % u = u - 1 := by
    rw [Nat.zero_add]
    exact Nat.mod_eq_of_lt (by omega)
  rw [h]
  omega

theorem ceil_div_of_dvd {w u : Nat} (hu : 1 ≤ u) (hdvd : u ∣ w) : (w + u - 1) / u = w / u := by
  obtain ⟨k, rfl⟩ := hdvd
  rw [Nat.mul_div_cancel_left k (by omega)]
  have h : u * k + u - 1 = u - 1 + u * k := by omega
  rw [h, Nat.add_mul_div_left _ _ (by omega), Nat.div_eq_of_lt (by omega)]
  omega

/-- C4: a crop request accepted by the second alignment block whose offset
is `(0, 0)` (not measured from the far edge) and whose width and height are
given explicitly keeps its placement.  When the transform is not a drop, the
iMCU offset is `(0, 0)` and the output width and height are the requested
width and height.  When it is a drop whose width and height are multiples of
the iMCU unit, the iMCU offset is `(0, 0)` and the drop size is exactly
`width / unit` by `height / unit` iMCUs, whether or not the request reaches
the far edge of the image. -/
theorem C4_aligned_request_unmodified (pt : perfect_transform_fn)
    (src drop : jpeg_decompress_struct) (t r : jpeg_transform_info)
    (hcrop : t.crop = true)
    (hxs : t.crop_xoffset_set ≠ JCROP_NEG) (hys : t.crop_yoffset_set ≠ JCROP_NEG)
    (hx0 : t.crop_xoffset = 0) (hy0 : t.crop_yoffset = 0)
    (hws : t.crop_width_set ≠ JCROP_UNSET) (hhs : t.crop_height_set ≠ JCROP_UNSET)
    (hwR : t.crop_width < UINT_RANGE) (hhR : t.crop_height < UINT_RANGE)
    (hWR : src.output_width < UINT_RANGE) (hHR : src.output_height < UINT_RANGE)
    (hacc : align_block2 pt src drop t = some r) :
    (t.transform ≠ JXFORM_DROP →
      r.x_crop_offset = 0 ∧ r.y_crop_offset = 0 ∧
      r.output_width = t.crop_width ∧ r.output_height = t.crop_height) ∧
    (drop_request t →
      r.iMCU_sample_width ∣ t.crop_width → r.iMCU_sample_height ∣ t.crop_height →
      src.output_width + r.iMCU_sample_width ≤ UINT_RANGE →
      src.output_height + r.iMCU_sample_height ≤ UINT_RANGE →
      r.x_crop_offset = 0 ∧ r.y_crop_offset = 0 ∧
      r.drop_width = t.crop_width / r.iMCU_sample_width ∧
      r.drop_height = t.crop_height / r.iMCU_sample_height ∧
      r.drop_width * r.iMCU_sample_width = t.crop_width ∧
      r.drop_height * r.iMCU_sample_height = t.crop_height) := by
  constructor
  · intro hT
    rw [align_block2_cover_char pt src drop t hT hcrop] at hacc
    split_ifs at hacc
    have hr := (Option.some.inj hacc).symm
    obtain ⟨-, f2, f3, f4, f5, -, -, -, -, -, f11, f12⟩ := validated2_fields src t
    have hx : regular_xoffset2 (validated2 src t) = 0 := by
      unfold regular_xoffset2
      rw [f4, if_pos hxs, f11, hx0, ite_self]
    have hy : regular_yoffset2 (validated2 src t) = 0 := by
      unfold regular_yoffset2
      rw [f5, if_pos hys, f12, hy0, ite_self]
    have hcw : (validated2 src t).crop_width = t.crop_width := by
      show (if (default_offsets2 (set_units2 src t)).crop_width_set = JCROP_UNSET then _
        else (default_offsets2 (set_units2 src t)).crop_width) = _
      have e : (default_offsets2 (set_units2 src t)).crop_width_set = t.crop_width_set :=
        (set_units2_fields src t).2.2.2.1
      rw [e, if_neg hws]
      exact (set_units2_fields src t).2.2.1
    have hch : (validated2 src t).crop_height = t.crop_height := by
      show (if (default_width2 (default_offsets2 (set_units2 src t))).crop_height_set =
          JCROP_UNSET then _
        else (default_width2 (default_offsets2 (set_units2 src t))).crop_height) = _
      have e : (default_width2 (default_offsets2 (set_units2 src t))).crop_height_set =
          t.crop_height_set := (set_units2_fields src t).2.2.2.2.2.1
      rw [e, if_neg hhs]
      exact (set_units2_fields src t).2.2.2.2.1
    have ew : jd_add t.crop_width 0 = t.crop_width := by
      unfold jd_add UINT_RANGE at *; omega
    have eh : jd_add t.crop_height 0 = t.crop_height := by
      unfold jd_add UINT_RANGE at *; omega
    obtain ⟨g1, g2, g3, g4⟩ := snap_cover2_fields (validated2 src t)
      (regular_xoffset2 (validated2 src t)) (regular_yoffset2 (validated2 src t))
    rw [hr, g1, g2, g3, g4, hx, hy, hcw, hch, Nat.zero_mod, Nat.zero_mod, ew, eh, ite_self,
      ite_self]
    exact ⟨Nat.zero_div _, Nat.zero_div _, rfl, rfl⟩
  · intro hreq hdw hdh hW hH
    obtain ⟨hr, -, hw, hxw, hh, hyh⟩ :=
      align_block2_drop_some pt src drop t r hreq hWR hHR hacc
    subst hr
    simp only [drop_aligned] at hdw hdh hW hH ⊢
    have hux : 1 ≤ iMCU_width src t.num_components :=
      Nat.pos_of_dvd_of_pos hdw hw
    have huy : 1 ≤ iMCU_height src t.num_components :=
      Nat.pos_of_dvd_of_pos hdh hh
    have ew := drop_size_eq (u := iMCU_width src t.num_components) hux hxw hW
    have eh := drop_size_eq (u := iMCU_height src t.num_components) huy hyh hH
    have dx := drop_dtemp_eq (x := t.crop_xoffset) hux (by omega)
    have dy := drop_dtemp_eq (x := t.crop_yoffset) huy (by omega)
    rw [hx0] at ew dx
    rw [hy0] at eh dy
    rw [snap_delta_zero hux] at ew dx
    rw [snap_delta_zero huy] at eh dy
    rw [if_neg (by omega), Nat.sub_zero, ceil_div_of_dvd hux hdw, ite_self] at ew
    rw [if_neg (by omega), Nat.sub_zero, ceil_div_of_dvd huy hdh, ite_self] at eh
    rw [hx0, hy0, dx, dy, ew, eh]
    have a0 : jd_add 0 0 = 0 := rfl
    rw [a0]
    exact ⟨Nat.zero_div _, Nat.zero_div _, rfl, rfl, Nat.div_mul_cancel hdw,
      Nat.div_mul_cancel hdh⟩

/-- C4 at concrete inputs: on a 128x128 4:2:0 image the drop request
64x64+0+0 gives 4x4 iMCUs at iMCU offset (0, 0), and the same request
without a transform gives output size 64x64 at iMCU offset (0, 0). -/
theorem C4_aligned_request_unmodified_witness :
    ((drop_aligned (image_420 128 128)
        (dest_request loop_entry [0, 0, 0, 0, 64, 64] 0)).x_crop_offset = 0 ∧
      (drop_aligned (image_420 128 128)
        (dest_request loop_entry [0, 0, 0, 0, 64, 64] 0)).y_crop_offset = 0 ∧
      (drop_aligned (image_420 128 128)
        (dest_request loop_entry [0, 0, 0, 0, 64, 64] 0)).drop_width = 64 / 16 ∧
      (drop_aligned (image_420 128 128)
        (dest_request loop_entry [0, 0, 0, 0, 64, 64] 0)).drop_height = 64 / 16 ∧
      (drop_aligned (image_420 128 128)
        (dest_request loop_entry [0, 0, 0, 0, 64, 64] 0)).drop_width * 16 = 64 ∧
      (drop_aligned (image_420 128 128)
        (dest_request loop_entry [0, 0, 0, 0, 64, 64] 0)).drop_height * 16 = 64) ∧
    ∃ r, align_block2 always_perfect (image_420 128 128) (image_420 128 128)
        { dest_request loop_entry [0, 0, 0, 0, 64, 64] 0 with transform := JXFORM_NONE } =
          some r ∧
      r.x_crop_offset = 0 ∧ r.y_crop_offset = 0 ∧ r.output_width = 64 ∧ r.output_height = 64 :=
  ⟨(C4_aligned_request_unmodified always_perfect (image_420 128 128) (image_420 128 128)
      (dest_request loop_entry [0, 0, 0, 0, 64, 64] 0)
      (drop_aligned (image_420 128 128) (dest_request loop_entry [0, 0, 0, 0, 64, 64] 0))
      (by decide) (by decide) (by decide) (by decide) (by decide) (by decide) (by decide)
      (by decide) (by decide) (by decide) (by decide) (by decide)).2
      (by decide) (by decide) (by decide) (by decide) (by decide),
    ⟨_, rfl,
      (C4_aligned_request_unmodified always_perfect (image_420 128 128) (image_420 128 128)
        { dest_request loop_entry [0, 0, 0, 0, 64, 64] 0 with transform := JXFORM_NONE }
        _ (by decide) (by decide) (by decide) (by decide) (by decide) (by decide) (by decide)
        (by decide) (by decide) (by decide) (by decide) rfl).1 (by decide)⟩⟩

/-! ## C5: the worked example -/

/-- C5, refuted as stated: for the batch `"0 0 10 10 64 64"` on a 128x128
three-component image with iMCU 16x16 the `do_drop` call receives
destination offset (0, 0), drop size 4x4 and source offset (1, 1); the
source offset is not (0, 0). -/
theorem C5_worked_example_counterexample :
    (do_drop1_region always_perfect (image_420 128 128) (image_420 128 128)
        [0, 0, 10, 10, 64, 64] 0 loop_entry).map Prod.snd =
      some { x_crop_offset := 0, y_crop_offset := 0, drop_width := 4, drop_height := 4,
             crop1 := 1, crop2 := 1 } ∧
    ¬ (do_drop1_region always_perfect (image_420 128 128) (image_420 128 128)
        [0, 0, 10, 10, 64, 64] 0 loop_entry).map Prod.snd =
      some { x_crop_offset := 0, y_crop_offset := 0, drop_width := 4, drop_height := 4,
             crop1 := 0, crop2 := 0 } := by
  decide

/-- C5, amended: on a 128x128 three-component image with iMCU 16x16, the
drop alignment of the 64x64 rectangle at pixel offset (0, 0) gives 4x4 iMCUs
at iMCU offset (0, 0), and the alignment of the 32x32 source window at
(0, 0) gives iMCU offset (0, 0); a pixel offset of (10, 10) is snapped up to
iMCU offset (1, 1), with 3x3 iMCUs for the 64x64 rectangle, and to iMCU
offset (1, 1) for the source window.  The `do_drop` call for the batch
`"0 0 10 10 64 64"` therefore receives one offset pair equal to (0, 0) and
the other equal to (1, 1). -/
theorem C5_worked_example_amended :
    (align_block2 always_perfect (image_420 128 128) (image_420 128 128)
        (crop_request loop_entry 0 0 64 64)).map
      (fun r => (r.x_crop_offset, r.y_crop_offset, r.drop_width, r.drop_height)) =
      some (0, 0, 4, 4) ∧
    (align_block1 always_perfect (image_420 128 128) (image_420 128 128)
        (crop_request loop_entry 0 0 32 32)).map
      (fun r => (r.x_crop_offset, r.y_crop_offset)) = some (0, 0) ∧
    (align_block2 always_perfect (image_420 128 128) (image_420 128 128)
        (crop_request loop_entry 10 10 64 64)).map
      (fun r => (r.x_crop_offset, r.y_crop_offset, r.drop_width, r.drop_height)) =
      some (1, 1, 3, 3) ∧
    (align_block1 always_perfect (image_420 128 128) (image_420 128 128)
        (crop_request loop_entry 10 10 32 32)).map
      (fun r => (r.x_crop_offset, r.y_crop_offset)) = some (1, 1) ∧
    ∃ out, do_drop1_region always_perfect (image_420 128 128) (image_420 128 128)
        [0, 0, 10, 10, 64, 64] 0 loop_entry = some out ∧
      ((out.2.x_crop_offset = 0 ∧ out.2.y_crop_offset = 0 ∧
          out.2.crop1 = 1 ∧ out.2.crop2 = 1) ∨
        (out.2.x_crop_offset = 1 ∧ out.2.y_crop_offset = 1 ∧
          out.2.crop1 = 0 ∧ out.2.crop2 = 0)) :=
  ⟨by decide, by decide, by decide, by decide, _, rfl, Or.inl ⟨rfl, rfl, rfl, rfl⟩⟩

/-! ## C6: the sampling-compatibility check -/

/-- C6: for a drop request that passes the perfect test and the bounds
validation and whose aligned width and height are both non-zero, the second
alignment block returns a result if and only if every component index
`ci < min (num_components, drop image's num_components)` satisfies both
sampling equations; on a mismatch the block returns early, and a region whose
second alignment is this request makes no `do_drop` call: the loop returns
with the calls made before. -/
theorem C6_sampling_check (pt : perfect_transform_fn)
    (src drop : jpeg_decompress_struct) (t : jpeg_transform_info)
    (hreq : drop_request t) (hperf : ¬ perfect_rejects2 pt src t)
    (hW : src.output_width < UINT_RANGE) (hH : src.output_height < UINT_RANGE)
    (hw : 0 < t.crop_width) (hxw : t.crop_xoffset + t.crop_width ≤ src.output_width)
    (hh : 0 < t.crop_height) (hyh : t.crop_yoffset + t.crop_height ≤ src.output_height)
    (hnw : drop_size (iMCU_width src t.num_components) t.crop_xoffset t.crop_width
      src.output_width ≠ 0)
    (hnh : drop_size (iMCU_height src t.num_components) t.crop_yoffset t.crop_height
      src.output_height ≠ 0) :
    ((∃ r, align_block2 pt src drop t = some r) ↔
      ∀ ci, ci < min t.num_components drop.num_components →
        (drop.comp_info ci).h_samp_factor * src.max_h_samp_factor =
          (src.comp_info ci).h_samp_factor * drop.max_h_samp_factor ∧
        (drop.comp_info ci).v_samp_factor * src.max_v_samp_factor =
          (src.comp_info ci).v_samp_factor * drop.max_v_samp_factor) ∧
    ((¬ ∀ ci, ci < min t.num_components drop.num_components →
        (drop.comp_info ci).h_samp_factor * src.max_h_samp_factor =
          (src.comp_info ci).h_samp_factor * drop.max_h_samp_factor ∧
        (drop.comp_info ci).v_samp_factor * src.max_v_samp_factor =
          (src.comp_info ci).v_samp_factor * drop.max_v_samp_factor) →
      align_block2 pt src drop t = none ∧
      ∀ (decoder : List Nat) (number fuel : Nat) (t0 tb : jpeg_transform_info)
        (calls : List do_drop_args),
        number < decoder.length →
        align_block1 pt src drop (src_request t0 decoder number) = some tb →
        dest_request tb decoder number = t →
        do_drop1_region pt src drop decoder number t0 = none ∧
        do_drop1_loop pt src drop decoder (fuel + 1) number t0 calls =
          loop_result.returned calls) := by
  have hchar := align_block2_drop_char pt src drop t hreq hW hH
  rw [if_neg hperf, if_neg (not_not.mpr ⟨hw, hxw, hh, hyh⟩)] at hchar
  have hnw2 : (drop_aligned src t).drop_width ≠ 0 := hnw
  have hnh2 : (drop_aligned src t).drop_height ≠ 0 := hnh
  have hfalse := samp_loop2_false_iff src drop (min t.num_components drop.num_components)
  have hnone : (¬ ∀ ci, ci < min t.num_components drop.num_components →
      samp_factors_match src drop ci) → align_block2 pt src drop t = none := by
    intro hm
    rw [hchar, if_pos ⟨hnw2, hnh2, hfalse.mpr hm⟩]
  refine ⟨⟨?_, ?_⟩, fun hm => ⟨hnone hm, ?_⟩⟩
  · rintro ⟨r, hr⟩
    by_contra hm
    rw [hnone hm] at hr
    exact Option.noConfusion hr
  · intro hm
    refine ⟨drop_aligned src t, ?_⟩
    rw [hchar]
    apply if_neg
    rintro ⟨-, -, hl⟩
    exact hfalse.mp hl hm
  · intro decoder number fuel t0 tb calls hnum h1 hdest
    have hreg : do_drop1_region pt src drop decoder number t0 = none := by
      apply do_drop1_region_of_none
      intro tb2 h2
      rw [h1] at h2
      rw [← Option.some.inj h2, hdest]
      exact hnone hm
    refine ⟨hreg, ?_⟩
    simp only [do_drop1_loop, if_pos hnum, hreg]

/-- C6 at concrete inputs: the drop request 64x64+0+0 on a 128x128 4:2:0
image is accepted when the drop image is 4:2:0 as well, and is rejected when
the drop image is 4:4:4 (component 1 fails the horizontal equation). -/
theorem C6_sampling_check_witness :
    (∃ r, align_block2 always_perfect (image_420 128 128) (image_420 128 128)
      (crop_request loop_entry 0 0 64 64) = some r) ∧
    ((image_444 128 128).comp_info 1).h_samp_factor * (image_420 128 128).max_h_samp_factor ≠
      ((image_420 128 128).comp_info 1).h_samp_factor * (image_444 128 128).max_h_samp_factor ∧
    align_block2 always_perfect (image_420 128 128) (image_444 128 128)
      (crop_request loop_entry 0 0 64 64) = none :=
  ⟨(C6_sampling_check always_perfect (image_420 128 128) (image_420 128 128)
      (crop_request loop_entry 0 0 64 64) (by decide) (by decide) (by decide) (by decide)
      (by decide) (by decide) (by decide) (by decide) (by decide) (by decide)).1.mpr
      (by decide),
    by decide,
    ((C6_sampling_check always_perfect (image_420 128 128) (image_444 128 128)
      (crop_request loop_entry 0 0 64 64) (by decide) (by decide) (by decide) (by decide)
      (by decide) (by decide) (by decide) (by decide) (by decide) (by decide)).2
      (by decide)).1⟩

/-! ## C7: a 4:4:4 image cannot be dropped onto a 4:2:0 image -/

/-- C7: let the working image have three components sampled 2x2, 1x1, 1x1
(maximum factors 2 and 2) and the drop image three components sampled 1x1
(maximum factors 1 and 1).  Every drop request whose aligned width and
height are both non-zero is rejected by the second alignment block, and a
region of the batch whose destination rectangle has non-zero aligned width
and height makes no `do_drop` call: the loop returns with the calls made
before. -/
theorem C7_444_onto_420_rejected (pt : perfect_transform_fn)
    (src drop : jpeg_decompress_struct)
    (hW : src.output_width < UINT_RANGE) (hH : src.output_height < UINT_RANGE)
    (_hs0 : src.comp_info 0 = ⟨2, 2⟩) (hs1 : src.comp_info 1 = ⟨1, 1⟩)
    (_hs2 : src.comp_info 2 = ⟨1, 1⟩)
    (hsh : src.max_h_samp_factor = 2) (_hsv : src.max_v_samp_factor = 2)
    (_hd0 : drop.comp_info 0 = ⟨1, 1⟩) (hd1 : drop.comp_info 1 = ⟨1, 1⟩)
    (_hd2 : drop.comp_info 2 = ⟨1, 1⟩)
    (hdh : drop.max_h_samp_factor = 1) (_hdv : drop.max_v_samp_factor = 1)
    (hdn : drop.num_components = 3) :
    (∀ t : jpeg_transform_info, drop_request t → t.num_components = 3 →
      drop_size (iMCU_width src 3) t.crop_xoffset t.crop_width src.output_width ≠ 0 →
      drop_size (iMCU_height src 3) t.crop_yoffset t.crop_height src.output_height ≠ 0 →
      align_block2 pt src drop t = none) ∧
    (∀ (decoder : List Nat) (number fuel : Nat) (t0 : jpeg_transform_info)
      (calls : List do_drop_args),
      t0.transform = JXFORM_DROP → t0.num_components = 3 → number < decoder.length →
      drop_size (iMCU_width src 3) (decoder.getD number 0) (decoder.getD (number + 4) 0)
        src.output_width ≠ 0 →
      drop_size (iMCU_height src 3) (decoder.getD (number + 1) 0)
        (decoder.getD (number + 5) 0) src.output_height ≠ 0 →
      do_drop1_region pt src drop decoder number t0 = none ∧
      do_drop1_loop pt src drop decoder (fuel + 1) number t0 calls =
        loop_result.returned calls) := by
  have hmis : ∀ n, n = 3 → ¬ ∀ ci, ci < min n drop.num_components →
      samp_factors_match src drop ci := by
    intro n hn hall
    have h := (hall 1 (by rw [hn, hdn]; decide)).1
    rw [hd1, hs1, hsh, hdh] at h
    exact absurd h (by decide)
  have hblock : ∀ t : jpeg_transform_info, drop_request t → t.num_components = 3 →
      drop_size (iMCU_width src 3) t.crop_xoffset t.crop_width src.output_width ≠ 0 →
      drop_size (iMCU_height src 3) t.crop_yoffset t.crop_height src.output_height ≠ 0 →
      align_block2 pt src drop t = none := by
    intro t hreq hn hnw hnh
    rw [align_block2_drop_char pt src drop t hreq hW hH]
    have h3 : (drop_aligned src t).drop_width ≠ 0 ∧ (drop_aligned src t).drop_height ≠ 0 ∧
        samp_loop2 src drop (min t.num_components drop.num_components) 0 = false := by
      refine ⟨?_, ?_, (samp_loop2_false_iff src drop _).mpr (hmis _ hn)⟩
      · show drop_size (iMCU_width src t.num_components) _ _ _ ≠ 0
        rw [hn]; exact hnw
      · show drop_size (iMCU_height src t.num_components) _ _ _ ≠ 0
        rw [hn]; exact hnh
    rw [if_pos h3, ite_self, ite_self]
  refine ⟨hblock, ?_⟩
  intro decoder number fuel t0 calls hT hn hnum hnw hnh
  have hreg : do_drop1_region pt src drop decoder number t0 = none := by
    apply do_drop1_region_of_none
    intro tb h1
    obtain ⟨htb, -⟩ := align_block1_src_some pt src drop decoder number t0 tb hT hW hH h1
    have hTb : tb.transform = JXFORM_DROP := by rw [htb]; exact hT
    have hnb : tb.num_components = 3 := by rw [htb]; exact hn
    exact hblock _ (dest_request_drop tb decoder number hTb) hnb hnw hnh
  exact ⟨hreg, by simp only [do_drop1_loop, if_pos hnum, hreg]⟩

/-- C7 at a concrete input: with a 128x128 4:2:0 working image and a 4:4:4
drop image, the region `0 0 0 0 64 64` makes no `do_drop` call. -/
theorem C7_444_onto_420_rejected_witness :
    do_drop1_region always_perfect (image_420 128 128) (image_444 128 128)
        [0, 0, 0, 0, 64, 64] 0 loop_entry = none ∧
    do_drop1_loop always_perfect (image_420 128 128) (image_444 128 128)
        [0, 0, 0, 0, 64, 64] (0 + 1) 0 loop_entry [] = loop_result.returned [] :=
  (C7_444_onto_420_rejected always_perfect (image_420 128 128) (image_444 128 128)
    (by decide) (by decide) rfl rfl rfl rfl rfl rfl rfl rfl rfl rfl rfl).2
    [0, 0, 0, 0, 64, 64] 0 0 loop_entry [] (by decide) (by decide) (by decide) (by decide)
    (by decide)

/-! ## C8: crop extension needs `JXFORM_NONE` -/

theorem default_offsets2_fields (t : jpeg_transform_info) :
    (default_offsets2 t).transform = t.transform ∧
    (default_offsets2 t).crop_width = t.crop_width ∧
    (default_offsets2 t).crop_width_set = t.crop_width_set ∧
    (default_offsets2 t).crop_height = t.crop_height ∧
    (default_offsets2 t).crop_height_set = t.crop_height_set ∧
    (default_offsets2 t).output_width = t.output_width ∧
    (default_offsets2 t).output_height = t.output_height ∧
    (default_offsets2 t).crop_xoffset =
      (if t.crop_xoffset_set = JCROP_UNSET then 0 else t.crop_xoffset) ∧
    (default_offsets2 t).crop_yoffset =
      (if t.crop_yoffset_set = JCROP_UNSET then 0 else t.crop_yoffset) :=
  ⟨rfl, rfl, rfl, rfl, rfl, rfl, rfl, rfl, rfl⟩

/-- The width check on a request whose explicit width exceeds the image
width. -/
theorem width_rejected2_extension (t3 : jpeg_transform_info)
    (hws : t3.crop_width_set ≠ JCROP_UNSET) (hwW : t3.output_width < t3.crop_width)
    (hW1 : 1 ≤ t3.output_width) (hwR : t3.crop_width < UINT_RANGE) :
    ¬ width_rejected2 t3 ↔
      t3.transform = JXFORM_NONE ∧ t3.crop_xoffset ≤ t3.crop_width - t3.output_width := by
  unfold width_rejected2
  rw [if_neg hws, if_pos hwW, jd_sub_of_le (by omega) hwR]
  constructor
  · intro h
    refine ⟨?_, ?_⟩
    · by_contra hk
      exact h (Or.inl hk)
    · by_contra hk
      exact h (Or.inr (Or.inr (by omega)))
  · rintro ⟨hk, hx⟩ h
    rcases h with h | h | h
    · exact h hk
    · omega
    · omega

/-- The height check on a request whose explicit height exceeds the image
height. -/
theorem height_rejected2_extension (t4 : jpeg_transform_info)
    (hhs : t4.crop_height_set ≠ JCROP_UNSET) (hhH : t4.output_height < t4.crop_height)
    (hH1 : 1 ≤ t4.output_height) (hhR : t4.crop_height < UINT_RANGE) :
    ¬ height_rejected2 t4 ↔
      t4.transform = JXFORM_NONE ∧ t4.crop_yoffset ≤ t4.crop_height - t4.output_height := by
  unfold height_rejected2
  rw [if_neg hhs, if_pos hhH, jd_sub_of_le (by omega) hhR]
  constructor
  · intro h
    refine ⟨?_, ?_⟩
    · by_contra hk
      exact h (Or.inl hk)
    · by_contra hk
      exact h (Or.inr (Or.inr (by omega)))
  · rintro ⟨hk, hy⟩ h
    rcases h with h | h | h
    · exact h hk
    · omega
    · omega

/-- A crop request that the width check or the height check rejects is
rejected by the second alignment block. -/
theorem align_block2_none_of_rejected (pt : perfect_transform_fn)
    (src drop : jpeg_decompress_struct) (t : jpeg_transform_info) (hcrop : t.crop = true)
    (h : width_rejected2 (default_offsets2 (set_units2 src t)) ∨
      height_rejected2 (default_width2 (default_offsets2 (set_units2 src t)))) :
    align_block2 pt src drop t = none := by
  have hc : (set_units2 src t).crop = true := by
    rw [(set_units2_fields src t).2.1]; exact hcrop
  unfold align_block2
  by_cases h1 : perfect_rejects2 pt src t
  · rw [if_pos h1]
  · rw [if_neg h1]
    simp only [hc, Bool.true_eq_false, if_false]
    by_cases h2 : width_rejected2 (default_offsets2 (set_units2 src t))
    · rw [if_pos h2]
    · rw [if_neg h2]
      rcases h with h | h
      · exact absurd h h2
      · rw [if_pos h]

theorem set_units2_drop (src : jpeg_decompress_struct) (t : jpeg_transform_info)
    (hT : t.transform = JXFORM_DROP) :
    (set_units2 src t).output_width = src.output_width ∧
    (set_units2 src t).output_height = src.output_height := by
  unfold set_units2
  rw [hT]
  exact ⟨rfl, rfl⟩

/-- C8: take a crop request that passes the perfect test, and write `W`,
`H` for the output width and height stored by lines 1045-1075 and `x`, `y`
for the crop offsets after unset offsets are replaced by 0.  If the width
`w` is given explicitly with `w > W >= 1` and the height check passes, the
block returns a result if and only if the transform is `JXFORM_NONE` and
`x <= w - W`; the same holds for an explicit height `h > H >= 1` when the
width check passes.  In particular a drop request wider or taller than the
image is rejected, and a region of the batch whose width or height exceeds
the image makes no `do_drop` call. -/
theorem C8_crop_extension_only_without_transform (pt : perfect_transform_fn)
    (src drop : jpeg_decompress_struct) (t : jpeg_transform_info)
    (hcrop : t.crop = true) :
    (¬ perfect_rejects2 pt src t → t.crop_width_set ≠ JCROP_UNSET →
      (set_units2 src t).output_width < t.crop_width → 1 ≤ (set_units2 src t).output_width →
      t.crop_width < UINT_RANGE →
      ¬ height_rejected2 (default_width2 (default_offsets2 (set_units2 src t))) →
      ((∃ r, align_block2 pt src drop t = some r) ↔
        t.transform = JXFORM_NONE ∧
        (if t.crop_xoffset_set = JCROP_UNSET then 0 else t.crop_xoffset) ≤
          t.crop_width - (set_units2 src t).output_width)) ∧
    (¬ perfect_rejects2 pt src t → t.crop_height_set ≠ JCROP_UNSET →
      (set_units2 src t).output_height < t.crop_height →
      1 ≤ (set_units2 src t).output_height → t.crop_height < UINT_RANGE →
      ¬ width_rejected2 (default_offsets2 (set_units2 src t)) →
      ((∃ r, align_block2 pt src drop t = some r) ↔
        t.transform = JXFORM_NONE ∧
        (if t.crop_yoffset_set = JCROP_UNSET then 0 else t.crop_yoffset) ≤
          t.crop_height - (set_units2 src t).output_height)) ∧
    (t.transform = JXFORM_DROP →
      (t.crop_width_set ≠ JCROP_UNSET ∧ src.output_width < t.crop_width) ∨
        (t.crop_height_set ≠ JCROP_UNSET ∧ src.output_height < t.crop_height) →
      align_block2 pt src drop t = none) ∧
    (∀ (decoder : List Nat) (number fuel : Nat) (t0 : jpeg_transform_info)
      (calls : List do_drop_args),
      t0.transform = JXFORM_DROP → number < decoder.length →
      src.output_width < UINT_RANGE → src.output_height < UINT_RANGE →
      src.output_width < decoder.getD (number + 4) 0 ∨
        src.output_height < decoder.getD (number + 5) 0 →
      do_drop1_region pt src drop decoder number t0 = none ∧
      do_drop1_loop pt src drop decoder (fuel + 1) number t0 calls =
        loop_result.returned calls) := by
  obtain ⟨u1, -, u3, u4, u5, u6, u7, u8, u9, u10, -⟩ := set_units2_fields src t
  have hdrop : ∀ t' : jpeg_transform_info, t'.crop = true → t'.transform = JXFORM_DROP →
      (t'.crop_width_set ≠ JCROP_UNSET ∧ src.output_width < t'.crop_width) ∨
        (t'.crop_height_set ≠ JCROP_UNSET ∧ src.output_height < t'.crop_height) →
      align_block2 pt src drop t' = none := by
    intro t' hc' hT' h
    obtain ⟨v1, -, v3, v4, v5, v6, -⟩ := set_units2_fields src t'
    obtain ⟨o1, o2⟩ := set_units2_drop src t' hT'
    apply align_block2_none_of_rejected pt src drop t' hc'
    rcases h with ⟨hs, hlt⟩ | ⟨hs, hlt⟩
    · left
      unfold width_rejected2
      have e1 : (default_offsets2 (set_units2 src t')).crop_width_set = t'.crop_width_set := v4
      have e2 : (default_offsets2 (set_units2 src t')).crop_width = t'.crop_width := v3
      have e3 : (default_offsets2 (set_units2 src t')).output_width = src.output_width := o1
      have e4 : (default_offsets2 (set_units2 src t')).transform = JXFORM_DROP := by
        rw [← hT']; exact v1
      rw [e1, if_neg hs, e2, e3, if_pos hlt, e4]
      exact Or.inl (by decide)
    · right
      unfold height_rejected2
      have e1 : (default_width2 (default_offsets2 (set_units2 src t'))).crop_height_set =
          t'.crop_height_set := v6
      have e2 : (default_width2 (default_offsets2 (set_units2 src t'))).crop_height =
          t'.crop_height := v5
      have e3 : (default_width2 (default_offsets2 (set_units2 src t'))).output_height =
          src.output_height := o2
      have e4 : (default_width2 (default_offsets2 (set_units2 src t'))).transform =
          JXFORM_DROP := by rw [← hT']; exact v1
      rw [e1, if_neg hs, e2, e3, if_pos hlt, e4]
      exact Or.inl (by decide)
  refine ⟨?_, ?_, hdrop t hcrop, ?_⟩
  · intro hperf hws hwW hW1 hwR hh
    have hext := width_rejected2_extension (default_offsets2 (set_units2 src t))
      (by rw [(default_offsets2_fields _).2.2.1, u4]; exact hws)
      (by rw [(default_offsets2_fields _).2.1, (default_offsets2_fields _).2.2.2.2.2.1, u3]
          exact hwW)
      (by rw [(default_offsets2_fields _).2.2.2.2.2.1]; exact hW1)
      (by rw [(default_offsets2_fields _).2.1, u3]; exact hwR)
    rw [(default_offsets2_fields _).1, (default_offsets2_fields _).2.1,
      (default_offsets2_fields _).2.2.2.2.2.1, (default_offsets2_fields _).2.2.2.2.2.2.2.1,
      u1, u3, u7, u8] at hext
    rw [← hext]
    constructor
    · rintro ⟨r, hr⟩ hrej
      rw [align_block2_none_of_rejected pt src drop t hcrop (Or.inl hrej)] at hr
      exact Option.noConfusion hr
    · intro hnr
      have hnone : t.transform = JXFORM_NONE := (hext.mp hnr).1
      have hT : t.transform ≠ JXFORM_DROP := by rw [hnone]; decide
      rw [align_block2_cover_char pt src drop t hT hcrop, if_neg hperf, if_neg hnr, if_neg hh]
      exact ⟨_, rfl⟩
  · intro hperf hhs hhH hH1 hhR hw
    have hext := height_rejected2_extension
      (default_width2 (default_offsets2 (set_units2 src t)))
      (by show (set_units2 src t).crop_height_set ≠ _; rw [u6]; exact hhs)
      (by show (set_units2 src t).output_height < (set_units2 src t).crop_height
          rw [u5]; exact hhH)
      hH1
      (by show (set_units2 src t).crop_height < _; rw [u5]; exact hhR)
    have e1 : (default_width2 (default_offsets2 (set_units2 src t))).transform = t.transform :=
      u1
    have e2 : (default_width2 (default_offsets2 (set_units2 src t))).crop_height =
        t.crop_height := u5
    have e3 : (default_width2 (default_offsets2 (set_units2 src t))).output_height =
        (set_units2 src t).output_height := rfl
    have e4 : (default_width2 (default_offsets2 (set_units2 src t))).crop_yoffset =
        (if t.crop_yoffset_set = JCROP_UNSET then 0 else t.crop_yoffset) := by
      show (if (set_units2 src t).crop_yoffset_set = JCROP_UNSET then 0
        else (set_units2 src t).crop_yoffset) = _
      rw [u9, u10]
    rw [e1, e2, e3, e4] at hext
    rw [← hext]
    constructor
    · rintro ⟨r, hr⟩ hrej
      rw [align_block2_none_of_rejected pt src drop t hcrop (Or.inr hrej)] at hr
      exact Option.noConfusion hr
    · intro hnr
      have hnone : t.transform = JXFORM_NONE := (hext.mp hnr).1
      have hT : t.transform ≠ JXFORM_DROP := by rw [hnone]; decide
      rw [align_block2_cover_char pt src drop t hT hcrop, if_neg hperf, if_neg hw, if_neg hnr]
      exact ⟨_, rfl⟩
  · intro decoder number fuel t0 calls hT0 hnum hW hH hbig
    have hreg : do_drop1_region pt src drop decoder number t0 = none := by
      apply do_drop1_region_of_none
      intro tb h1
      obtain ⟨htb, -⟩ := align_block1_src_some pt src drop decoder number t0 tb hT0 hW hH h1
      have hTb : tb.transform = JXFORM_DROP := by rw [htb]; exact hT0
      apply hdrop (dest_request tb decoder number) rfl hTb
      have hp : JCROP_POS ≠ JCROP_UNSET := by decide
      rcases hbig with h | h
      · exact Or.inl ⟨hp, h⟩
      · exact Or.inr ⟨hp, h⟩
    exact ⟨hreg, by simp only [do_drop1_loop, if_pos hnum, hreg]⟩

/-- C8 at concrete inputs: on a 128x128 4:2:0 image the request of width 200
at offset 10 is accepted without a transform (10 <= 200 - 128), and the same
request as a drop is rejected. -/
theorem C8_crop_extension_only_without_transform_witness :
    (∃ r, align_block2 always_perfect (image_420 128 128) (image_420 128 128)
      { crop_request loop_entry 10 0 200 64 with transform := JXFORM_NONE } = some r) ∧
    align_block2 always_perfect (image_420 128 128) (image_420 128 128)
      (crop_request loop_entry 10 0 200 64) = none :=
  ⟨((C8_crop_extension_only_without_transform always_perfect (image_420 128 128)
      (image_420 128 128)
      { crop_request loop_entry 10 0 200 64 with transform := JXFORM_NONE } rfl).1
      (by decide) (by decide) (by decide) (by decide) (by decide) (by decide)).mpr
      ⟨rfl, by decide⟩,
    (C8_crop_extension_only_without_transform always_perfect (image_420 128 128)
      (image_420 128 128) (crop_request loop_entry 10 0 200 64) rfl).2.2.1 rfl
      (Or.inl ⟨by decide, by decide⟩)⟩

/-! ## C9: the first (source) alignment -/

/-- C9, refuted as stated: for the region `10 10 10 10 64 64` (both offset
pairs equal, size 64x64) on a 128x128 image with iMCU 16x16, the first
alignment runs under `JXFORM_DROP`, not `JXFORM_NONE`, on a 32x32 rectangle,
not the region's 64x64, and the source offset handed to `do_drop` is
(1, 1), not (floor (10 / 16), floor (10 / 16)) = (0, 0). -/
theorem C9_source_alignment_counterexample :
    (src_request loop_entry [10, 10, 10, 10, 64, 64] 0).transform = JXFORM_DROP ∧
    (src_request loop_entry [10, 10, 10, 10, 64, 64] 0).crop_width = 32 ∧
    (src_request loop_entry [10, 10, 10, 10, 64, 64] 0).crop_height = 32 ∧
    (do_drop1_region always_perfect (image_420 128 128) (image_420 128 128)
        [10, 10, 10, 10, 64, 64] 0 loop_entry).map (fun out => (out.2.crop1, out.2.crop2)) =
      some (1, 1) ∧
    ¬ (do_drop1_region always_perfect (image_420 128 128) (image_420 128 128)
        [10, 10, 10, 10, 64, 64] 0 loop_entry).map (fun out => (out.2.crop1, out.2.crop2)) =
      some (10 / 16, 10 / 16) := by
  decide

/-- C9, amended: for every region that reaches the `do_drop` call, the first
alignment aligns the rectangle `(sx, sy, 32, 32)`, of the fixed size 32x32,
under `JXFORM_DROP`, where `(sx, sy)` is the source offset pair the code
reads; the window lies inside the image, and the source iMCU offset handed to
`do_drop` is the ceiling `(ceil (sx / ux), ceil (sy / uy))`: `crop1 * ux` is
the least multiple of `ux` that is `>= sx`, and likewise for `crop2`. -/
theorem C9_source_alignment_amended (pt : perfect_transform_fn)
    (src drop : jpeg_decompress_struct) (decoder : List Nat) (number : Nat)
    (t td : jpeg_transform_info) (call : do_drop_args)
    (hT : t.transform = JXFORM_DROP)
    (hux : 1 ≤ iMCU_width src t.num_components)
    (huy : 1 ≤ iMCU_height src t.num_components)
    (hW : src.output_width + iMCU_width src t.num_components ≤ UINT_RANGE)
    (hH : src.output_height + iMCU_height src t.num_components ≤ UINT_RANGE)
    (hreg : do_drop1_region pt src drop decoder number t = some (td, call)) :
    src_request t decoder number =
      crop_request t (decoder.getD (number + 2) 0) (decoder.getD (number + 3) 0) 32 32 ∧
    (src_request t decoder number).transform = JXFORM_DROP ∧
    decoder.getD (number + 2) 0 + 32 ≤ src.output_width ∧
    decoder.getD (number + 3) 0 + 32 ≤ src.output_height ∧
    (call.crop1 * iMCU_width src t.num_components =
        decoder.getD (number + 2) 0 +
          snap_delta (iMCU_width src t.num_components) (decoder.getD (number + 2) 0) ∧
      decoder.getD (number + 2) 0 ≤ call.crop1 * iMCU_width src t.num_components ∧
      call.crop1 * iMCU_width src t.num_components <
        decoder.getD (number + 2) 0 + iMCU_width src t.num_components) ∧
    (call.crop2 * iMCU_height src t.num_components =
        decoder.getD (number + 3) 0 +
          snap_delta (iMCU_height src t.num_components) (decoder.getD (number + 3) 0) ∧
      decoder.getD (number + 3) 0 ≤ call.crop2 * iMCU_height src t.num_components ∧
      call.crop2 * iMCU_height src t.num_components <
        decoder.getD (number + 3) 0 + iMCU_height src t.num_components) := by
  obtain ⟨tb, h1, -, hcall⟩ := do_drop1_region_some pt src drop decoder number t td call hreg
  obtain ⟨htb, hxw, hyh⟩ :=
    align_block1_src_some pt src drop decoder number t tb hT (by omega) (by omega) h1
  have e1 : call.crop1 = jd_add (decoder.getD (number + 2) 0)
      (drop_dtemp (iMCU_width src t.num_components) (decoder.getD (number + 2) 0)) /
        iMCU_width src t.num_components := by
    rw [hcall, htb]; rfl
  have e2 : call.crop2 = jd_add (decoder.getD (number + 3) 0)
      (drop_dtemp (iMCU_height src t.num_components) (decoder.getD (number + 3) 0)) /
        iMCU_height src t.num_components := by
    rw [hcall, htb]; rfl
  have s1 := snapped_offset_exact (x := decoder.getD (number + 2) 0) hux (by omega)
  have s2 := snapped_offset_exact (x := decoder.getD (number + 3) 0) huy (by omega)
  have l1 := snap_delta_lt (decoder.getD (number + 2) 0) hux
  have l2 := snap_delta_lt (decoder.getD (number + 3) 0) huy
  rw [← e1] at s1
  rw [← e2] at s2
  refine ⟨rfl, hT, hxw, hyh, ⟨s1, ?_, ?_⟩, ⟨s2, ?_, ?_⟩⟩ <;> omega

/-- C9 (amended) at a concrete input: for the region `10 10 10 10 64 64` on
a 128x128 image with iMCU 16x16 the source offset handed to `do_drop` is
`crop1 = 1`, with `1 * 16 = 10 + 6`. -/
theorem C9_source_alignment_amended_witness :
    do_drop1_region always_perfect (image_420 128 128) (image_420 128 128)
        [10, 10, 10, 10, 64, 64] 0 loop_entry =
      some (drop_aligned (image_420 128 128)
          (dest_request (drop_aligned (image_420 128 128)
            (src_request loop_entry [10, 10, 10, 10, 64, 64] 0)) [10, 10, 10, 10, 64, 64] 0),
        { x_crop_offset := 1, y_crop_offset := 1, drop_width := 3, drop_height := 3,
          crop1 := 1, crop2 := 1 }) ∧
    1 * 16 = 10 + snap_delta 16 10 ∧ 10 ≤ 1 * 16 ∧ 1 * 16 < 10 + 16 :=
  ⟨by decide,
    (C9_source_alignment_amended always_perfect (image_420 128 128) (image_420 128 128)
      [10, 10, 10, 10, 64, 64] 0 loop_entry
      (drop_aligned (image_420 128 128)
        (dest_request (drop_aligned (image_420 128 128)
          (src_request loop_entry [10, 10, 10, 10, 64, 64] 0)) [10, 10, 10, 10, 64, 64] 0))
      { x_crop_offset := 1, y_crop_offset := 1, drop_width := 3, drop_height := 3,
        crop1 := 1, crop2 := 1 }
      (by decide) (by decide) (by decide) (by decide) (by decide) (by decide)).2.2.2.2.1⟩

/-! ## C10: the order of the six integers of a tuple -/

/-- C10, evaluated at the batch `"0 0 16 16 32 32"` on a 128x128 image with
iMCU 16x16: the `do_drop` call receives destination offset (0, 0) with drop
size 2x2 and source offset (1, 1).  The destination is the drop alignment of
the 1st and 2nd integers with the 5th and 6th, `(0, 0, 32, 32)`, and the
source offset is the alignment of the 3rd and 4th integers, `(16, 16)`;
aligning the destination from the 3rd and 4th integers would give offset
(1, 1), and the source from the 1st and 2nd would give (0, 0). -/
theorem C10_field_order_evaluation :
    (do_drop1_region always_perfect (image_420 128 128) (image_420 128 128)
        [0, 0, 16, 16, 32, 32] 0 loop_entry).map Prod.snd =
      some { x_crop_offset := 0, y_crop_offset := 0, drop_width := 2, drop_height := 2,
             crop1 := 1, crop2 := 1 } ∧
    dest_request loop_entry [0, 0, 16, 16, 32, 32] 0 = crop_request loop_entry 0 0 32 32 ∧
    src_request loop_entry [0, 0, 16, 16, 32, 32] 0 = crop_request loop_entry 16 16 32 32 ∧
    (align_block2 always_perfect (image_420 128 128) (image_420 128 128)
        (crop_request loop_entry 16 16 32 32)).map
      (fun r => (r.x_crop_offset, r.y_crop_offset, r.drop_width, r.drop_height)) =
      some (1, 1, 2, 2) ∧
    (align_block1 always_perfect (image_420 128 128) (image_420 128 128)
        (crop_request loop_entry 0 0 32 32)).map
      (fun r => (r.x_crop_offset, r.y_crop_offset)) = some (0, 0) := by
  decide

/-! ## The result of the second alignment block in general -/

/-- The case `JXFORM_DROP` of the switch leaves the units, the output size
and the request untouched. -/
theorem snap_drop2_fields (src drop : jpeg_decompress_struct) (t5 r : jpeg_transform_info)
    (x y : Nat) (h : snap_drop2 src drop t5 x y = some r) :
    r.iMCU_sample_width = t5.iMCU_sample_width ∧
    r.iMCU_sample_height = t5.iMCU_sample_height ∧
    r.output_width = t5.output_width ∧ r.output_height = t5.output_height ∧
    r.transform = t5.transform ∧ r.num_components = t5.num_components := by
  simp only [snap_drop2] at h
  split_ifs at h <;>
    (rw [← Option.some.inj h]
     exact ⟨rfl, rfl, rfl, rfl, rfl, rfl⟩)

/-- The three ways in which the second alignment block returns a result. -/
theorem align_block2_some_cases (pt : perfect_transform_fn)
    (src drop : jpeg_decompress_struct) (t r : jpeg_transform_info)
    (hacc : align_block2 pt src drop t = some r) :
    (t.crop = false ∧
      r = { set_units2 src t with x_crop_offset := 0, y_crop_offset := 0 }) ∨
    (t.crop = true ∧ t.transform = JXFORM_DROP ∧
      snap_drop2 src drop (validated2 src t) (regular_xoffset2 (validated2 src t))
        (regular_yoffset2 (validated2 src t)) = some r) ∨
    (t.crop = true ∧ t.transform ≠ JXFORM_DROP ∧
      r = snap_cover2 (validated2 src t) (regular_xoffset2 (validated2 src t))
        (regular_yoffset2 (validated2 src t))) := by
  have hcf : (set_units2 src t).crop = t.crop := (set_units2_fields src t).2.1
  have ht : (default_height2 (default_width2 (default_offsets2 (set_units2 src t)))).transform =
      t.transform := (validated2_fields src t).1
  cases hc : t.crop with
  | false =>
    left
    refine ⟨rfl, ?_⟩
    unfold align_block2 at hacc
    by_cases h1 : perfect_rejects2 pt src t
    · rw [if_pos h1] at hacc
      exact Option.noConfusion hacc
    · rw [if_neg h1] at hacc
      have hcond : (set_units2 src t).crop = false := by rw [hcf, hc]
      simp only [hcond, if_true] at hacc
      rw [← Option.some.inj hacc]
      simp only [hcond]
  | true =>
    right
    by_cases hT : t.transform = JXFORM_DROP
    · left
      refine ⟨rfl, hT, ?_⟩
      unfold align_block2 at hacc
      by_cases h1 : perfect_rejects2 pt src t
      · rw [if_pos h1] at hacc
        exact Option.noConfusion hacc
      · rw [if_neg h1] at hacc
        simp only [hcf, hc, Bool.true_eq_false, if_false] at hacc
        by_cases h2 : width_rejected2 (default_offsets2 (set_units2 src t))
        · rw [if_pos h2] at hacc
          exact Option.noConfusion hacc
        · rw [if_neg h2] at hacc
          by_cases h3 : height_rejected2 (default_width2 (default_offsets2 (set_units2 src t)))
          · rw [if_pos h3] at hacc
            exact Option.noConfusion hacc
          · rw [if_neg h3, ht, hT] at hacc
            exact hacc
    · right
      refine ⟨rfl, hT, ?_⟩
      rw [align_block2_cover_char pt src drop t hT hc] at hacc
      split_ifs at hacc
      exact (Option.some.inj hacc).symm

/-- The units stored by lines 1045-1075 are those of the result. -/
theorem align_block2_units (pt : perfect_transform_fn)
    (src drop : jpeg_decompress_struct) (t r : jpeg_transform_info)
    (hacc : align_block2 pt src drop t = some r) :
    r.iMCU_sample_width = (set_units2 src t).iMCU_sample_width ∧
    r.iMCU_sample_height = (set_units2 src t).iMCU_sample_height := by
  rcases align_block2_some_cases pt src drop t r hacc with ⟨-, hr⟩ | ⟨-, -, hr⟩ | ⟨-, -, hr⟩
  · rw [hr]
    exact ⟨rfl, rfl⟩
  · obtain ⟨h1, h2, -⟩ := snap_drop2_fields src drop _ r _ _ hr
    exact ⟨h1, h2⟩
  · rw [hr]
    exact ⟨rfl, rfl⟩

/-! ## C17: the iMCU sample unit -/

/-- C17: whenever the second alignment block returns a result, the stored
iMCU unit is `(min_DCT_h_scaled_size, min_DCT_v_scaled_size)` when
`num_components = 1` and `(max_h_samp_factor * min_DCT_h_scaled_size,
max_v_samp_factor * min_DCT_v_scaled_size)` otherwise, with the two axes
swapped exactly for `JXFORM_TRANSPOSE`, `JXFORM_TRANSVERSE`, `JXFORM_ROT_90`
and `JXFORM_ROT_270`; the output width and height stored by lines 1045-1075
are those of the image, swapped for the same four kinds and for no other. -/
theorem C17_iMCU_unit_selection (pt : perfect_transform_fn)
    (src drop : jpeg_decompress_struct) (t r : jpeg_transform_info)
    (hacc : align_block2 pt src drop t = some r) :
    ((t.transform = JXFORM_TRANSPOSE ∨ t.transform = JXFORM_TRANSVERSE ∨
        t.transform = JXFORM_ROT_90 ∨ t.transform = JXFORM_ROT_270) →
      r.iMCU_sample_width =
        (if t.num_components = 1 then src.min_DCT_v_scaled_size
          else src.max_v_samp_factor * src.min_DCT_v_scaled_size) ∧
      r.iMCU_sample_height =
        (if t.num_components = 1 then src.min_DCT_h_scaled_size
          else src.max_h_samp_factor * src.min_DCT_h_scaled_size) ∧
      (set_units2 src t).output_width = src.output_height ∧
      (set_units2 src t).output_height = src.output_width) ∧
    ((t.transform = JXFORM_NONE ∨ t.transform = JXFORM_FLIP_H ∨
        t.transform = JXFORM_FLIP_V ∨ t.transform = JXFORM_ROT_180 ∨
        t.transform = JXFORM_WIPE ∨ t.transform = JXFORM_DROP) →
      r.iMCU_sample_width =
        (if t.num_components = 1 then src.min_DCT_h_scaled_size
          else src.max_h_samp_factor * src.min_DCT_h_scaled_size) ∧
      r.iMCU_sample_height =
        (if t.num_components = 1 then src.min_DCT_v_scaled_size
          else src.max_v_samp_factor * src.min_DCT_v_scaled_size) ∧
      (set_units2 src t).output_width = src.output_width ∧
      (set_units2 src t).output_height = src.output_height) := by
  obtain ⟨hw, hh⟩ := align_block2_units pt src drop t r hacc
  rw [hw, hh]
  constructor
  · intro hk
    unfold set_units2
    rcases hk with hk | hk | hk | hk <;> rw [hk] <;> exact ⟨rfl, rfl, rfl, rfl⟩
  · intro hk
    unfold set_units2
    rcases hk with hk | hk | hk | hk | hk | hk <;> rw [hk] <;> exact ⟨rfl, rfl, rfl, rfl⟩

/-- C17 at concrete inputs: for a 128x64 4:2:0 image with 8x8 DCT blocks a
request under `JXFORM_ROT_90` gets the unit 16x16 and the swapped output size
64x128, and the same request under `JXFORM_NONE` gets the size 128x64; with
one component the unit is 8x8. -/
theorem C17_iMCU_unit_selection_witness :
    (set_units2 (image_420 128 64)
      { crop_request loop_entry 0 0 32 32 with transform := JXFORM_ROT_90 }).output_width =
        64 ∧
    (set_units2 (image_420 128 64)
      { crop_request loop_entry 0 0 32 32 with transform := JXFORM_ROT_90 }).output_height =
        128 ∧
    (set_units2 (image_420 128 64)
      { crop_request loop_entry 0 0 32 32 with transform := JXFORM_NONE }).output_width =
        128 ∧
    ∃ r, align_block2 always_perfect (image_420 128 64) (image_420 128 64)
        { crop_request (do_drop1_setup (blank_options 1) 0 0) 0 0 32 32 with
          transform := JXFORM_NONE } = some r ∧
      r.iMCU_sample_width = 8 ∧ r.iMCU_sample_height = 8 :=
  ⟨((C17_iMCU_unit_selection always_perfect (image_420 128 64) (image_420 128 64)
      { crop_request loop_entry 0 0 32 32 with transform := JXFORM_ROT_90 } _ rfl).1
      (Or.inr (Or.inr (Or.inl rfl)))).2.2.1,
    ((C17_iMCU_unit_selection always_perfect (image_420 128 64) (image_420 128 64)
      { crop_request loop_entry 0 0 32 32 with transform := JXFORM_ROT_90 } _ rfl).1
      (Or.inr (Or.inr (Or.inl rfl)))).2.2.2,
    ((C17_iMCU_unit_selection always_perfect (image_420 128 64) (image_420 128 64)
      { crop_request loop_entry 0 0 32 32 with transform := JXFORM_NONE } _ rfl).2
      (Or.inl rfl)).2.2.1,
    _, rfl,
    ((C17_iMCU_unit_selection always_perfect (image_420 128 64) (image_420 128 64)
      { crop_request (do_drop1_setup (blank_options 1) 0 0) 0 0 32 32 with
        transform := JXFORM_NONE } _ rfl).2 (Or.inl rfl)).1,
    ((C17_iMCU_unit_selection always_perfect (image_420 128 64) (image_420 128 64)
      { crop_request (do_drop1_setup (blank_options 1) 0 0) 0 0 32 32 with
        transform := JXFORM_NONE } _ rfl).2 (Or.inl rfl)).2.1⟩

/-! ## C18: alignment of a request that is not a drop -/

/-- A request that passes the width check without crop extension lies inside
the image. -/
theorem width_accepted_bound (t3 : jpeg_transform_info) (hW : t3.output_width < UINT_RANGE)
    (hne : t3.crop_width_set ≠ JCROP_UNSET → t3.crop_width ≤ t3.output_width)
    (h : ¬ width_rejected2 t3) :
    t3.crop_xoffset + (default_width2 t3).crop_width ≤ t3.output_width := by
  unfold width_rejected2 at h
  show t3.crop_xoffset + (if t3.crop_width_set = JCROP_UNSET then
    jd_sub t3.output_width t3.crop_xoffset else t3.crop_width) ≤ _
  by_cases hs : t3.crop_width_set = JCROP_UNSET
  · rw [if_pos hs] at h
    rw [if_pos hs, jd_sub_of_le (by omega) hW]
    omega
  · have hle := hne hs
    rw [if_neg hs, if_neg (by omega), jd_sub_of_le hle hW] at h
    rw [if_neg hs]
    omega

/-- A request that passes the height check without crop extension lies
inside the image. -/
theorem height_accepted_bound (t4 : jpeg_transform_info)
    (hH : t4.output_height < UINT_RANGE)
    (hne : t4.crop_height_set ≠ JCROP_UNSET → t4.crop_height ≤ t4.output_height)
    (h : ¬ height_rejected2 t4) :
    t4.crop_yoffset + (default_height2 t4).crop_height ≤ t4.output_height := by
  unfold height_rejected2 at h
  show t4.crop_yoffset + (if t4.crop_height_set = JCROP_UNSET then
    jd_sub t4.output_height t4.crop_yoffset else t4.crop_height) ≤ _
  by_cases hs : t4.crop_height_set = JCROP_UNSET
  · rw [if_pos hs] at h
    rw [if_pos hs, jd_sub_of_le (by omega) hH]
    omega
  · have hle := hne hs
    rw [if_neg hs, if_neg (by omega), jd_sub_of_le hle hH] at h
    rw [if_neg hs]
    omega

/-- The regular offset of a request inside the image keeps it inside. -/
theorem regular_xoffset2_bound (t5 : jpeg_transform_info) (hW : t5.output_width < UINT_RANGE)
    (hb : t5.crop_xoffset + t5.crop_width ≤ t5.output_width) :
    regular_xoffset2 t5 + t5.crop_width ≤ t5.output_width ∧
    (t5.crop_xoffset_set ≠ JCROP_NEG → regular_xoffset2 t5 = t5.crop_xoffset) := by
  unfold regular_xoffset2
  by_cases hs : t5.crop_xoffset_set ≠ JCROP_NEG
  · rw [if_pos hs]
    exact ⟨hb, fun _ => rfl⟩
  · rw [if_neg hs, if_neg (by omega)]
    have e : jd_sub (jd_sub t5.output_width t5.crop_width) t5.crop_xoffset =
        t5.output_width - t5.crop_width - t5.crop_xoffset := by
      unfold jd_sub UINT_RANGE at *
      omega
    rw [e]
    exact ⟨by omega, fun h => absurd h hs⟩

/-- The regular offset of a request inside the image keeps it inside. -/
theorem regular_yoffset2_bound (t5 : jpeg_transform_info)
    (hH : t5.output_height < UINT_RANGE)
    (hb : t5.crop_yoffset + t5.crop_height ≤ t5.output_height) :
    regular_yoffset2 t5 + t5.crop_height ≤ t5.output_height ∧
    (t5.crop_yoffset_set ≠ JCROP_NEG → regular_yoffset2 t5 = t5.crop_yoffset) := by
  unfold regular_yoffset2
  by_cases hs : t5.crop_yoffset_set ≠ JCROP_NEG
  · rw [if_pos hs]
    exact ⟨hb, fun _ => rfl⟩
  · rw [if_neg hs, if_neg (by omega)]
    have e : jd_sub (jd_sub t5.output_height t5.crop_height) t5.crop_yoffset =
        t5.output_height - t5.crop_height - t5.crop_yoffset := by
      unfold jd_sub UINT_RANGE at *
      omega
    rw [e]
    exact ⟨by omega, fun h => absurd h hs⟩

/-- The covering arithmetic of one axis: the snapped start is at or before
the offset and the covered length ends where the request ends. -/
theorem cover_axis {x w u W : Nat} (hb : x + w ≤ W) (hW : W < UINT_RANGE) :
    jd_add w (x % u) = w + x % u ∧ x / u * u ≤ x ∧ x / u * u + (w + x % u) = x + w := by
  have hm : x % u ≤ x := Nat.mod_le x u
  have hd := Nat.div_add_mod' x u
  refine ⟨jd_add_of_lt (by omega), Nat.div_mul_le_self x u, by omega⟩

/-- C18: take a crop request accepted by the second alignment block under a
transform other than a drop, with no crop extension and with width and
height not forced.  Write `x` for the regular offset from the left edge,
`w` for the crop width and `u` for the iMCU sample width.  The result has
iMCU offset `floor (x / u)` and output width `w + (x mod u)`; the snapped
rectangle starts at or before `x` and ends exactly at `x + w`.  For an
offset given as a positive offset `x` is the requested offset, and for an
explicit width `w` is the requested width.  The same holds vertically. -/
theorem C18_cover_alignment (pt : perfect_transform_fn)
    (src drop : jpeg_decompress_struct) (t r : jpeg_transform_info)
    (hT : t.transform ≠ JXFORM_DROP) (hcrop : t.crop = true)
    (hfw : t.crop_width_set ≠ JCROP_FORCE) (hfh : t.crop_height_set ≠ JCROP_FORCE)
    (hew : t.crop_width_set ≠ JCROP_UNSET → t.crop_width ≤ (set_units2 src t).output_width)
    (heh : t.crop_height_set ≠ JCROP_UNSET →
      t.crop_height ≤ (set_units2 src t).output_height)
    (hW : (set_units2 src t).output_width < UINT_RANGE)
    (hH : (set_units2 src t).output_height < UINT_RANGE)
    (hacc : align_block2 pt src drop t = some r) :
    (r.x_crop_offset = regular_xoffset2 (validated2 src t) / r.iMCU_sample_width ∧
      r.output_width = (validated2 src t).crop_width +
        regular_xoffset2 (validated2 src t) % r.iMCU_sample_width ∧
      r.x_crop_offset * r.iMCU_sample_width ≤ regular_xoffset2 (validated2 src t) ∧
      r.x_crop_offset * r.iMCU_sample_width + r.output_width =
        regular_xoffset2 (validated2 src t) + (validated2 src t).crop_width ∧
      (t.crop_xoffset_set = JCROP_POS →
        regular_xoffset2 (validated2 src t) = t.crop_xoffset) ∧
      (t.crop_width_set ≠ JCROP_UNSET → (validated2 src t).crop_width = t.crop_width)) ∧
    (r.y_crop_offset = regular_yoffset2 (validated2 src t) / r.iMCU_sample_height ∧
      r.output_height = (validated2 src t).crop_height +
        regular_yoffset2 (validated2 src t) % r.iMCU_sample_height ∧
      r.y_crop_offset * r.iMCU_sample_height ≤ regular_yoffset2 (validated2 src t) ∧
      r.y_crop_offset * r.iMCU_sample_height + r.output_height =
        regular_yoffset2 (validated2 src t) + (validated2 src t).crop_height ∧
      (t.crop_yoffset_set = JCROP_POS →
        regular_yoffset2 (validated2 src t) = t.crop_yoffset) ∧
      (t.crop_height_set ≠ JCROP_UNSET → (validated2 src t).crop_height = t.crop_height)) := by
  obtain ⟨-, -, u3, u4, u5, u6, u7, u8, u9, u10, -⟩ := set_units2_fields src t
  obtain ⟨-, f2, f3, f4, f5, -, -, -, -, -, f11, f12⟩ := validated2_fields src t
  rw [align_block2_cover_char pt src drop t hT hcrop] at hacc
  split_ifs at hacc with h1 h2 h3
  have hr := (Option.some.inj hacc).symm
  have hbw : (validated2 src t).crop_xoffset + (validated2 src t).crop_width ≤
      (validated2 src t).output_width :=
    width_accepted_bound (default_offsets2 (set_units2 src t)) hW
      (fun hs => by
        show (set_units2 src t).crop_width ≤ _
        rw [u3]
        exact hew (by rw [← u4]; exact hs)) h2
  have hbh : (validated2 src t).crop_yoffset + (validated2 src t).crop_height ≤
      (validated2 src t).output_height :=
    height_accepted_bound (default_width2 (default_offsets2 (set_units2 src t))) hH
      (fun hs => by
        show (set_units2 src t).crop_height ≤ _
        rw [u5]
        exact heh (by rw [← u6]; exact hs)) h3
  obtain ⟨bx, ex⟩ := regular_xoffset2_bound (validated2 src t) hW hbw
  obtain ⟨by1, ey⟩ := regular_yoffset2_bound (validated2 src t) hH hbh
  obtain ⟨g1, g2, g3, g4⟩ := snap_cover2_fields (validated2 src t)
    (regular_xoffset2 (validated2 src t)) (regular_yoffset2 (validated2 src t))
  have hu : r.iMCU_sample_width = (validated2 src t).iMCU_sample_width := by rw [hr]; rfl
  have hv : r.iMCU_sample_height = (validated2 src t).iMCU_sample_height := by rw [hr]; rfl
  obtain ⟨a1, a2, a3⟩ := cover_axis (u := (validated2 src t).iMCU_sample_width) bx hW
  obtain ⟨b1, b2, b3⟩ := cover_axis (u := (validated2 src t).iMCU_sample_height) by1 hH
  have hxo : r.x_crop_offset =
      regular_xoffset2 (validated2 src t) / (validated2 src t).iMCU_sample_width := by
    rw [hr]; exact g1
  have hyo : r.y_crop_offset =
      regular_yoffset2 (validated2 src t) / (validated2 src t).iMCU_sample_height := by
    rw [hr]; exact g2
  have how : r.output_width = (validated2 src t).crop_width +
      regular_xoffset2 (validated2 src t) % (validated2 src t).iMCU_sample_width := by
    rw [hr, g3, f2, if_neg, a1]
    rintro (h | h)
    · exact hfw h
    · omega
  have hoh : r.output_height = (validated2 src t).crop_height +
      regular_yoffset2 (validated2 src t) % (validated2 src t).iMCU_sample_height := by
    rw [hr, g4, f3, if_neg, b1]
    rintro (h | h)
    · exact hfh h
    · omega
  have hcw : t.crop_width_set ≠ JCROP_UNSET → (validated2 src t).crop_width = t.crop_width := by
    intro hs
    show (if (set_units2 src t).crop_width_set = JCROP_UNSET then _
      else (set_units2 src t).crop_width) = _
    rw [u4, if_neg hs, u3]
  have hch : t.crop_height_set ≠ JCROP_UNSET →
      (validated2 src t).crop_height = t.crop_height := by
    intro hs
    show (if (set_units2 src t).crop_height_set = JCROP_UNSET then _
      else (set_units2 src t).crop_height) = _
    rw [u6, if_neg hs, u5]
  have hpos : JCROP_POS ≠ JCROP_NEG := by decide
  have hpu : JCROP_POS ≠ JCROP_UNSET := by decide
  refine ⟨⟨?_, ?_, ?_, ?_, ?_, hcw⟩, ⟨?_, ?_, ?_, ?_, ?_, hch⟩⟩
  · rw [hu]; exact hxo
  · rw [hu]; exact how
  · rw [hu, hxo]; exact a2
  · rw [hu, hxo, how]; exact a3
  · intro hs
    rw [ex (by rw [f4, hs]; exact hpos), f11, if_neg (by rw [hs]; exact hpu)]
  · rw [hv]; exact hyo
  · rw [hv]; exact hoh
  · rw [hv, hyo]; exact b2
  · rw [hv, hyo, hoh]; exact b3
  · intro hs
    rw [ey (by rw [f5, hs]; exact hpos), f12, if_neg (by rw [hs]; exact hpu)]

/-- C18 at a concrete input: on a 128x128 4:2:0 image the request
40x40+20+20 without a transform gets iMCU offset (1, 1) and output size
44x44: the snapped rectangle starts at 16 and ends at 60 = 20 + 40. -/
theorem C18_cover_alignment_witness :
    ∃ r, align_block2 always_perfect (image_420 128 128) (image_420 128 128)
        { crop_request loop_entry 20 20 40 40 with transform := JXFORM_NONE } = some r ∧
      r.x_crop_offset = 20 / 16 ∧ r.output_width = 40 + 20 % 16 ∧
      r.x_crop_offset * 16 ≤ 20 ∧ r.x_crop_offset * 16 + r.output_width = 20 + 40 :=
  ⟨_, rfl,
    (C18_cover_alignment always_perfect (image_420 128 128) (image_420 128 128)
      { crop_request loop_entry 20 20 40 40 with transform := JXFORM_NONE } _
      (by decide) rfl (by decide) (by decide) (by decide) (by decide) (by decide)
      (by decide) rfl).1.1,
    (C18_cover_alignment always_perfect (image_420 128 128) (image_420 128 128)
      { crop_request loop_entry 20 20 40 40 with transform := JXFORM_NONE } _
      (by decide) rfl (by decide) (by decide) (by decide) (by decide) (by decide)
      (by decide) rfl).1.2.1,
    (C18_cover_alignment always_perfect (image_420 128 128) (image_420 128 128)
      { crop_request loop_entry 20 20 40 40 with transform := JXFORM_NONE } _
      (by decide) rfl (by decide) (by decide) (by decide) (by decide) (by decide)
      (by decide) rfl).1.2.2.1,
    (C18_cover_alignment always_perfect (image_420 128 128) (image_420 128 128)
      { crop_request loop_entry 20 20 40 40 with transform := JXFORM_NONE } _
      (by decide) rfl (by decide) (by decide) (by decide) (by decide) (by decide)
      (by decide) rfl).1.2.2.2.1⟩

/-! ## C19: the effective drop region does not exceed the requested one -/

/-- One axis of C19 over the natural numbers. -/
theorem drop_axis_within {u x w W xI wI : Nat} (hu : 1 ≤ u) (hw : 0 < w)
    (hxI : xI * u = x + snap_delta u x)
    (hwI : wI = if w ≤ snap_delta u x then 0
      else if x + w = W then (w - snap_delta u x + u - 1) / u
      else (w - snap_delta u x) / u) :
    (x + w ≠ W → x ≤ xI * u ∧ (0 < wI → (xI + wI) * u ≤ x + w)) ∧
    (x + w = W → x ≤ xI * u ∧ W ≤ (xI + wI) * u ∧ (xI + wI) * u < W + u) := by
  have hd := snap_delta_lt x hu
  rw [Nat.add_mul]
  constructor
  · intro hne
    refine ⟨by omega, fun hpos => ?_⟩
    by_cases h1 : w ≤ snap_delta u x
    · rw [if_pos h1] at hwI
      omega
    · rw [if_neg h1, if_neg hne] at hwI
      have := Nat.div_mul_le_self (w - snap_delta u x) u
      rw [← hwI] at this
      omega
  · intro he
    refine ⟨by omega, ?_⟩
    by_cases h1 : w ≤ snap_delta u x
    · rw [if_pos h1] at hwI
      rw [hwI, Nat.zero_mul]
      omega
    · rw [if_neg h1, if_pos he] at hwI
      obtain ⟨c1, c2⟩ := ceil_div_bounds (a := w - snap_delta u x) hu
      rw [← hwI] at c1 c2
      omega

/-- C19: for a drop request accepted by the second alignment block, with
offset `x`, width `w`, image width `W`, unit `u`, iMCU offset `xI` and drop
width `wI`: `xI * u >= x` always; if the request does not reach the far edge
(`x + w /= W`) and `wI > 0` then `(xI + wI) * u <= x + w`; if it reaches the
far edge (`x + w = W`) then `xI + wI` is the ceiling of `W / u`, that is
`W <= (xI + wI) * u < W + u`.  The same holds vertically. -/
theorem C19_drop_region_within_request (pt : perfect_transform_fn)
    (src drop : jpeg_decompress_struct) (t r : jpeg_transform_info)
    (hreq : drop_request t)
    (hux : 1 ≤ iMCU_width src t.num_components)
    (huy : 1 ≤ iMCU_height src t.num_components)
    (hW : src.output_width + iMCU_width src t.num_components ≤ UINT_RANGE)
    (hH : src.output_height + iMCU_height src t.num_components ≤ UINT_RANGE)
    (hacc : align_block2 pt src drop t = some r) :
    ((t.crop_xoffset + t.crop_width ≠ src.output_width →
        t.crop_xoffset ≤ r.x_crop_offset * r.iMCU_sample_width ∧
        (0 < r.drop_width →
          (r.x_crop_offset + r.drop_width) * r.iMCU_sample_width ≤
            t.crop_xoffset + t.crop_width)) ∧
      (t.crop_xoffset + t.crop_width = src.output_width →
        t.crop_xoffset ≤ r.x_crop_offset * r.iMCU_sample_width ∧
        src.output_width ≤ (r.x_crop_offset + r.drop_width) * r.iMCU_sample_width ∧
        (r.x_crop_offset + r.drop_width) * r.iMCU_sample_width <
          src.output_width + r.iMCU_sample_width)) ∧
    ((t.crop_yoffset + t.crop_height ≠ src.output_height →
        t.crop_yoffset ≤ r.y_crop_offset * r.iMCU_sample_height ∧
        (0 < r.drop_height →
          (r.y_crop_offset + r.drop_height) * r.iMCU_sample_height ≤
            t.crop_yoffset + t.crop_height)) ∧
      (t.crop_yoffset + t.crop_height = src.output_height →
        t.crop_yoffset ≤ r.y_crop_offset * r.iMCU_sample_height ∧
        src.output_height ≤ (r.y_crop_offset + r.drop_height) * r.iMCU_sample_height ∧
        (r.y_crop_offset + r.drop_height) * r.iMCU_sample_height <
          src.output_height + r.iMCU_sample_height)) := by
  obtain ⟨hr, -, hw, hxw, hh, hyh⟩ :=
    align_block2_drop_some pt src drop t r hreq (by omega) (by omega) hacc
  subst hr
  exact ⟨drop_axis_within hux hw (snapped_offset_exact hux (by omega))
      (drop_size_eq hux hxw hW),
    drop_axis_within huy hh (snapped_offset_exact huy (by omega))
      (drop_size_eq huy hyh hH)⟩

/-- C19 at concrete inputs: on a 100x100 4:2:0 image (unit 16) the drop
request 50x50+10+10 gets iMCU offset 1 and drop width 2, the region
`[16, 48)` inside `[10, 60)`; the edge-matching request 90x90+10+10 gets
`1 + 6 = 7` iMCUs, the ceiling of `100 / 16`. -/
theorem C19_drop_region_within_request_witness :
    (10 ≤ (drop_aligned (image_420 100 100)
        (crop_request loop_entry 10 10 50 50)).x_crop_offset * 16 ∧
      ((drop_aligned (image_420 100 100) (crop_request loop_entry 10 10 50 50)).x_crop_offset +
        (drop_aligned (image_420 100 100) (crop_request loop_entry 10 10 50 50)).drop_width) *
          16 ≤ 10 + 50) ∧
    (100 ≤
      ((drop_aligned (image_420 100 100) (crop_request loop_entry 10 10 90 90)).x_crop_offset +
        (drop_aligned (image_420 100 100) (crop_request loop_entry 10 10 90 90)).drop_width) *
          16 ∧
      ((drop_aligned (image_420 100 100) (crop_request loop_entry 10 10 90 90)).x_crop_offset +
        (drop_aligned (image_420 100 100) (crop_request loop_entry 10 10 90 90)).drop_width) *
          16 < 100 + 16) :=
  ⟨⟨((C19_drop_region_within_request always_perfect (image_420 100 100) (image_420 100 100)
        (crop_request loop_entry 10 10 50 50)
        (drop_aligned (image_420 100 100) (crop_request loop_entry 10 10 50 50))
        (by decide) (by decide) (by decide) (by decide) (by decide) (by decide)).1.1
        (by decide)).1,
      ((C19_drop_region_within_request always_perfect (image_420 100 100) (image_420 100 100)
        (crop_request loop_entry 10 10 50 50)
        (drop_aligned (image_420 100 100) (crop_request loop_entry 10 10 50 50))
        (by decide) (by decide) (by decide) (by decide) (by decide) (by decide)).1.1
        (by decide)).2 (by decide)⟩,
    ((C19_drop_region_within_request always_perfect (image_420 100 100) (image_420 100 100)
        (crop_request loop_entry 10 10 90 90)
        (drop_aligned (image_420 100 100) (crop_request loop_entry 10 10 90 90))
        (by decide) (by decide) (by decide) (by decide) (by decide) (by decide)).1.2
        (by decide)).2⟩

/-! ## C20: the two alignment blocks are the same function -/

/-- C20: the first and the second inline alignment block take the same
decision on every input, and when they return a result it is the same
`transformoption`: the same `output_width`, `output_height`, iMCU unit,
`drop_width`, `drop_height`, `x_crop_offset` and `y_crop_offset`. -/
theorem C20_alignment_blocks_agree (pt : perfect_transform_fn)
    (src drop : jpeg_decompress_struct) (t : jpeg_transform_info) :
    align_block1 pt src drop t = align_block2 pt src drop t ∧
    ((align_block1 pt src drop t).isSome = (align_block2 pt src drop t).isSome) ∧
    ∀ r1 r2, align_block1 pt src drop t = some r1 → align_block2 pt src drop t = some r2 →
      r1.output_width = r2.output_width ∧ r1.output_height = r2.output_height ∧
      r1.iMCU_sample_width = r2.iMCU_sample_width ∧
      r1.iMCU_sample_height = r2.iMCU_sample_height ∧
      r1.drop_width = r2.drop_width ∧ r1.drop_height = r2.drop_height ∧
      r1.x_crop_offset = r2.x_crop_offset ∧ r1.y_crop_offset = r2.y_crop_offset := by
  have h := align_block1_eq_align_block2 pt src drop t
  refine ⟨h, by rw [h], ?_⟩
  intro r1 r2 h1 h2
  rw [h, h2] at h1
  rw [← Option.some.inj h1]
  exact ⟨rfl, rfl, rfl, rfl, rfl, rfl, rfl, rfl⟩

/-! ## The batch parser -/

theorem digit_char_facts : ∀ d, d < 10 →
    isdigit (Char.ofNat (48 + d)) = true ∧ (Char.ofNat (48 + d)).toNat = 48 + d ∧
    isspace (Char.ofNat (48 + d)) = false ∧ Char.ofNat (48 + d) ≠ ' ' ∧
    Char.ofNat (48 + d) ≠ '-' ∧ Char.ofNat (48 + d) ≠ '+' := by
  decide

theorem atoi_digits_append (l1 l2 : List Char) (acc : Int)
    (h : ∀ c, c ∈ l1 → isdigit c = true) :
    atoi_digits acc (l1 ++ l2) = atoi_digits (atoi_digits acc l1) l2 := by
  induction l1 generalizing acc with
  | nil => rfl
  | cons c cs ih =>
    have hc := h c (List.mem_cons_self c cs)
    simp only [List.cons_append, atoi_digits, hc, if_true]
    exact ih _ (fun c' hc' => h c' (List.mem_cons_of_mem c hc'))

theorem atoi_digits_value (ds : List Nat) (acc : Int) (h : ∀ d, d ∈ ds → d < 10) :
    atoi_digits acc (ds.reverse.map (fun d => Char.ofNat (48 + d))) =
      acc * 10 ^ ds.length + (Nat.ofDigits 10 ds : Nat) := by
  induction ds generalizing acc with
  | nil => simp [atoi_digits]
  | cons d ds ih =>
    have hd := h d (List.mem_cons_self d ds)
    obtain ⟨f1, f2, -⟩ := digit_char_facts d hd
    rw [List.reverse_cons, List.map_append, atoi_digits_append]
    · rw [ih acc (fun d' hd' => h d' (List.mem_cons_of_mem d hd'))]
      simp only [List.map_cons, List.map_nil, atoi_digits, f1, if_true, f2, List.length_cons,
        Nat.ofDigits_cons]
      push_cast
      ring
    · intro c hc
      rw [List.mem_map] at hc
      obtain ⟨d', hd', rfl⟩ := hc
      exact (digit_char_facts d' (h d' (List.mem_cons_of_mem d (List.mem_reverse.mp hd')))).1

theorem atoi_digits_stop (acc : Int) (tail : List Char)
    (h : ∀ c, tail.head? = some c → isdigit c = false) : atoi_digits acc tail = acc := by
  cases tail with
  | nil => rfl
  | cons c cs =>
    have := h c rfl
    simp [atoi_digits, this]

theorem decimal_digits (n : Nat) :
    ∃ ds : List Nat, ds ≠ [] ∧ (∀ d, d ∈ ds → d < 10) ∧ Nat.ofDigits 10 ds = n ∧
      decimal n = ds.reverse.map (fun d => Char.ofNat (48 + d)) := by
  unfold decimal
  by_cases h0 : n = 0
  · subst h0
    exact ⟨[0], by simp, by simp, by simp, by simp⟩
  · rw [if_neg h0]
    refine ⟨Nat.digits 10 n, ?_, fun d hd => Nat.digits_lt_base (by norm_num) hd,
      Nat.ofDigits_digits 10 n, rfl⟩
    intro h
    exact h0 (Nat.digits_eq_nil_iff_eq_zero.mp h)

theorem atoi_digits_decimal (n : Nat) (tail : List Char)
    (h : ∀ c, tail.head? = some c → isdigit c = false) :
    atoi_digits 0 (decimal n ++ tail) = n := by
  obtain ⟨ds, -, hlt, hval, hdec⟩ := decimal_digits n
  rw [hdec, atoi_digits_append, atoi_digits_value ds 0 hlt, atoi_digits_stop _ _ h, hval]
  · simp
  · intro c hc
    rw [List.mem_map] at hc
    obtain ⟨d, hd, rfl⟩ := hc
    exact (digit_char_facts d (hlt d (List.mem_reverse.mp hd))).1

/-- The first character of a decimal numeral is a digit. -/
theorem decimal_cons (n : Nat) :
    ∃ d cs, d < 10 ∧ decimal n = Char.ofNat (48 + d) :: cs := by
  obtain ⟨ds, hne, hlt, -, hdec⟩ := decimal_digits n
  have hr : ds.reverse ≠ [] := by simpa using hne
  obtain ⟨d, r, hdr⟩ := List.exists_cons_of_ne_nil hr
  refine ⟨d, r.map (fun d => Char.ofNat (48 + d)), ?_, ?_⟩
  · apply hlt
    apply List.mem_reverse.mp
    rw [hdr]
    exact List.mem_cons_self d r
  · rw [hdec, hdr]
    rfl

theorem numeral_value_decimal_int (z : Int) (tail : List Char)
    (h : ∀ c, tail.head? = some c → isdigit c = false) :
    numeral_value (decimal_int z ++ tail) = z := by
  unfold decimal_int
  by_cases hz : z < 0
  · rw [if_pos hz]
    have e : (('-' :: decimal z.natAbs) ++ tail).dropWhile isspace =
        '-' :: (decimal z.natAbs ++ tail) := by
      rw [List.cons_append, List.dropWhile_cons_of_neg (by decide)]
    unfold numeral_value
    rw [e]
    simp only
    rw [atoi_digits_decimal _ _ h]
    omega
  · rw [if_neg hz]
    obtain ⟨d, cs, hd, hcs⟩ := decimal_cons z.natAbs
    obtain ⟨-, -, f3, -, f5, f6⟩ := digit_char_facts d hd
    have hv := atoi_digits_decimal z.natAbs tail h
    rw [hcs] at hv ⊢
    have e : ((Char.ofNat (48 + d) :: cs) ++ tail).dropWhile isspace =
        Char.ofNat (48 + d) :: (cs ++ tail) := by
      rw [List.cons_append, List.dropWhile_cons_of_neg (by rw [f3]; decide)]
    unfold numeral_value
    rw [e]
    split
    · rename_i heq
      exact absurd (List.cons.inj heq).1 f5
    · rename_i heq
      exact absurd (List.cons.inj heq).1 f6
    · rw [List.cons_append] at hv
      rw [hv]
      omega

theorem to_int_of_range (z : Int) (h : INT_MIN ≤ z ∧ z ≤ INT_MAX) : to_int z = z := by
  unfold to_int
  unfold INT_MIN INT_MAX at h
  omega

theorem to_int_range (z : Int) : INT_MIN ≤ to_int z ∧ to_int z ≤ INT_MAX := by
  unfold to_int INT_MIN INT_MAX
  omega

/-- An `atoi` result is an `int`. -/
theorem atoi_range (s : List Char) : INT_MIN ≤ atoi s ∧ atoi s ≤ INT_MAX :=
  to_int_range (strtol s)

theorem to_int_atoi (s : List Char) : to_int (atoi s) = atoi s :=
  to_int_of_range _ (atoi_range s)

/-- On a text that denotes a number in the range of `int`, `atoi` returns
the number. -/
theorem atoi_of_range (s : List Char)
    (h : INT_MIN ≤ numeral_value s ∧ numeral_value s ≤ INT_MAX) :
    atoi s = numeral_value s := by
  unfold INT_MIN INT_MAX at h
  unfold atoi strtol LONG_MIN LONG_MAX
  rw [if_neg (by omega), if_neg (by omega)]
  exact to_int_of_range _ h

theorem atoi_decimal_int (z : Int) (tail : List Char)
    (h : ∀ c, tail.head? = some c → isdigit c = false)
    (hr : INT_MIN ≤ z ∧ z ≤ INT_MAX) :
    atoi (decimal_int z ++ tail) = z := by
  have hv := numeral_value_decimal_int z tail h
  rw [atoi_of_range _ (by rw [hv]; exact hr), hv]

/-- Beyond the range of `int` the result of `atoi` is not the number that
the text denotes. -/
theorem atoi_beyond_int :
    atoi ("2147483648").toList = -2147483648 ∧
    atoi ("99999999999").toList = 1215752191 ∧
    atoi ("9223372036854775808").toList = -1 := by
  decide

theorem take_drop_token (tk s : List Char) (h : ∀ c, c ∈ tk → c ≠ ' ') :
    (tk ++ ' ' :: s).takeWhile (fun c => c != ' ') = tk ∧
    (tk ++ ' ' :: s).dropWhile (fun c => c != ' ') = ' ' :: s ∧
    tk.takeWhile (fun c => c != ' ') = tk ∧ tk.dropWhile (fun c => c != ' ') = [] := by
  induction tk with
  | nil => simp
  | cons c cs ih =>
    have hc : (c != ' ') = true := by
      simpa using h c (List.mem_cons_self c cs)
    obtain ⟨i1, i2, i3, i4⟩ := ih (fun c' hc' => h c' (List.mem_cons_of_mem c hc'))
    simp only [List.cons_append, List.takeWhile_cons, List.dropWhile_cons, hc, if_true]
    exact ⟨by rw [i1], i2, by rw [i3], i4⟩

theorem strtok_token (tk s : List Char) (h : good_token tk) :
    strtok (tk ++ ' ' :: s) = (some tk, s) ∧ strtok tk = (some tk, []) := by
  obtain ⟨hne, hsp⟩ := h
  obtain ⟨c, cs, rfl⟩ := List.exists_cons_of_ne_nil hne
  have hc : (c == ' ') = false := by
    simpa using hsp c (List.mem_cons_self c cs)
  obtain ⟨i1, i2, i3, i4⟩ := take_drop_token (c :: cs) s hsp
  constructor
  · unfold strtok
    rw [List.cons_append, List.dropWhile_cons_of_neg (by rw [hc]; decide)]
    simp only
    rw [← List.cons_append, i1, i2]
    rfl
  · unfold strtok
    rw [List.dropWhile_cons_of_neg (by rw [hc]; decide)]
    simp only
    rw [i3, i4]
    rfl

theorem strtok_nil : strtok [] = (none, []) := rfl

theorem strtok_join (tk : List Char) (r : List (List Char)) (h : good_token tk) :
    strtok (join_tokens (tk :: r)) = (some tk, join_tokens r) := by
  cases r with
  | nil => exact (strtok_token tk [] h).2
  | cons b r => exact (strtok_token tk (join_tokens (b :: r)) h).1

theorem next_value_join (ok : Nat → Bool) (u : arraylist) (tk : List Char)
    (r : List (List Char)) (h : good_token tk) :
    next_value ok (u, join_tokens (tk :: r)) =
      some (arraylist_add ok u (atoi tk), join_tokens r) := by
  unfold next_value
  simp only [strtok_join tk r h]

theorem values_loop_join (ok : Nat → Bool) (N : Nat) :
    ∀ (fuel : Nat) (ts : List (List Char)) (u : arraylist), N < fuel → ts.length = 6 * N →
      (∀ tk, tk ∈ ts → good_token tk) →
      values_loop ok fuel (strtok (join_tokens ts)).1 (strtok (join_tokens ts)).2 u =
        values_result.returned (ts.foldl (fun u tk => arraylist_add ok u (atoi tk)) u) := by
  induction N with
  | zero =>
    intro fuel ts u hf hlen _
    have : ts = [] := List.length_eq_zero.mp (by omega)
    subst this
    obtain ⟨f, rfl⟩ : ∃ f, fuel = f + 1 := ⟨fuel - 1, by omega⟩
    rfl
  | succ N ih =>
    intro fuel ts u hf hlen hg
    obtain ⟨f, rfl⟩ : ∃ f, fuel = f + 1 := ⟨fuel - 1, by omega⟩
    match ts, hlen, hg with
    | a1 :: a2 :: a3 :: a4 :: a5 :: a6 :: r, hlen, hg =>
      have g1 := hg a1 (by simp)
      have g2 := hg a2 (by simp)
      have g3 := hg a3 (by simp)
      have g4 := hg a4 (by simp)
      have g5 := hg a5 (by simp)
      have g6 := hg a6 (by simp)
      rw [strtok_join a1 _ g1]
      simp only [values_loop, next_value_join ok _ _ _ g2, next_value_join ok _ _ _ g3,
        next_value_join ok _ _ _ g4, next_value_join ok _ _ _ g5, next_value_join ok _ _ _ g6,
        Option.some_bind, List.foldl_cons]
      apply ih f r _ (by omega) (by simp at hlen; omega)
      intro tk htk
      exact hg tk (by simp [htk])

/-- Adding values to a list whose block holds exactly `size` elements, when
`realloc` succeeds. -/
theorem arraylist_add_foldl (ok : Nat → Bool) (hok : ∀ n, ok n = true)
    (tks : List (List Char)) (u : arraylist) (hu : u.data.length = u.size) :
    tks.foldl (fun u tk => arraylist_add ok u (atoi tk)) u =
      { size := u.size + tks.length, data := u.data ++ tks.map atoi } := by
  induction tks generalizing u with
  | nil => simp
  | cons tk tks ih =>
    have e : arraylist_add ok u (atoi tk) =
        { size := u.size + 1, data := u.data ++ [atoi tk] } := by
      unfold arraylist_add arraylist_get_size
      simp only [hok, if_true]
      rw [← hu, List.take_length, to_int_atoi]
    rw [List.foldl_cons, e, ih _ (by simp [hu])]
    simp [Nat.add_assoc, Nat.add_comm 1]

theorem join_tokens_length (ts : List (List Char)) (h : ∀ tk, tk ∈ ts → good_token tk) :
    ts.length ≤ (join_tokens ts).length := by
  induction ts with
  | nil => simp
  | cons a r ih =>
    have ha := (h a (List.mem_cons_self a r)).1
    have hl : 1 ≤ a.length := List.length_pos.mpr ha
    cases r with
    | nil => simpa [join_tokens] using hl
    | cons b r =>
      have := ih (fun tk htk => h tk (List.mem_cons_of_mem a htk))
      simp only [join_tokens, List.length_append, List.length_cons] at this ⊢
      omega

/-- What `values` returns on good tokens separated by single spaces. -/
theorem values_join (ok : Nat → Bool) (hok : ∀ n, ok n = true) (N : Nat)
    (ts : List (List Char)) (hlen : ts.length = 6 * N)
    (hg : ∀ tk, tk ∈ ts → good_token tk) :
    values ok arraylist_initial (join_tokens ts) =
      values_result.returned { size := 6 * N, data := ts.map atoi } := by
  unfold values
  have hl := join_tokens_length ts hg
  rw [values_loop_join ok N _ ts arraylist_initial (by omega) hlen hg,
    arraylist_add_foldl ok hok ts arraylist_initial rfl, hlen]
  simp [arraylist_initial]

/-- The same for a run that starts with a list whose block holds exactly
`size` elements: the values are appended. -/
theorem values_join_from (ok : Nat → Bool) (hok : ∀ n, ok n = true) (N : Nat)
    (u : arraylist) (hu : u.data.length = u.size)
    (ts : List (List Char)) (hlen : ts.length = 6 * N)
    (hg : ∀ tk, tk ∈ ts → good_token tk) :
    values ok u (join_tokens ts) =
      values_result.returned { size := u.size + 6 * N, data := u.data ++ ts.map atoi } := by
  unfold values
  have hl := join_tokens_length ts hg
  rw [values_loop_join ok N _ ts u (by omega) hlen hg, arraylist_add_foldl ok hok ts u hu, hlen]

theorem join_append_to_last (ts : List (List Char)) (s : List Char) (h : ts ≠ []) :
    join_tokens (append_to_last ts s) = join_tokens ts ++ s := by
  induction ts with
  | nil => exact absurd rfl h
  | cons a r ih =>
    cases r with
    | nil => rfl
    | cons b r =>
      have := ih (by simp)
      cases hr : append_to_last (b :: r) s with
      | nil =>
        cases r with
        | nil => simp [append_to_last] at hr
        | cons c r => simp [append_to_last] at hr
      | cons x xs =>
        rw [hr] at this
        simp only [append_to_last, hr, join_tokens, this, List.append_assoc, List.cons_append]

theorem decimal_int_good (z : Int) (tail : List Char) (ht : ∀ c, c ∈ tail → c ≠ ' ') :
    good_token (decimal_int z ++ tail) := by
  have hdec : ∀ c, c ∈ decimal z.natAbs → c ≠ ' ' := by
    obtain ⟨ds, -, hlt, -, hdec⟩ := decimal_digits z.natAbs
    intro c hc
    rw [hdec, List.mem_map] at hc
    obtain ⟨d, hd, rfl⟩ := hc
    exact (digit_char_facts d (hlt d (List.mem_reverse.mp hd))).2.2.2.1
  have hne : decimal z.natAbs ≠ [] := by
    obtain ⟨d, cs, -, h⟩ := decimal_cons z.natAbs
    rw [h]
    exact List.cons_ne_nil _ _
  unfold decimal_int
  split_ifs
  · refine ⟨by simp, ?_⟩
    intro c hc
    simp only [List.cons_append, List.mem_cons, List.mem_append] at hc
    rcases hc with rfl | hc | hc
    · decide
    · exact hdec c hc
    · exact ht c hc
  · refine ⟨by simp [hne], ?_⟩
    intro c hc
    rcases List.mem_append.mp hc with hc | hc
    · exact hdec c hc
    · exact ht c hc

theorem map_atoi_decimal (ns : List Int) (hr : ∀ z, z ∈ ns → INT_MIN ≤ z ∧ z ≤ INT_MAX) :
    (ns.map decimal_int).map atoi = ns := by
  induction ns with
  | nil => rfl
  | cons z ns ih =>
    have := atoi_decimal_int z [] (by simp) (hr z (List.mem_cons_self z ns))
    rw [List.append_nil] at this
    simp only [List.map_cons, this, ih (fun y hy => hr y (List.mem_cons_of_mem z hy))]

theorem map_atoi_decimal_newline (ns : List Int) (h : ns ≠ [])
    (hr : ∀ z, z ∈ ns → INT_MIN ≤ z ∧ z ≤ INT_MAX) :
    (append_to_last (ns.map decimal_int) [Char.ofNat 10]).map atoi = ns ∧
    ∀ tk, tk ∈ append_to_last (ns.map decimal_int) [Char.ofNat 10] → good_token tk := by
  induction ns with
  | nil => exact absurd rfl h
  | cons z ns ih =>
    have hrz := hr z (List.mem_cons_self z ns)
    have hz := atoi_decimal_int z [] (by simp) hrz
    rw [List.append_nil] at hz
    have hg := decimal_int_good z [] (by simp)
    rw [List.append_nil] at hg
    cases ns with
    | nil =>
      have hznl := atoi_decimal_int z [Char.ofNat 10] (by
        intro c hc
        simp only [List.head?_cons, Option.some.injEq] at hc
        rw [← hc]
        decide) hrz
      have hgnl := decimal_int_good z [Char.ofNat 10] (by
        intro c hc
        simp only [List.mem_singleton] at hc
        rw [hc]
        decide)
      refine ⟨by simp only [List.map_cons, List.map_nil, append_to_last, hznl], ?_⟩
      intro tk htk
      simp only [List.map_cons, List.map_nil, append_to_last, List.mem_singleton] at htk
      rw [htk]
      exact hgnl
    | cons y ns =>
      obtain ⟨i1, i2⟩ := ih (by simp) (fun y hy => hr y (List.mem_cons_of_mem z hy))
      simp only [List.map_cons, append_to_last] at i1 i2 ⊢
      refine ⟨by rw [i1, hz], ?_⟩
      intro tk htk
      rcases List.mem_cons.mp htk with rfl | htk
      · exact hg
      · exact i2 tk htk

/-! ## C11: batch parsing keeps content and order -/

/-- C11 (counterexample): the text `0 0 0 0 2147483648 64` is made of six
decimal integers separated by single spaces; the fifth element of the list
that `values` returns is `-2147483648`, not the fifth integer of the text. -/
theorem C11_values_beyond_int_counterexample :
    join_tokens ([0, 0, 0, 0, 2147483648, 64].map decimal_int) =
      ("0 0 0 0 2147483648 64").toList ∧
    values realloc_succeeds arraylist_initial ("0 0 0 0 2147483648 64").toList =
      values_result.returned { size := 6, data := [0, 0, 0, 0, -2147483648, 64] } :=
  ⟨by simp [join_tokens, decimal_int, decimal], by decide⟩

/-- C11 (amended): for every `N >= 1` and every list of `6 * N` integers in
the range of `int`, `values`, started with the empty list and with `realloc`
succeeding, returns on the text made of their decimal numerals separated by
single spaces a list of size exactly `6 * N` whose elements are those
integers in the order of the text; the same holds when the text ends with
the newline that `getline` leaves. -/
theorem C11_values_keeps_content_and_order (realloc_ok : Nat → Bool)
    (hok : ∀ n, realloc_ok n = true) (N : Nat) (ns : List Int) (hN : 1 ≤ N)
    (hlen : ns.length = 6 * N) (hr : ∀ z, z ∈ ns → INT_MIN ≤ z ∧ z ≤ INT_MAX) :
    values realloc_ok arraylist_initial (join_tokens (ns.map decimal_int)) =
      values_result.returned { size := 6 * N, data := ns } ∧
    values realloc_ok arraylist_initial
        (join_tokens (ns.map decimal_int) ++ [Char.ofNat 10]) =
      values_result.returned { size := 6 * N, data := ns } := by
  have hne : ns ≠ [] := by
    intro h
    rw [h] at hlen
    simp at hlen
    omega
  constructor
  · rw [values_join realloc_ok hok N _ (by simpa using hlen), map_atoi_decimal ns hr]
    intro tk htk
    rw [List.mem_map] at htk
    obtain ⟨z, -, rfl⟩ := htk
    have := decimal_int_good z [] (by simp)
    rwa [List.append_nil] at this
  · obtain ⟨h1, h2⟩ := map_atoi_decimal_newline ns hne hr
    rw [← join_append_to_last _ _ (by simpa using hne),
      values_join realloc_ok hok N _ ?_ h2, h1]
    have : ∀ (ts : List (List Char)) (s : List Char), ts ≠ [] →
        (append_to_last ts s).length = ts.length := by
      intro ts s
      induction ts with
      | nil => intro h; exact absurd rfl h
      | cons a r ih =>
        intro _
        cases r with
        | nil => rfl
        | cons b r =>
          have := ih (by simp)
          simp only [append_to_last, List.length_cons] at this ⊢
          omega
    rw [this _ _ (by simpa using hne)]
    simpa using hlen

/-- C11 at a concrete input: the text `0 0 10 10 64 64` gives the six
integers in order. -/
theorem C11_values_keeps_content_and_order_witness :
    (∀ z, z ∈ [(0 : Int), 0, 10, 10, 64, 64] → INT_MIN ≤ z ∧ z ≤ INT_MAX) ∧
    values realloc_succeeds arraylist_initial
        (join_tokens ([0, 0, 10, 10, 64, 64].map decimal_int)) =
      values_result.returned { size := 6 * 1, data := [0, 0, 10, 10, 64, 64] } ∧
    join_tokens ([0, 0, 10, 10, 64, 64].map decimal_int) = ("0 0 10 10 64 64").toList :=
  ⟨by decide,
    (C11_values_keeps_content_and_order realloc_succeeds (fun _ => rfl) 1
      [0, 0, 10, 10, 64, 64] (by decide) rfl (by decide)).1,
    by simp [join_tokens, decimal_int, decimal]⟩

/-! ## C12: a wrong token count -/

/-- A text that consists of spaces has no token. -/
theorem strtok_spaces (line : List Char) (hsp : ∀ c, c ∈ line → c = ' ') :
    strtok line = (none, []) := by
  have h : line.dropWhile (fun c => c == ' ') = [] := by
    rw [List.dropWhile_eq_nil_iff]
    intro c hc
    rw [hsp c hc]
    rfl
  unfold strtok
  rw [h]

/-- Three tokens: the fourth `strtok` call of the loop body returns `NULL`,
which is passed to `atoi`. -/
theorem values_three_tokens :
    values realloc_succeeds arraylist_initial ("1 2 3").toList = values_result.null_token := by
  decide

/-- C12 (counterexample): the empty text and a text of three spaces have no
token, and zero is not a positive multiple of six; `values` does not fail on
them, it returns a batch: the list it started from. -/
theorem C12_wrong_token_count_counterexample :
    values realloc_succeeds arraylist_initial [] =
      values_result.returned arraylist_initial ∧
    values realloc_succeeds arraylist_initial ("   ").toList =
      values_result.returned arraylist_initial := by
  decide

/-- C12 (amended): `values` counts no tokens and has no failure result.  On
every text without a token (empty, or spaces only) it returns the list it
started from, unchanged; for the empty batch the per-region loop makes no
`do_drop` call, and `main` makes no `do_drop1` call and writes the output. -/
theorem C12_text_without_token (realloc_ok : Nat → Bool) (u : arraylist) (line : List Char)
    (hsp : ∀ c, c ∈ line → c = ' ') :
    values realloc_ok u line = values_result.returned u ∧
    (∀ (pt : perfect_transform_fn) (src drop : jpeg_decompress_struct) (fuel : Nat)
        (t : jpeg_transform_info),
      do_drop1_loop pt src drop [] (fuel + 1) 0 t [] = loop_result.finished []) ∧
    (∀ (pt : perfect_transform_fn) (rw : request_workspace_fn)
        (image : jpeg_decompress_struct) (t : jpeg_transform_info),
      main pt rw image arraylist_initial t =
        { events := [main_event.output_opened, main_event.output_written,
            main_event.output_closed]
          exit_status := 0 }) := by
  refine ⟨?_, ?_, ?_⟩
  · unfold values
    rw [strtok_spaces line hsp]
    rfl
  · intro pt src drop fuel t
    rfl
  · intro pt rw image t
    rfl

theorem C12_text_without_token_witness :
    (∀ c, c ∈ ("  ").toList → c = ' ') ∧
    values realloc_succeeds arraylist_initial ("  ").toList =
      values_result.returned arraylist_initial :=
  ⟨by decide, (C12_text_without_token realloc_succeeds arraylist_initial ("  ").toList
    (by decide)).1⟩

/-! ## C13: a token that is not a number -/

/-- A token that starts with neither white space, a sign nor a digit
converts to 0. -/
theorem atoi_not_numeric (c : Char) (cs : List Char) (hd : isdigit c = false)
    (hs : isspace c = false) (hm : c ≠ '-') (hp : c ≠ '+') : atoi (c :: cs) = 0 := by
  have hv : numeral_value (c :: cs) = 0 := by
    unfold numeral_value
    rw [List.dropWhile_cons_of_neg (by rw [hs]; decide)]
    split
    · rename_i h; exact absurd (List.cons.inj h).1 hm
    · rename_i h; exact absurd (List.cons.inj h).1 hp
    · simp [atoi_digits, hd]
  rw [atoi_of_range _ (by rw [hv]; decide), hv]

/-- C13 (counterexample): the six-token text `0 0 abc 10 64 64` is parsed
without a failure; the batch returned holds 0 in the place of `abc`. -/
theorem C13_non_numeric_token_counterexample :
    values realloc_succeeds arraylist_initial ("0 0 abc 10 64 64").toList =
      values_result.returned { size := 6, data := [0, 0, 0, 10, 64, 64] } := by
  decide

/-- C13 (amended): for every text of six tokens separated by single spaces,
`values`, with `realloc` succeeding and started with a list whose block
holds exactly `size` elements (the empty list is one), returns that list
followed by six integers, the `atoi` value of each token in order.  Every
`atoi` value is in the range of `int`, and a token that starts with neither
white space, a sign nor a digit becomes 0. -/
theorem C13_tokens_become_atoi_values (realloc_ok : Nat → Bool)
    (hok : ∀ n, realloc_ok n = true) (u : arraylist) (hu : u.data.length = u.size)
    (ts : List (List Char)) (hlen : ts.length = 6)
    (hg : ∀ tk, tk ∈ ts → good_token tk) :
    values realloc_ok u (join_tokens ts) =
      values_result.returned { size := u.size + 6, data := u.data ++ ts.map atoi } ∧
    (∀ tk, tk ∈ ts → INT_MIN ≤ atoi tk ∧ atoi tk ≤ INT_MAX) ∧
    (∀ (c : Char) (cs : List Char), c :: cs ∈ ts → isdigit c = false → isspace c = false →
      c ≠ '-' → c ≠ '+' → atoi (c :: cs) = 0) :=
  ⟨values_join_from realloc_ok hok 1 u hu ts (by rw [hlen]) hg,
    fun tk _ => atoi_range tk,
    fun c cs _ hd hs hm hp => atoi_not_numeric c cs hd hs hm hp⟩

/-- C13 at concrete inputs: the text `0 0 abc 10 64 64`, from the empty
list. -/
theorem C13_tokens_become_atoi_values_witness :
    values realloc_succeeds arraylist_initial
        (join_tokens [['0'], ['0'], ['a', 'b', 'c'], ['1', '0'], ['6', '4'], ['6', '4']]) =
      values_result.returned
        { size := arraylist_initial.size + 6
          data := arraylist_initial.data ++
            [['0'], ['0'], ['a', 'b', 'c'], ['1', '0'], ['6', '4'], ['6', '4']].map atoi } ∧
    join_tokens [['0'], ['0'], ['a', 'b', 'c'], ['1', '0'], ['6', '4'], ['6', '4']] =
      ("0 0 abc 10 64 64").toList ∧
    arraylist_initial.data ++
        [['0'], ['0'], ['a', 'b', 'c'], ['1', '0'], ['6', '4'], ['6', '4']].map atoi =
      [0, 0, 0, 10, 64, 64] :=
  ⟨(C13_tokens_become_atoi_values realloc_succeeds (fun _ => rfl) arraylist_initial rfl
      [['0'], ['0'], ['a', 'b', 'c'], ['1', '0'], ['6', '4'], ['6', '4']] rfl
      (by decide)).1, by decide, by decide⟩

/-! ## C14: how the batch is iterated -/

/-- C15 (failing input): the batch `0 0 200 200 64 64` on a 128 by 128 image.
The first alignment of the region is rejected by the bounds validation
(`200 + 32 > 128`), the per-region loop returns out of `do_drop1` without a
`do_drop` call, and `main` goes on: it opens, writes and closes the output
file and returns 0, as it does after a batch without a failure.  When the
workspace request of lines 726-729 fails, the run ends with
`EXIT_FAILURE` before the output is opened. -/
theorem C15_failed_alignment_output_written :
    values realloc_succeeds arraylist_initial ("0 0 200 200 64 64").toList =
      values_result.returned { size := 6, data := [0, 0, 200, 200, 64, 64] } ∧
    align_block1 always_perfect (image_420 128 128) (image_420 128 128)
      (src_request
        (do_drop1_setup { header_request (blank_options 0) 0 0 with num_components := 3 } 0 0)
        [0, 0, 200, 200, 64, 64] 0) = none ∧
    main always_perfect (workspace_ok 3) (image_420 128 128)
        { size := 6, data := [0, 0, 200, 200, 64, 64] } (blank_options 0) =
      { events :=
          [main_event.do_drop1_called 0 0 (do_drop1_result.ran (loop_result.returned [])),
           main_event.output_opened, main_event.output_written, main_event.output_closed]
        exit_status := 0 } ∧
    main always_perfect (fun _ => none) (image_420 128 128)
        { size := 6, data := [0, 0, 200, 200, 64, 64] } (blank_options 0) =
      { events := [], exit_status := 1 } := by
  decide

/-! ## C16: the frame of a transplant -/

/-- C16: take a region whose source and destination offsets are the same
pair, run with the working image as the drop image, whose alignments succeed
so that `do_drop` is called.  The aligned source offset handed to `do_drop`
is then the aligned destination offset, and every block outside the aligned
destination rectangle is in the result the block of the original image. -/
theorem C16_identity_transplant_frame {β : Type} (pt : perfect_transform_fn)
    (image : jpeg_decompress_struct) (coef : coef_arrays β) (decoder : List Nat)
    (number : Nat) (t td : jpeg_transform_info) (call : do_drop_args)
    (hT : t.transform = JXFORM_DROP)
    (hW : image.output_width < UINT_RANGE) (hH : image.output_height < UINT_RANGE)
    (hx : decoder.getD (number + 2) 0 = decoder.getD number 0)
    (hy : decoder.getD (number + 3) 0 = decoder.getD (number + 1) 0)
    (hreg : do_drop1_region pt image image decoder number t = some (td, call)) :
    call.crop1 = call.x_crop_offset ∧ call.crop2 = call.y_crop_offset ∧
    ∀ ci row col, ¬ in_drop_rectangle image call ci row col →
      do_drop image coef coef call ci row col = coef ci row col := by
  obtain ⟨tb, h1, h2, hcall⟩ := do_drop1_region_some pt image image decoder number t td call hreg
  obtain ⟨htb, -, -⟩ := align_block1_src_some pt image image decoder number t tb hT hW hH h1
  have hTb : tb.transform = JXFORM_DROP := by rw [htb]; exact hT
  obtain ⟨htd, -⟩ := align_block2_drop_some pt image image _ td
    (dest_request_drop tb decoder number hTb) hW hH h2
  refine ⟨?_, ?_, ?_⟩
  · rw [hcall, htd, htb]
    simp only [drop_aligned, src_request, dest_request, crop_request,
      jtransform_parse_crop_spec, hx]
  · rw [hcall, htd, htb]
    simp only [drop_aligned, src_request, dest_request, crop_request,
      jtransform_parse_crop_spec, hy]
  · intro ci row col hout
    unfold do_drop
    exact if_neg hout

theorem C16_identity_transplant_frame_witness :
    do_drop1_region always_perfect (image_420 128 128) (image_420 128 128)
        [16, 16, 16, 16, 32, 32] 0 loop_entry =
      some (drop_aligned (image_420 128 128)
          (dest_request (drop_aligned (image_420 128 128)
            (src_request loop_entry [16, 16, 16, 16, 32, 32] 0)) [16, 16, 16, 16, 32, 32] 0),
        { x_crop_offset := 1, y_crop_offset := 1, drop_width := 2, drop_height := 2,
          crop1 := 1, crop2 := 1 }) ∧
    ¬ in_drop_rectangle (image_420 128 128)
        { x_crop_offset := 1, y_crop_offset := 1, drop_width := 2, drop_height := 2,
          crop1 := 1, crop2 := 1 } 0 1 6 ∧
    do_drop (image_420 128 128) numbered_blocks numbered_blocks
        { x_crop_offset := 1, y_crop_offset := 1, drop_width := 2, drop_height := 2,
          crop1 := 1, crop2 := 1 } 0 1 6 = numbered_blocks 0 1 6 :=
  ⟨by decide, by decide,
    (C16_identity_transplant_frame always_perfect (image_420 128 128) numbered_blocks
      [16, 16, 16, 16, 32, 32] 0 loop_entry
      (drop_aligned (image_420 128 128)
        (dest_request (drop_aligned (image_420 128 128)
          (src_request loop_entry [16, 16, 16, 16, 32, 32] 0)) [16, 16, 16, 16, 32, 32] 0))
      { x_crop_offset := 1, y_crop_offset := 1, drop_width := 2, drop_height := 2,
        crop1 := 1, crop2 := 1 }
      rfl (by decide) (by decide) rfl rfl (by decide)).2.2 0 1 6 (by decide)⟩

/-! ## C21: the destination alignment and the source offset -/

/-- A region that reaches the `do_drop` call leaves `transformoption` a
drop. -/
theorem do_drop1_region_keeps_drop (pt : perfect_transform_fn)
    (src drop : jpeg_decompress_struct) (decoder : List Nat) (number : Nat)
    (t td : jpeg_transform_info) (call : do_drop_args)
    (hT : t.transform = JXFORM_DROP)
    (hW : src.output_width < UINT_RANGE) (hH : src.output_height < UINT_RANGE)
    (hreg : do_drop1_region pt src drop decoder number t = some (td, call)) :
    td.transform = JXFORM_DROP := by
  obtain ⟨tb, h1, h2, -⟩ := do_drop1_region_some pt src drop decoder number t td call hreg
  obtain ⟨htb, -, -⟩ := align_block1_src_some pt src drop decoder number t tb hT hW hH h1
  have hTb : tb.transform = JXFORM_DROP := by rw [htb]; exact hT
  obtain ⟨htd, -⟩ := align_block2_drop_some pt src drop _ td
    (dest_request_drop tb decoder number hTb) hW hH h2
  rw [htd]
  exact hTb

/-- Line 764 holds throughout the loop: every region is entered with
`transformoption.transform = JXFORM_DROP`. -/
theorem state_after_drop (pt : perfect_transform_fn) (src drop : jpeg_decompress_struct)
    (decoder : List Nat) (t : jpeg_transform_info) (x y : Nat)
    (hW : src.output_width < UINT_RANGE) (hH : src.output_height < UINT_RANGE) (k : Nat) :
    (state_after pt src drop decoder (do_drop1_setup t x y) k).transform = JXFORM_DROP := by
  induction k with
  | zero => rfl
  | succ k ih =>
    cases hr : do_drop1_region pt src drop decoder (6 * k)
        (state_after pt src drop decoder (do_drop1_setup t x y) k) with
    | none => simp only [state_after, hr]; exact ih
    | some p =>
      obtain ⟨td, call⟩ := p
      simp only [state_after, hr]
      exact do_drop1_region_keeps_drop pt src drop decoder (6 * k) _ td call ih hW hH hr

/-- The destination request built after an accepted source alignment does
not depend on the source offset, apart from the four fields that the
alignment block overwrites without reading them. -/
theorem dest_request_after_source (src : jpeg_decompress_struct)
    (dec1 dec2 : List Nat) (n1 n2 : Nat) (t : jpeg_transform_info)
    (h0 : dec1.getD n1 0 = dec2.getD n2 0)
    (h1 : dec1.getD (n1 + 1) 0 = dec2.getD (n2 + 1) 0)
    (h4 : dec1.getD (n1 + 4) 0 = dec2.getD (n2 + 4) 0)
    (h5 : dec1.getD (n1 + 5) 0 = dec2.getD (n2 + 5) 0) :
    dest_request (drop_aligned src (src_request t dec1 n1)) dec1 n1 =
      { dest_request (drop_aligned src (src_request t dec2 n2)) dec2 n2 with
        x_crop_offset := (drop_aligned src (src_request t dec1 n1)).x_crop_offset
        y_crop_offset := (drop_aligned src (src_request t dec1 n1)).y_crop_offset
        drop_width := (drop_aligned src (src_request t dec1 n1)).drop_width
        drop_height := (drop_aligned src (src_request t dec1 n1)).drop_height } := by
  simp only [dest_request, crop_request, jtransform_parse_crop_spec, drop_aligned, src_request,
    h0, h1, h4, h5]

/-- C21: take two regions that agree on the integers of the destination
offset and of the size, run from the same `transformoption`, whose source
alignments are both accepted.  Then the destination alignment takes the same
decision for both, and when it returns a result the results are the same
record, so that `x_crop_offset`, `y_crop_offset`, `drop_width` and
`drop_height` agree.  `transformoption.transform` is `JXFORM_DROP`
throughout the loop (line 764). -/
theorem C21_no_leak_from_source_alignment (pt : perfect_transform_fn)
    (src drop : jpeg_decompress_struct) (dec1 dec2 : List Nat) (n1 n2 : Nat)
    (t tb1 tb2 : jpeg_transform_info) (hT : t.transform = JXFORM_DROP)
    (hW : src.output_width < UINT_RANGE) (hH : src.output_height < UINT_RANGE)
    (h0 : dec1.getD n1 0 = dec2.getD n2 0)
    (h1 : dec1.getD (n1 + 1) 0 = dec2.getD (n2 + 1) 0)
    (h4 : dec1.getD (n1 + 4) 0 = dec2.getD (n2 + 4) 0)
    (h5 : dec1.getD (n1 + 5) 0 = dec2.getD (n2 + 5) 0)
    (ha1 : align_block1 pt src drop (src_request t dec1 n1) = some tb1)
    (ha2 : align_block1 pt src drop (src_request t dec2 n2) = some tb2) :
    align_block2 pt src drop (dest_request tb1 dec1 n1) =
      align_block2 pt src drop (dest_request tb2 dec2 n2) ∧
    (align_block2 pt src drop (dest_request tb1 dec1 n1)).isSome =
      (align_block2 pt src drop (dest_request tb2 dec2 n2)).isSome ∧
    ∀ r1 r2, align_block2 pt src drop (dest_request tb1 dec1 n1) = some r1 →
      align_block2 pt src drop (dest_request tb2 dec2 n2) = some r2 →
      r1.x_crop_offset = r2.x_crop_offset ∧ r1.y_crop_offset = r2.y_crop_offset ∧
      r1.drop_width = r2.drop_width ∧ r1.drop_height = r2.drop_height := by
  obtain ⟨e1, -, -⟩ := align_block1_src_some pt src drop dec1 n1 t tb1 hT hW hH ha1
  obtain ⟨e2, -, -⟩ := align_block1_src_some pt src drop dec2 n2 t tb2 hT hW hH ha2
  have hT1 : tb1.transform = JXFORM_DROP := by rw [e1]; exact hT
  have hT2 : tb2.transform = JXFORM_DROP := by rw [e2]; exact hT
  have hq := dest_request_after_source src dec1 dec2 n1 n2 t h0 h1 h4 h5
  rw [← e1, ← e2] at hq
  have heq : align_block2 pt src drop (dest_request tb1 dec1 n1) =
      align_block2 pt src drop (dest_request tb2 dec2 n2) := by
    rw [align_block2_drop_char pt src drop _ (dest_request_drop tb1 dec1 n1 hT1) hW hH,
      align_block2_drop_char pt src drop _ (dest_request_drop tb2 dec2 n2 hT2) hW hH, hq]
    rfl
  refine ⟨heq, by rw [heq], ?_⟩
  intro r1 r2 hr1 hr2
  rw [heq, hr2] at hr1
  rw [← Option.some.inj hr1]
  exact ⟨rfl, rfl, rfl, rfl⟩

/-- C21 at concrete inputs: on a 128x128 4:2:0 image the regions
`0 0 10 10 64 64` and `0 0 40 40 64 64` have the aligned source offsets 1
and 3, and the same destination alignment: offset (0, 0), size 4 by 4. -/
theorem C21_no_leak_from_source_alignment_witness :
    ((drop_aligned (image_420 128 128)
        (src_request loop_entry [0, 0, 10, 10, 64, 64] 0)).x_crop_offset = 1 ∧
      (drop_aligned (image_420 128 128)
        (src_request loop_entry [0, 0, 40, 40, 64, 64] 0)).x_crop_offset = 3) ∧
    align_block2 always_perfect (image_420 128 128) (image_420 128 128)
        (dest_request (drop_aligned (image_420 128 128)
          (src_request loop_entry [0, 0, 10, 10, 64, 64] 0)) [0, 0, 10, 10, 64, 64] 0) =
      align_block2 always_perfect (image_420 128 128) (image_420 128 128)
        (dest_request (drop_aligned (image_420 128 128)
          (src_request loop_entry [0, 0, 40, 40, 64, 64] 0)) [0, 0, 40, 40, 64, 64] 0) :=
  ⟨by decide,
    (C21_no_leak_from_source_alignment always_perfect (image_420 128 128) (image_420 128 128)
      [0, 0, 10, 10, 64, 64] [0, 0, 40, 40, 64, 64] 0 0 loop_entry
      (drop_aligned (image_420 128 128) (src_request loop_entry [0, 0, 10, 10, 64, 64] 0))
      (drop_aligned (image_420 128 128) (src_request loop_entry [0, 0, 40, 40, 64, 64] 0))
      rfl (by decide) (by decide) rfl rfl rfl rfl (by decide) (by decide)).1⟩

/-! ## C22: the aligned drop rectangle and the iMCU grid -/

/-- One axis of C22 over the natural numbers: the snapped offset plus the
snapped size is at most the number of iMCUs of the image. -/
theorem drop_axis_in_grid {u x w W xI wI : Nat} (hu : 1 ≤ u) (hw : 0 < w) (hxw : x + w ≤ W)
    (hxI : xI * u = x + snap_delta u x)
    (hwI : wI = if w ≤ snap_delta u x then 0
      else if x + w = W then (w - snap_delta u x + u - 1) / u
      else (w - snap_delta u x) / u) :
    xI + wI ≤ (W + u - 1) / u := by
  have hd := snap_delta_lt x hu
  obtain ⟨h1, h2⟩ := drop_axis_within hu hw hxI hwI
  rw [Nat.le_div_iff_mul_le (by omega)]
  by_cases he : x + w = W
  · have := (h2 he).2.2
    omega
  · rcases Nat.eq_zero_or_pos wI with h0 | hpos
    · rw [h0, Nat.add_zero, hxI]
      omega
    · have := (h1 he).2 hpos
      omega

/-- The aligned rectangle of an accepted drop request in the iMCU grid. -/
theorem align_block2_drop_in_grid (pt : perfect_transform_fn)
    (src drop : jpeg_decompress_struct) (t r : jpeg_transform_info)
    (hreq : drop_request t)
    (hux : 1 ≤ iMCU_width src t.num_components)
    (huy : 1 ≤ iMCU_height src t.num_components)
    (hW : src.output_width + iMCU_width src t.num_components ≤ UINT_RANGE)
    (hH : src.output_height + iMCU_height src t.num_components ≤ UINT_RANGE)
    (hacc : align_block2 pt src drop t = some r) :
    r.x_crop_offset + r.drop_width ≤
      (src.output_width + iMCU_width src t.num_components - 1) /
        iMCU_width src t.num_components ∧
    r.y_crop_offset + r.drop_height ≤
      (src.output_height + iMCU_height src t.num_components - 1) /
        iMCU_height src t.num_components := by
  obtain ⟨hr, -, hw, hxw, hh, hyh⟩ :=
    align_block2_drop_some pt src drop t r hreq (by omega) (by omega) hacc
  subst hr
  exact ⟨drop_axis_in_grid hux hw hxw (snapped_offset_exact hux (by omega))
      (drop_size_eq hux hxw hW),
    drop_axis_in_grid huy hh hyh (snapped_offset_exact huy (by omega))
      (drop_size_eq huy hyh hH)⟩

/-- C22: for a drop request on which the second alignment block returns a
result, with image size `W` by `H` and iMCU unit `(ux, uy)`, the result
satisfies `x_crop_offset + drop_width <= ceil (W / ux)` and
`y_crop_offset + drop_height <= ceil (H / uy)`; a zero drop size and a
request that reaches the far edge are included.  The destination rectangle
of every `do_drop` call of the per-region loop satisfies the same bounds.
The image dimension plus the unit is assumed to fit in `unsigned int`. -/
theorem C22_drop_rectangle_in_grid (pt : perfect_transform_fn)
    (src drop : jpeg_decompress_struct) (t r : jpeg_transform_info)
    (hreq : drop_request t)
    (hux : 1 ≤ iMCU_width src t.num_components)
    (huy : 1 ≤ iMCU_height src t.num_components)
    (hW : src.output_width + iMCU_width src t.num_components ≤ UINT_RANGE)
    (hH : src.output_height + iMCU_height src t.num_components ≤ UINT_RANGE)
    (hacc : align_block2 pt src drop t = some r) :
    (r.iMCU_sample_width = iMCU_width src t.num_components ∧
      r.iMCU_sample_height = iMCU_height src t.num_components ∧
      r.x_crop_offset + r.drop_width ≤
        (src.output_width + r.iMCU_sample_width - 1) / r.iMCU_sample_width ∧
      r.y_crop_offset + r.drop_height ≤
        (src.output_height + r.iMCU_sample_height - 1) / r.iMCU_sample_height) ∧
    (∀ (decoder : List Nat) (number : Nat) (t0 td : jpeg_transform_info)
        (call : do_drop_args),
      t0.transform = JXFORM_DROP → t0.num_components = t.num_components →
      do_drop1_region pt src drop decoder number t0 = some (td, call) →
      call.x_crop_offset + call.drop_width ≤
        (src.output_width + iMCU_width src t.num_components - 1) /
          iMCU_width src t.num_components ∧
      call.y_crop_offset + call.drop_height ≤
        (src.output_height + iMCU_height src t.num_components - 1) /
          iMCU_height src t.num_components) := by
  constructor
  · obtain ⟨hr, -⟩ := align_block2_drop_some pt src drop t r hreq (by omega) (by omega) hacc
    have hg := align_block2_drop_in_grid pt src drop t r hreq hux huy hW hH hacc
    rw [hr] at hg ⊢
    exact ⟨rfl, rfl, hg⟩
  · intro decoder number t0 td call hT0 hn0 hreg
    obtain ⟨tb, h1, h2, hcall⟩ :=
      do_drop1_region_some pt src drop decoder number t0 td call hreg
    obtain ⟨htb, -, -⟩ :=
      align_block1_src_some pt src drop decoder number t0 tb hT0 (by omega) (by omega) h1
    have hTb : tb.transform = JXFORM_DROP := by rw [htb]; exact hT0
    have hnb : (dest_request tb decoder number).num_components = t.num_components := by
      rw [htb]; exact hn0
    have hg := align_block2_drop_in_grid pt src drop (dest_request tb decoder number) td
      (dest_request_drop tb decoder number hTb) (by rw [hnb]; exact hux)
      (by rw [hnb]; exact huy) (by rw [hnb]; exact hW) (by rw [hnb]; exact hH) h2
    rw [hnb] at hg
    rw [hcall]
    exact hg

/-- C22 at concrete inputs, on a 100x100 4:2:0 image (unit 16, seven iMCUs
per row): the request 90x90+10+10 reaches the far edge and gets
`1 + 6 = 7` iMCUs; the request 4x4+10+10 gets the size zero at offset 1. -/
theorem C22_drop_rectangle_in_grid_witness :
    ((drop_aligned (image_420 100 100) (crop_request loop_entry 10 10 90 90)).x_crop_offset = 1 ∧
      (drop_aligned (image_420 100 100) (crop_request loop_entry 10 10 90 90)).drop_width = 6 ∧
      (100 + 16 - 1) / 16 = 7) ∧
    (drop_aligned (image_420 100 100) (crop_request loop_entry 10 10 4 4)).x_crop_offset +
        (drop_aligned (image_420 100 100) (crop_request loop_entry 10 10 4 4)).drop_width ≤
      (100 + 16 - 1) / 16 ∧
    (drop_aligned (image_420 100 100) (crop_request loop_entry 10 10 90 90)).x_crop_offset +
        (drop_aligned (image_420 100 100) (crop_request loop_entry 10 10 90 90)).drop_width ≤
      (100 + 16 - 1) / 16 :=
  ⟨by decide,
    (C22_drop_rectangle_in_grid always_perfect (image_420 100 100) (image_420 100 100)
      (crop_request loop_entry 10 10 4 4)
      (drop_aligned (image_420 100 100) (crop_request loop_entry 10 10 4 4))
      (by decide) (by decide) (by decide) (by decide) (by decide) (by decide)).1.2.2.1,
    (C22_drop_rectangle_in_grid always_perfect (image_420 100 100) (image_420 100 100)
      (crop_request loop_entry 10 10 90 90)
      (drop_aligned (image_420 100 100) (crop_request loop_entry 10 10 90 90))
      (by decide) (by decide) (by decide) (by decide) (by decide) (by decide)).1.2.2.1⟩

/-! ## C23: the source window is 32 by 32 -/

/-- C23: the first alignment of a region is a drop request of the constant
size 32 by 32 at the source offset, whatever the width and height fields of
the region are.  If the image is narrower or lower than 32, or the source
offset is beyond `W - 32` or `H - 32`, the first alignment block returns,
the region makes no `do_drop` call and the loop returns with the calls made
before.  `transformoption.transform` is `JXFORM_DROP` throughout the loop
(line 764). -/
theorem C23_fixed_source_window (pt : perfect_transform_fn)
    (src drop : jpeg_decompress_struct) (decoder : List Nat) (number : Nat)
    (t : jpeg_transform_info) (hT : t.transform = JXFORM_DROP)
    (hW : src.output_width < UINT_RANGE) (hH : src.output_height < UINT_RANGE)
    (hout : src.output_width < 32 ∨ src.output_height < 32 ∨
      src.output_width - 32 < decoder.getD (number + 2) 0 ∨
      src.output_height - 32 < decoder.getD (number + 3) 0) :
    ((src_request t decoder number).transform = JXFORM_DROP ∧
      (src_request t decoder number).crop_width = 32 ∧
      (src_request t decoder number).crop_width_set = JCROP_POS ∧
      (src_request t decoder number).crop_height = 32 ∧
      (src_request t decoder number).crop_height_set = JCROP_POS ∧
      (src_request t decoder number).crop_xoffset = decoder.getD (number + 2) 0 ∧
      (src_request t decoder number).crop_yoffset = decoder.getD (number + 3) 0) ∧
    align_block1 pt src drop (src_request t decoder number) = none ∧
    do_drop1_region pt src drop decoder number t = none ∧
    (∀ (fuel : Nat) (calls : List do_drop_args), number < decoder.length →
      do_drop1_loop pt src drop decoder (fuel + 1) number t calls =
        loop_result.returned calls) := by
  have h1 : align_block1 pt src drop (src_request t decoder number) = none := by
    cases h : align_block1 pt src drop (src_request t decoder number) with
    | none => rfl
    | some tb =>
      obtain ⟨-, hx, hy⟩ := align_block1_src_some pt src drop decoder number t tb hT hW hH h
      omega
  have h2 : do_drop1_region pt src drop decoder number t = none := by
    unfold do_drop1_region
    rw [h1]
    rfl
  refine ⟨⟨hT, rfl, rfl, rfl, rfl, rfl, rfl⟩, h1, h2, ?_⟩
  intro fuel calls hn
  unfold do_drop1_loop
  rw [if_pos hn, h2]

/-- C23 at concrete inputs: on a 128x128 image a region of size 8x8 with
source offset (100, 100) and destination offset (0, 0) lies inside the
image, but `100 > 128 - 32`: the loop returns without a `do_drop` call. -/
theorem C23_fixed_source_window_witness :
    do_drop1_region always_perfect (image_420 128 128) (image_420 128 128)
        [0, 0, 100, 100, 8, 8] 0 loop_entry = none ∧
    do_drop1_loop always_perfect (image_420 128 128) (image_420 128 128)
        [0, 0, 100, 100, 8, 8] (6 + 1) 0 loop_entry [] = loop_result.returned [] :=
  ⟨(C23_fixed_source_window always_perfect (image_420 128 128) (image_420 128 128)
      [0, 0, 100, 100, 8, 8] 0 loop_entry rfl (by decide) (by decide)
      (Or.inr (Or.inr (Or.inl (by decide))))).2.2.1,
    (C23_fixed_source_window always_perfect (image_420 128 128) (image_420 128 128)
      [0, 0, 100, 100, 8, 8] 0 loop_entry rfl (by decide) (by decide)
      (Or.inr (Or.inr (Or.inl (by decide))))).2.2.2 6 [] (by decide)⟩

/-! ## C24: the sampling check on images with the same sampling -/

/-- C24: when the drop image has the component count, the sampling factors
of every component and the maximum sampling factors of the working image,
every component passes both sampling equations, the sampling loop of either
block never returns early, and a drop request that passes the perfect test
and the bounds validation gets a result from either block.  For `main`,
which hands the same image to `do_drop1` as source and as drop image, the
sampling loop passes for every image. -/
theorem C24_sampling_check_reflexive (src drop : jpeg_decompress_struct)
    (hn : drop.num_components = src.num_components)
    (hmh : drop.max_h_samp_factor = src.max_h_samp_factor)
    (hmv : drop.max_v_samp_factor = src.max_v_samp_factor)
    (hc : ∀ ci, ci < src.num_components →
      (drop.comp_info ci).h_samp_factor = (src.comp_info ci).h_samp_factor ∧
      (drop.comp_info ci).v_samp_factor = (src.comp_info ci).v_samp_factor) :
    (∀ ci, ci < src.num_components → samp_factors_match src drop ci) ∧
    (∀ n, samp_loop1 src drop (min n drop.num_components) 0 = true ∧
      samp_loop2 src drop (min n drop.num_components) 0 = true) ∧
    (∀ (pt : perfect_transform_fn) (t : jpeg_transform_info), drop_request t →
      src.output_width < UINT_RANGE → src.output_height < UINT_RANGE →
      ¬ perfect_rejects2 pt src t →
      0 < t.crop_width → t.crop_xoffset + t.crop_width ≤ src.output_width →
      0 < t.crop_height → t.crop_yoffset + t.crop_height ≤ src.output_height →
      align_block1 pt src drop t = some (drop_aligned src t) ∧
      align_block2 pt src drop t = some (drop_aligned src t)) ∧
    (∀ (image : jpeg_decompress_struct) (n : Nat), samp_loop2 image image n 0 = true) := by
  have hm : ∀ ci, ci < src.num_components → samp_factors_match src drop ci := by
    intro ci hci
    obtain ⟨e1, e2⟩ := hc ci hci
    unfold samp_factors_match
    rw [e1, e2, hmh, hmv]
    exact ⟨rfl, rfl⟩
  have hl : ∀ n, samp_loop2 src drop (min n drop.num_components) 0 = true := by
    intro n
    rw [samp_loop2_iff]
    intro j hj
    rw [Nat.zero_add]
    exact hm j (by omega)
  refine ⟨hm, fun n => ⟨by rw [samp_loop1_eq_samp_loop2]; exact hl n, hl n⟩, ?_, ?_⟩
  · intro pt t hreq hW hH hperf hw hxw hh hyh
    have h2 : align_block2 pt src drop t = some (drop_aligned src t) := by
      rw [align_block2_drop_char pt src drop t hreq hW hH, if_neg hperf,
        if_neg (not_not.mpr ⟨hw, hxw, hh, hyh⟩), if_neg]
      rw [hl t.num_components]
      simp
    exact ⟨by rw [align_block1_eq_align_block2]; exact h2, h2⟩
  · intro image n
    rw [samp_loop2_iff]
    intro j _
    exact ⟨rfl, rfl⟩

/-- C24 at concrete inputs: a 4:2:0 image of another size has the sampling
of the working image; the drop request 64x64+0+0 gets its result. -/
theorem C24_sampling_check_reflexive_witness :
    samp_loop2 (image_420 128 128) (image_420 64 64) (min 3 3) 0 = true ∧
    align_block2 always_perfect (image_420 128 128) (image_420 64 64)
        (crop_request loop_entry 0 0 64 64) =
      some (drop_aligned (image_420 128 128) (crop_request loop_entry 0 0 64 64)) :=
  ⟨((C24_sampling_check_reflexive (image_420 128 128) (image_420 64 64) rfl rfl rfl
      (fun _ _ => ⟨rfl, rfl⟩)).2.1 3).2,
    ((C24_sampling_check_reflexive (image_420 128 128) (image_420 64 64) rfl rfl rfl
      (fun _ _ => ⟨rfl, rfl⟩)).2.2.1 always_perfect (crop_request loop_entry 0 0 64 64)
      (by decide) (by decide) (by decide) (by decide) (by decide) (by decide) (by decide)
      (by decide)).2⟩

end JpegTran
